import Mathlib

/-!
Verification of the QuickLaunch extension generator (`src/createExtension.ts`)
against its natural-language specification.

The development shallowly embeds the TypeScript source: strings are Lean
`String`s (lists of `Char`), the platform URL parser is an explicit function
parameter, network fetches and process arguments are explicit inputs, and the
side effects of `main` are recorded as an explicit trace of effect events.
-/

set_option maxRecDepth 100000

namespace QuickLaunch

/-- Code points matched by the JavaScript regular-expression class `\s`
(whitespace), used by both `String.prototype.trim` and the `/\s+/g` regex in
`sanitizeForFilename`. -/
def jsWhitespaceCodes : List Nat :=
  [9, 10, 11, 12, 13, 32, 160, 0x1680,
   0x2000, 0x2001, 0x2002, 0x2003, 0x2004, 0x2005, 0x2006, 0x2007,
   0x2008, 0x2009, 0x200A, 0x2028, 0x2029, 0x202F, 0x205F, 0x3000, 0xFEFF]

/-- Whether a character is JavaScript whitespace (`\s`). -/
def isJsWs (c : Char) : Bool := decide (c.toNat ∈ jsWhitespaceCodes)

/-- Code points of the characters removed by `sanitizeForFilename`:
the class `[\/\\?%*:|"<>]`, i.e. / \ ? % * : | " < > . -/
def illegalCodes : List Nat := [47, 92, 63, 37, 42, 58, 124, 34, 60, 62]

/-- Whether a character is in the removed class of `sanitizeForFilename`. -/
def isIllegal (c : Char) : Bool := decide (c.toNat ∈ illegalCodes)

/-- Whether a character is an ASCII uppercase letter `A`-`Z`. -/
def isAsciiUpper (c : Char) : Bool := 65 ≤ c.toNat && c.toNat ≤ 90

/-- Node shape of the binary search tree used to look up lowercase
mappings: keys are code points, values the code points of the full lowercase
mapping. -/
inductive LowerTree where
  | leaf
  | node (left : LowerTree) (key : Nat) (val : List Nat) (right : LowerTree)

/-- Search in a `LowerTree` by code point. -/
def treeFind (n : Nat) : LowerTree → Option (List Nat)
  | .leaf => none
  | .node l k v r =>
    if n < k then treeFind n l else if k < n then treeFind n r else some v

/-- Inorder traversal of a `LowerTree`. -/
def treeToList : LowerTree → List (Nat × List Nat)
  | .leaf => []
  | .node l k v r => treeToList l ++ (k, v) :: treeToList r

/-- Segment 0 of the Unicode lowercase mapping table. -/
def lowerTable0 : List (Nat × List Nat) :=
  [(0x41, [0x61]), (0x42, [0x62]), (0x43, [0x63]), (0x44, [0x64]), (0x45, [0x65]), (0x46, [0x66]),
   (0x47, [0x67]), (0x48, [0x68]), (0x49, [0x69]), (0x4a, [0x6a]), (0x4b, [0x6b]), (0x4c, [0x6c]),
   (0x4d, [0x6d]), (0x4e, [0x6e]), (0x4f, [0x6f]), (0x50, [0x70]), (0x51, [0x71]), (0x52, [0x72]),
   (0x53, [0x73]), (0x54, [0x74]), (0x55, [0x75]), (0x56, [0x76]), (0x57, [0x77]), (0x58, [0x78]),
   (0x59, [0x79]), (0x5a, [0x7a]), (0xc0, [0xe0]), (0xc1, [0xe1]), (0xc2, [0xe2]), (0xc3, [0xe3]),
   (0xc4, [0xe4]), (0xc5, [0xe5]), (0xc6, [0xe6]), (0xc7, [0xe7]), (0xc8, [0xe8]), (0xc9, [0xe9]),
   (0xca, [0xea]), (0xcb, [0xeb]), (0xcc, [0xec]), (0xcd, [0xed]), (0xce, [0xee]), (0xcf, [0xef]),
   (0xd0, [0xf0]), (0xd1, [0xf1]), (0xd2, [0xf2]), (0xd3, [0xf3]), (0xd4, [0xf4]), (0xd5, [0xf5]),
   (0xd6, [0xf6]), (0xd8, [0xf8]), (0xd9, [0xf9]), (0xda, [0xfa]), (0xdb, [0xfb]), (0xdc, [0xfc]),
   (0xdd, [0xfd]), (0xde, [0xfe]), (0x100, [0x101]), (0x102, [0x103]), (0x104, [0x105]),
   (0x106, [0x107]), (0x108, [0x109]), (0x10a, [0x10b]), (0x10c, [0x10d]), (0x10e, [0x10f]),
   (0x110, [0x111]), (0x112, [0x113]), (0x114, [0x115]), (0x116, [0x117]), (0x118, [0x119]),
   (0x11a, [0x11b]), (0x11c, [0x11d]), (0x11e, [0x11f]), (0x120, [0x121]), (0x122, [0x123]),
   (0x124, [0x125]), (0x126, [0x127]), (0x128, [0x129]), (0x12a, [0x12b]), (0x12c, [0x12d]),
   (0x12e, [0x12f]), (0x130, [0x69, 0x307]), (0x132, [0x133]), (0x134, [0x135]), (0x136, [0x137]),
   (0x139, [0x13a]), (0x13b, [0x13c]), (0x13d, [0x13e]), (0x13f, [0x140]), (0x141, [0x142]),
   (0x143, [0x144]), (0x145, [0x146]), (0x147, [0x148]), (0x14a, [0x14b]), (0x14c, [0x14d]),
   (0x14e, [0x14f]), (0x150, [0x151])]

/-- Segment 1 of the Unicode lowercase mapping table. -/
def lowerTable1 : List (Nat × List Nat) :=
  [(0x152, [0x153]), (0x154, [0x155]), (0x156, [0x157]), (0x158, [0x159]), (0x15a, [0x15b]),
   (0x15c, [0x15d]), (0x15e, [0x15f]), (0x160, [0x161]), (0x162, [0x163]), (0x164, [0x165]),
   (0x166, [0x167]), (0x168, [0x169]), (0x16a, [0x16b]), (0x16c, [0x16d]), (0x16e, [0x16f]),
   (0x170, [0x171]), (0x172, [0x173]), (0x174, [0x175]), (0x176, [0x177]), (0x178, [0xff]),
   (0x179, [0x17a]), (0x17b, [0x17c]), (0x17d, [0x17e]), (0x181, [0x253]), (0x182, [0x183]),
   (0x184, [0x185]), (0x186, [0x254]), (0x187, [0x188]), (0x189, [0x256]), (0x18a, [0x257]),
   (0x18b, [0x18c]), (0x18e, [0x1dd]), (0x18f, [0x259]), (0x190, [0x25b]), (0x191, [0x192]),
   (0x193, [0x260]), (0x194, [0x263]), (0x196, [0x269]), (0x197, [0x268]), (0x198, [0x199]),
   (0x19c, [0x26f]), (0x19d, [0x272]), (0x19f, [0x275]), (0x1a0, [0x1a1]), (0x1a2, [0x1a3]),
   (0x1a4, [0x1a5]), (0x1a6, [0x280]), (0x1a7, [0x1a8]), (0x1a9, [0x283]), (0x1ac, [0x1ad]),
   (0x1ae, [0x288]), (0x1af, [0x1b0]), (0x1b1, [0x28a]), (0x1b2, [0x28b]), (0x1b3, [0x1b4]),
   (0x1b5, [0x1b6]), (0x1b7, [0x292]), (0x1b8, [0x1b9]), (0x1bc, [0x1bd]), (0x1c4, [0x1c6]),
   (0x1c5, [0x1c6]), (0x1c7, [0x1c9]), (0x1c8, [0x1c9]), (0x1ca, [0x1cc]), (0x1cb, [0x1cc]),
   (0x1cd, [0x1ce]), (0x1cf, [0x1d0]), (0x1d1, [0x1d2]), (0x1d3, [0x1d4]), (0x1d5, [0x1d6]),
   (0x1d7, [0x1d8]), (0x1d9, [0x1da]), (0x1db, [0x1dc]), (0x1de, [0x1df]), (0x1e0, [0x1e1]),
   (0x1e2, [0x1e3]), (0x1e4, [0x1e5]), (0x1e6, [0x1e7]), (0x1e8, [0x1e9]), (0x1ea, [0x1eb]),
   (0x1ec, [0x1ed]), (0x1ee, [0x1ef]), (0x1f1, [0x1f3]), (0x1f2, [0x1f3]), (0x1f4, [0x1f5]),
   (0x1f6, [0x195]), (0x1f7, [0x1bf]), (0x1f8, [0x1f9]), (0x1fa, [0x1fb]), (0x1fc, [0x1fd]),
   (0x1fe, [0x1ff]), (0x200, [0x201]), (0x202, [0x203]), (0x204, [0x205]), (0x206, [0x207]),
   (0x208, [0x209])]

/-- Segment 2 of the Unicode lowercase mapping table. -/
def lowerTable2 : List (Nat × List Nat) :=
  [(0x20a, [0x20b]), (0x20c, [0x20d]), (0x20e, [0x20f]), (0x210, [0x211]), (0x212, [0x213]),
   (0x214, [0x215]), (0x216, [0x217]), (0x218, [0x219]), (0x21a, [0x21b]), (0x21c, [0x21d]),
   (0x21e, [0x21f]), (0x220, [0x19e]), (0x222, [0x223]), (0x224, [0x225]), (0x226, [0x227]),
   (0x228, [0x229]), (0x22a, [0x22b]), (0x22c, [0x22d]), (0x22e, [0x22f]), (0x230, [0x231]),
   (0x232, [0x233]), (0x23a, [0x2c65]), (0x23b, [0x23c]), (0x23d, [0x19a]), (0x23e, [0x2c66]),
   (0x241, [0x242]), (0x243, [0x180]), (0x244, [0x289]), (0x245, [0x28c]), (0x246, [0x247]),
   (0x248, [0x249]), (0x24a, [0x24b]), (0x24c, [0x24d]), (0x24e, [0x24f]), (0x370, [0x371]),
   (0x372, [0x373]), (0x376, [0x377]), (0x37f, [0x3f3]), (0x386, [0x3ac]), (0x388, [0x3ad]),
   (0x389, [0x3ae]), (0x38a, [0x3af]), (0x38c, [0x3cc]), (0x38e, [0x3cd]), (0x38f, [0x3ce]),
   (0x391, [0x3b1]), (0x392, [0x3b2]), (0x393, [0x3b3]), (0x394, [0x3b4]), (0x395, [0x3b5]),
   (0x396, [0x3b6]), (0x397, [0x3b7]), (0x398, [0x3b8]), (0x399, [0x3b9]), (0x39a, [0x3ba]),
   (0x39b, [0x3bb]), (0x39c, [0x3bc]), (0x39d, [0x3bd]), (0x39e, [0x3be]), (0x39f, [0x3bf]),
   (0x3a0, [0x3c0]), (0x3a1, [0x3c1]), (0x3a3, [0x3c3]), (0x3a4, [0x3c4]), (0x3a5, [0x3c5]),
   (0x3a6, [0x3c6]), (0x3a7, [0x3c7]), (0x3a8, [0x3c8]), (0x3a9, [0x3c9]), (0x3aa, [0x3ca]),
   (0x3ab, [0x3cb]), (0x3cf, [0x3d7]), (0x3d8, [0x3d9]), (0x3da, [0x3db]), (0x3dc, [0x3dd]),
   (0x3de, [0x3df]), (0x3e0, [0x3e1]), (0x3e2, [0x3e3]), (0x3e4, [0x3e5]), (0x3e6, [0x3e7]),
   (0x3e8, [0x3e9]), (0x3ea, [0x3eb]), (0x3ec, [0x3ed]), (0x3ee, [0x3ef]), (0x3f4, [0x3b8]),
   (0x3f7, [0x3f8]), (0x3f9, [0x3f2]), (0x3fa, [0x3fb]), (0x3fd, [0x37b]), (0x3fe, [0x37c]),
   (0x3ff, [0x37d]), (0x400, [0x450]), (0x401, [0x451]), (0x402, [0x452]), (0x403, [0x453]),
   (0x404, [0x454])]

/-- Segment 3 of the Unicode lowercase mapping table. -/
def lowerTable3 : List (Nat × List Nat) :=
  [(0x405, [0x455]), (0x406, [0x456]), (0x407, [0x457]), (0x408, [0x458]), (0x409, [0x459]),
   (0x40a, [0x45a]), (0x40b, [0x45b]), (0x40c, [0x45c]), (0x40d, [0x45d]), (0x40e, [0x45e]),
   (0x40f, [0x45f]), (0x410, [0x430]), (0x411, [0x431]), (0x412, [0x432]), (0x413, [0x433]),
   (0x414, [0x434]), (0x415, [0x435]), (0x416, [0x436]), (0x417, [0x437]), (0x418, [0x438]),
   (0x419, [0x439]), (0x41a, [0x43a]), (0x41b, [0x43b]), (0x41c, [0x43c]), (0x41d, [0x43d]),
   (0x41e, [0x43e]), (0x41f, [0x43f]), (0x420, [0x440]), (0x421, [0x441]), (0x422, [0x442]),
   (0x423, [0x443]), (0x424, [0x444]), (0x425, [0x445]), (0x426, [0x446]), (0x427, [0x447]),
   (0x428, [0x448]), (0x429, [0x449]), (0x42a, [0x44a]), (0x42b, [0x44b]), (0x42c, [0x44c]),
   (0x42d, [0x44d]), (0x42e, [0x44e]), (0x42f, [0x44f]), (0x460, [0x461]), (0x462, [0x463]),
   (0x464, [0x465]), (0x466, [0x467]), (0x468, [0x469]), (0x46a, [0x46b]), (0x46c, [0x46d]),
   (0x46e, [0x46f]), (0x470, [0x471]), (0x472, [0x473]), (0x474, [0x475]), (0x476, [0x477]),
   (0x478, [0x479]), (0x47a, [0x47b]), (0x47c, [0x47d]), (0x47e, [0x47f]), (0x480, [0x481]),
   (0x48a, [0x48b]), (0x48c, [0x48d]), (0x48e, [0x48f]), (0x490, [0x491]), (0x492, [0x493]),
   (0x494, [0x495]), (0x496, [0x497]), (0x498, [0x499]), (0x49a, [0x49b]), (0x49c, [0x49d]),
   (0x49e, [0x49f]), (0x4a0, [0x4a1]), (0x4a2, [0x4a3]), (0x4a4, [0x4a5]), (0x4a6, [0x4a7]),
   (0x4a8, [0x4a9]), (0x4aa, [0x4ab]), (0x4ac, [0x4ad]), (0x4ae, [0x4af]), (0x4b0, [0x4b1]),
   (0x4b2, [0x4b3]), (0x4b4, [0x4b5]), (0x4b6, [0x4b7]), (0x4b8, [0x4b9]), (0x4ba, [0x4bb]),
   (0x4bc, [0x4bd]), (0x4be, [0x4bf]), (0x4c0, [0x4cf]), (0x4c1, [0x4c2]), (0x4c3, [0x4c4]),
   (0x4c5, [0x4c6]), (0x4c7, [0x4c8]), (0x4c9, [0x4ca]), (0x4cb, [0x4cc]), (0x4cd, [0x4ce]),
   (0x4d0, [0x4d1])]

/-- Segment 4 of the Unicode lowercase mapping table. -/
def lowerTable4 : List (Nat × List Nat) :=
  [(0x4d2, [0x4d3]), (0x4d4, [0x4d5]), (0x4d6, [0x4d7]), (0x4d8, [0x4d9]), (0x4da, [0x4db]),
   (0x4dc, [0x4dd]), (0x4de, [0x4df]), (0x4e0, [0x4e1]), (0x4e2, [0x4e3]), (0x4e4, [0x4e5]),
   (0x4e6, [0x4e7]), (0x4e8, [0x4e9]), (0x4ea, [0x4eb]), (0x4ec, [0x4ed]), (0x4ee, [0x4ef]),
   (0x4f0, [0x4f1]), (0x4f2, [0x4f3]), (0x4f4, [0x4f5]), (0x4f6, [0x4f7]), (0x4f8, [0x4f9]),
   (0x4fa, [0x4fb]), (0x4fc, [0x4fd]), (0x4fe, [0x4ff]), (0x500, [0x501]), (0x502, [0x503]),
   (0x504, [0x505]), (0x506, [0x507]), (0x508, [0x509]), (0x50a, [0x50b]), (0x50c, [0x50d]),
   (0x50e, [0x50f]), (0x510, [0x511]), (0x512, [0x513]), (0x514, [0x515]), (0x516, [0x517]),
   (0x518, [0x519]), (0x51a, [0x51b]), (0x51c, [0x51d]), (0x51e, [0x51f]), (0x520, [0x521]),
   (0x522, [0x523]), (0x524, [0x525]), (0x526, [0x527]), (0x528, [0x529]), (0x52a, [0x52b]),
   (0x52c, [0x52d]), (0x52e, [0x52f]), (0x531, [0x561]), (0x532, [0x562]), (0x533, [0x563]),
   (0x534, [0x564]), (0x535, [0x565]), (0x536, [0x566]), (0x537, [0x567]), (0x538, [0x568]),
   (0x539, [0x569]), (0x53a, [0x56a]), (0x53b, [0x56b]), (0x53c, [0x56c]), (0x53d, [0x56d]),
   (0x53e, [0x56e]), (0x53f, [0x56f]), (0x540, [0x570]), (0x541, [0x571]), (0x542, [0x572]),
   (0x543, [0x573]), (0x544, [0x574]), (0x545, [0x575]), (0x546, [0x576]), (0x547, [0x577]),
   (0x548, [0x578]), (0x549, [0x579]), (0x54a, [0x57a]), (0x54b, [0x57b]), (0x54c, [0x57c]),
   (0x54d, [0x57d]), (0x54e, [0x57e]), (0x54f, [0x57f]), (0x550, [0x580]), (0x551, [0x581]),
   (0x552, [0x582]), (0x553, [0x583]), (0x554, [0x584]), (0x555, [0x585]), (0x556, [0x586]),
   (0x10a0, [0x2d00]), (0x10a1, [0x2d01]), (0x10a2, [0x2d02]), (0x10a3, [0x2d03]),
   (0x10a4, [0x2d04]), (0x10a5, [0x2d05]), (0x10a6, [0x2d06]), (0x10a7, [0x2d07]),
   (0x10a8, [0x2d08]), (0x10a9, [0x2d09]), (0x10aa, [0x2d0a])]

/-- Segment 5 of the Unicode lowercase mapping table. -/
def lowerTable5 : List (Nat × List Nat) :=
  [(0x10ab, [0x2d0b]), (0x10ac, [0x2d0c]), (0x10ad, [0x2d0d]), (0x10ae, [0x2d0e]),
   (0x10af, [0x2d0f]), (0x10b0, [0x2d10]), (0x10b1, [0x2d11]), (0x10b2, [0x2d12]),
   (0x10b3, [0x2d13]), (0x10b4, [0x2d14]), (0x10b5, [0x2d15]), (0x10b6, [0x2d16]),
   (0x10b7, [0x2d17]), (0x10b8, [0x2d18]), (0x10b9, [0x2d19]), (0x10ba, [0x2d1a]),
   (0x10bb, [0x2d1b]), (0x10bc, [0x2d1c]), (0x10bd, [0x2d1d]), (0x10be, [0x2d1e]),
   (0x10bf, [0x2d1f]), (0x10c0, [0x2d20]), (0x10c1, [0x2d21]), (0x10c2, [0x2d22]),
   (0x10c3, [0x2d23]), (0x10c4, [0x2d24]), (0x10c5, [0x2d25]), (0x10c7, [0x2d27]),
   (0x10cd, [0x2d2d]), (0x13a0, [0xab70]), (0x13a1, [0xab71]), (0x13a2, [0xab72]),
   (0x13a3, [0xab73]), (0x13a4, [0xab74]), (0x13a5, [0xab75]), (0x13a6, [0xab76]),
   (0x13a7, [0xab77]), (0x13a8, [0xab78]), (0x13a9, [0xab79]), (0x13aa, [0xab7a]),
   (0x13ab, [0xab7b]), (0x13ac, [0xab7c]), (0x13ad, [0xab7d]), (0x13ae, [0xab7e]),
   (0x13af, [0xab7f]), (0x13b0, [0xab80]), (0x13b1, [0xab81]), (0x13b2, [0xab82]),
   (0x13b3, [0xab83]), (0x13b4, [0xab84]), (0x13b5, [0xab85]), (0x13b6, [0xab86]),
   (0x13b7, [0xab87]), (0x13b8, [0xab88]), (0x13b9, [0xab89]), (0x13ba, [0xab8a]),
   (0x13bb, [0xab8b]), (0x13bc, [0xab8c]), (0x13bd, [0xab8d]), (0x13be, [0xab8e]),
   (0x13bf, [0xab8f]), (0x13c0, [0xab90]), (0x13c1, [0xab91]), (0x13c2, [0xab92]),
   (0x13c3, [0xab93]), (0x13c4, [0xab94]), (0x13c5, [0xab95]), (0x13c6, [0xab96]),
   (0x13c7, [0xab97]), (0x13c8, [0xab98]), (0x13c9, [0xab99]), (0x13ca, [0xab9a]),
   (0x13cb, [0xab9b]), (0x13cc, [0xab9c]), (0x13cd, [0xab9d]), (0x13ce, [0xab9e]),
   (0x13cf, [0xab9f]), (0x13d0, [0xaba0]), (0x13d1, [0xaba1]), (0x13d2, [0xaba2]),
   (0x13d3, [0xaba3]), (0x13d4, [0xaba4]), (0x13d5, [0xaba5]), (0x13d6, [0xaba6]),
   (0x13d7, [0xaba7]), (0x13d8, [0xaba8]), (0x13d9, [0xaba9]), (0x13da, [0xabaa]),
   (0x13db, [0xabab]), (0x13dc, [0xabac]), (0x13dd, [0xabad]), (0x13de, [0xabae]),
   (0x13df, [0xabaf]), (0x13e0, [0xabb0]), (0x13e1, [0xabb1]), (0x13e2, [0xabb2])]

/-- Segment 6 of the Unicode lowercase mapping table. -/
def lowerTable6 : List (Nat × List Nat) :=
  [(0x13e3, [0xabb3]), (0x13e4, [0xabb4]), (0x13e5, [0xabb5]), (0x13e6, [0xabb6]),
   (0x13e7, [0xabb7]), (0x13e8, [0xabb8]), (0x13e9, [0xabb9]), (0x13ea, [0xabba]),
   (0x13eb, [0xabbb]), (0x13ec, [0xabbc]), (0x13ed, [0xabbd]), (0x13ee, [0xabbe]),
   (0x13ef, [0xabbf]), (0x13f0, [0x13f8]), (0x13f1, [0x13f9]), (0x13f2, [0x13fa]),
   (0x13f3, [0x13fb]), (0x13f4, [0x13fc]), (0x13f5, [0x13fd]), (0x1c90, [0x10d0]),
   (0x1c91, [0x10d1]), (0x1c92, [0x10d2]), (0x1c93, [0x10d3]), (0x1c94, [0x10d4]),
   (0x1c95, [0x10d5]), (0x1c96, [0x10d6]), (0x1c97, [0x10d7]), (0x1c98, [0x10d8]),
   (0x1c99, [0x10d9]), (0x1c9a, [0x10da]), (0x1c9b, [0x10db]), (0x1c9c, [0x10dc]),
   (0x1c9d, [0x10dd]), (0x1c9e, [0x10de]), (0x1c9f, [0x10df]), (0x1ca0, [0x10e0]),
   (0x1ca1, [0x10e1]), (0x1ca2, [0x10e2]), (0x1ca3, [0x10e3]), (0x1ca4, [0x10e4]),
   (0x1ca5, [0x10e5]), (0x1ca6, [0x10e6]), (0x1ca7, [0x10e7]), (0x1ca8, [0x10e8]),
   (0x1ca9, [0x10e9]), (0x1caa, [0x10ea]), (0x1cab, [0x10eb]), (0x1cac, [0x10ec]),
   (0x1cad, [0x10ed]), (0x1cae, [0x10ee]), (0x1caf, [0x10ef]), (0x1cb0, [0x10f0]),
   (0x1cb1, [0x10f1]), (0x1cb2, [0x10f2]), (0x1cb3, [0x10f3]), (0x1cb4, [0x10f4]),
   (0x1cb5, [0x10f5]), (0x1cb6, [0x10f6]), (0x1cb7, [0x10f7]), (0x1cb8, [0x10f8]),
   (0x1cb9, [0x10f9]), (0x1cba, [0x10fa]), (0x1cbd, [0x10fd]), (0x1cbe, [0x10fe]),
   (0x1cbf, [0x10ff]), (0x1e00, [0x1e01]), (0x1e02, [0x1e03]), (0x1e04, [0x1e05]),
   (0x1e06, [0x1e07]), (0x1e08, [0x1e09]), (0x1e0a, [0x1e0b]), (0x1e0c, [0x1e0d]),
   (0x1e0e, [0x1e0f]), (0x1e10, [0x1e11]), (0x1e12, [0x1e13]), (0x1e14, [0x1e15]),
   (0x1e16, [0x1e17]), (0x1e18, [0x1e19]), (0x1e1a, [0x1e1b]), (0x1e1c, [0x1e1d]),
   (0x1e1e, [0x1e1f]), (0x1e20, [0x1e21]), (0x1e22, [0x1e23]), (0x1e24, [0x1e25]),
   (0x1e26, [0x1e27]), (0x1e28, [0x1e29]), (0x1e2a, [0x1e2b]), (0x1e2c, [0x1e2d]),
   (0x1e2e, [0x1e2f]), (0x1e30, [0x1e31]), (0x1e32, [0x1e33]), (0x1e34, [0x1e35]),
   (0x1e36, [0x1e37]), (0x1e38, [0x1e39]), (0x1e3a, [0x1e3b]), (0x1e3c, [0x1e3d])]

/-- Segment 7 of the Unicode lowercase mapping table. -/
def lowerTable7 : List (Nat × List Nat) :=
  [(0x1e3e, [0x1e3f]), (0x1e40, [0x1e41]), (0x1e42, [0x1e43]), (0x1e44, [0x1e45]),
   (0x1e46, [0x1e47]), (0x1e48, [0x1e49]), (0x1e4a, [0x1e4b]), (0x1e4c, [0x1e4d]),
   (0x1e4e, [0x1e4f]), (0x1e50, [0x1e51]), (0x1e52, [0x1e53]), (0x1e54, [0x1e55]),
   (0x1e56, [0x1e57]), (0x1e58, [0x1e59]), (0x1e5a, [0x1e5b]), (0x1e5c, [0x1e5d]),
   (0x1e5e, [0x1e5f]), (0x1e60, [0x1e61]), (0x1e62, [0x1e63]), (0x1e64, [0x1e65]),
   (0x1e66, [0x1e67]), (0x1e68, [0x1e69]), (0x1e6a, [0x1e6b]), (0x1e6c, [0x1e6d]),
   (0x1e6e, [0x1e6f]), (0x1e70, [0x1e71]), (0x1e72, [0x1e73]), (0x1e74, [0x1e75]),
   (0x1e76, [0x1e77]), (0x1e78, [0x1e79]), (0x1e7a, [0x1e7b]), (0x1e7c, [0x1e7d]),
   (0x1e7e, [0x1e7f]), (0x1e80, [0x1e81]), (0x1e82, [0x1e83]), (0x1e84, [0x1e85]),
   (0x1e86, [0x1e87]), (0x1e88, [0x1e89]), (0x1e8a, [0x1e8b]), (0x1e8c, [0x1e8d]),
   (0x1e8e, [0x1e8f]), (0x1e90, [0x1e91]), (0x1e92, [0x1e93]), (0x1e94, [0x1e95]),
   (0x1e9e, [0xdf]), (0x1ea0, [0x1ea1]), (0x1ea2, [0x1ea3]), (0x1ea4, [0x1ea5]),
   (0x1ea6, [0x1ea7]), (0x1ea8, [0x1ea9]), (0x1eaa, [0x1eab]), (0x1eac, [0x1ead]),
   (0x1eae, [0x1eaf]), (0x1eb0, [0x1eb1]), (0x1eb2, [0x1eb3]), (0x1eb4, [0x1eb5]),
   (0x1eb6, [0x1eb7]), (0x1eb8, [0x1eb9]), (0x1eba, [0x1ebb]), (0x1ebc, [0x1ebd]),
   (0x1ebe, [0x1ebf]), (0x1ec0, [0x1ec1]), (0x1ec2, [0x1ec3]), (0x1ec4, [0x1ec5]),
   (0x1ec6, [0x1ec7]), (0x1ec8, [0x1ec9]), (0x1eca, [0x1ecb]), (0x1ecc, [0x1ecd]),
   (0x1ece, [0x1ecf]), (0x1ed0, [0x1ed1]), (0x1ed2, [0x1ed3]), (0x1ed4, [0x1ed5]),
   (0x1ed6, [0x1ed7]), (0x1ed8, [0x1ed9]), (0x1eda, [0x1edb]), (0x1edc, [0x1edd]),
   (0x1ede, [0x1edf]), (0x1ee0, [0x1ee1]), (0x1ee2, [0x1ee3]), (0x1ee4, [0x1ee5]),
   (0x1ee6, [0x1ee7]), (0x1ee8, [0x1ee9]), (0x1eea, [0x1eeb]), (0x1eec, [0x1eed]),
   (0x1eee, [0x1eef]), (0x1ef0, [0x1ef1]), (0x1ef2, [0x1ef3]), (0x1ef4, [0x1ef5]),
   (0x1ef6, [0x1ef7]), (0x1ef8, [0x1ef9]), (0x1efa, [0x1efb]), (0x1efc, [0x1efd]),
   (0x1efe, [0x1eff]), (0x1f08, [0x1f00]), (0x1f09, [0x1f01]), (0x1f0a, [0x1f02])]

/-- Segment 8 of the Unicode lowercase mapping table. -/
def lowerTable8 : List (Nat × List Nat) :=
  [(0x1f0b, [0x1f03]), (0x1f0c, [0x1f04]), (0x1f0d, [0x1f05]), (0x1f0e, [0x1f06]),
   (0x1f0f, [0x1f07]), (0x1f18, [0x1f10]), (0x1f19, [0x1f11]), (0x1f1a, [0x1f12]),
   (0x1f1b, [0x1f13]), (0x1f1c, [0x1f14]), (0x1f1d, [0x1f15]), (0x1f28, [0x1f20]),
   (0x1f29, [0x1f21]), (0x1f2a, [0x1f22]), (0x1f2b, [0x1f23]), (0x1f2c, [0x1f24]),
   (0x1f2d, [0x1f25]), (0x1f2e, [0x1f26]), (0x1f2f, [0x1f27]), (0x1f38, [0x1f30]),
   (0x1f39, [0x1f31]), (0x1f3a, [0x1f32]), (0x1f3b, [0x1f33]), (0x1f3c, [0x1f34]),
   (0x1f3d, [0x1f35]), (0x1f3e, [0x1f36]), (0x1f3f, [0x1f37]), (0x1f48, [0x1f40]),
   (0x1f49, [0x1f41]), (0x1f4a, [0x1f42]), (0x1f4b, [0x1f43]), (0x1f4c, [0x1f44]),
   (0x1f4d, [0x1f45]), (0x1f59, [0x1f51]), (0x1f5b, [0x1f53]), (0x1f5d, [0x1f55]),
   (0x1f5f, [0x1f57]), (0x1f68, [0x1f60]), (0x1f69, [0x1f61]), (0x1f6a, [0x1f62]),
   (0x1f6b, [0x1f63]), (0x1f6c, [0x1f64]), (0x1f6d, [0x1f65]), (0x1f6e, [0x1f66]),
   (0x1f6f, [0x1f67]), (0x1f88, [0x1f80]), (0x1f89, [0x1f81]), (0x1f8a, [0x1f82]),
   (0x1f8b, [0x1f83]), (0x1f8c, [0x1f84]), (0x1f8d, [0x1f85]), (0x1f8e, [0x1f86]),
   (0x1f8f, [0x1f87]), (0x1f98, [0x1f90]), (0x1f99, [0x1f91]), (0x1f9a, [0x1f92]),
   (0x1f9b, [0x1f93]), (0x1f9c, [0x1f94]), (0x1f9d, [0x1f95]), (0x1f9e, [0x1f96]),
   (0x1f9f, [0x1f97]), (0x1fa8, [0x1fa0]), (0x1fa9, [0x1fa1]), (0x1faa, [0x1fa2]),
   (0x1fab, [0x1fa3]), (0x1fac, [0x1fa4]), (0x1fad, [0x1fa5]), (0x1fae, [0x1fa6]),
   (0x1faf, [0x1fa7]), (0x1fb8, [0x1fb0]), (0x1fb9, [0x1fb1]), (0x1fba, [0x1f70]),
   (0x1fbb, [0x1f71]), (0x1fbc, [0x1fb3]), (0x1fc8, [0x1f72]), (0x1fc9, [0x1f73]),
   (0x1fca, [0x1f74]), (0x1fcb, [0x1f75]), (0x1fcc, [0x1fc3]), (0x1fd8, [0x1fd0]),
   (0x1fd9, [0x1fd1]), (0x1fda, [0x1f76]), (0x1fdb, [0x1f77]), (0x1fe8, [0x1fe0]),
   (0x1fe9, [0x1fe1]), (0x1fea, [0x1f7a]), (0x1feb, [0x1f7b]), (0x1fec, [0x1fe5]),
   (0x1ff8, [0x1f78]), (0x1ff9, [0x1f79]), (0x1ffa, [0x1f7c]), (0x1ffb, [0x1f7d]),
   (0x1ffc, [0x1ff3]), (0x2126, [0x3c9]), (0x212a, [0x6b]), (0x212b, [0xe5])]

/-- Segment 9 of the Unicode lowercase mapping table. -/
def lowerTable9 : List (Nat × List Nat) :=
  [(0x2132, [0x214e]), (0x2160, [0x2170]), (0x2161, [0x2171]), (0x2162, [0x2172]),
   (0x2163, [0x2173]), (0x2164, [0x2174]), (0x2165, [0x2175]), (0x2166, [0x2176]),
   (0x2167, [0x2177]), (0x2168, [0x2178]), (0x2169, [0x2179]), (0x216a, [0x217a]),
   (0x216b, [0x217b]), (0x216c, [0x217c]), (0x216d, [0x217d]), (0x216e, [0x217e]),
   (0x216f, [0x217f]), (0x2183, [0x2184]), (0x24b6, [0x24d0]), (0x24b7, [0x24d1]),
   (0x24b8, [0x24d2]), (0x24b9, [0x24d3]), (0x24ba, [0x24d4]), (0x24bb, [0x24d5]),
   (0x24bc, [0x24d6]), (0x24bd, [0x24d7]), (0x24be, [0x24d8]), (0x24bf, [0x24d9]),
   (0x24c0, [0x24da]), (0x24c1, [0x24db]), (0x24c2, [0x24dc]), (0x24c3, [0x24dd]),
   (0x24c4, [0x24de]), (0x24c5, [0x24df]), (0x24c6, [0x24e0]), (0x24c7, [0x24e1]),
   (0x24c8, [0x24e2]), (0x24c9, [0x24e3]), (0x24ca, [0x24e4]), (0x24cb, [0x24e5]),
   (0x24cc, [0x24e6]), (0x24cd, [0x24e7]), (0x24ce, [0x24e8]), (0x24cf, [0x24e9]),
   (0x2c00, [0x2c30]), (0x2c01, [0x2c31]), (0x2c02, [0x2c32]), (0x2c03, [0x2c33]),
   (0x2c04, [0x2c34]), (0x2c05, [0x2c35]), (0x2c06, [0x2c36]), (0x2c07, [0x2c37]),
   (0x2c08, [0x2c38]), (0x2c09, [0x2c39]), (0x2c0a, [0x2c3a]), (0x2c0b, [0x2c3b]),
   (0x2c0c, [0x2c3c]), (0x2c0d, [0x2c3d]), (0x2c0e, [0x2c3e]), (0x2c0f, [0x2c3f]),
   (0x2c10, [0x2c40]), (0x2c11, [0x2c41]), (0x2c12, [0x2c42]), (0x2c13, [0x2c43]),
   (0x2c14, [0x2c44]), (0x2c15, [0x2c45]), (0x2c16, [0x2c46]), (0x2c17, [0x2c47]),
   (0x2c18, [0x2c48]), (0x2c19, [0x2c49]), (0x2c1a, [0x2c4a]), (0x2c1b, [0x2c4b]),
   (0x2c1c, [0x2c4c]), (0x2c1d, [0x2c4d]), (0x2c1e, [0x2c4e]), (0x2c1f, [0x2c4f]),
   (0x2c20, [0x2c50]), (0x2c21, [0x2c51]), (0x2c22, [0x2c52]), (0x2c23, [0x2c53]),
   (0x2c24, [0x2c54]), (0x2c25, [0x2c55]), (0x2c26, [0x2c56]), (0x2c27, [0x2c57]),
   (0x2c28, [0x2c58]), (0x2c29, [0x2c59]), (0x2c2a, [0x2c5a]), (0x2c2b, [0x2c5b]),
   (0x2c2c, [0x2c5c]), (0x2c2d, [0x2c5d]), (0x2c2e, [0x2c5e]), (0x2c2f, [0x2c5f]),
   (0x2c60, [0x2c61]), (0x2c62, [0x26b]), (0x2c63, [0x1d7d]), (0x2c64, [0x27d])]

/-- Segment 10 of the Unicode lowercase mapping table. -/
def lowerTable10 : List (Nat × List Nat) :=
  [(0x2c67, [0x2c68]), (0x2c69, [0x2c6a]), (0x2c6b, [0x2c6c]), (0x2c6d, [0x251]),
   (0x2c6e, [0x271]), (0x2c6f, [0x250]), (0x2c70, [0x252]), (0x2c72, [0x2c73]),
   (0x2c75, [0x2c76]), (0x2c7e, [0x23f]), (0x2c7f, [0x240]), (0x2c80, [0x2c81]),
   (0x2c82, [0x2c83]), (0x2c84, [0x2c85]), (0x2c86, [0x2c87]), (0x2c88, [0x2c89]),
   (0x2c8a, [0x2c8b]), (0x2c8c, [0x2c8d]), (0x2c8e, [0x2c8f]), (0x2c90, [0x2c91]),
   (0x2c92, [0x2c93]), (0x2c94, [0x2c95]), (0x2c96, [0x2c97]), (0x2c98, [0x2c99]),
   (0x2c9a, [0x2c9b]), (0x2c9c, [0x2c9d]), (0x2c9e, [0x2c9f]), (0x2ca0, [0x2ca1]),
   (0x2ca2, [0x2ca3]), (0x2ca4, [0x2ca5]), (0x2ca6, [0x2ca7]), (0x2ca8, [0x2ca9]),
   (0x2caa, [0x2cab]), (0x2cac, [0x2cad]), (0x2cae, [0x2caf]), (0x2cb0, [0x2cb1]),
   (0x2cb2, [0x2cb3]), (0x2cb4, [0x2cb5]), (0x2cb6, [0x2cb7]), (0x2cb8, [0x2cb9]),
   (0x2cba, [0x2cbb]), (0x2cbc, [0x2cbd]), (0x2cbe, [0x2cbf]), (0x2cc0, [0x2cc1]),
   (0x2cc2, [0x2cc3]), (0x2cc4, [0x2cc5]), (0x2cc6, [0x2cc7]), (0x2cc8, [0x2cc9]),
   (0x2cca, [0x2ccb]), (0x2ccc, [0x2ccd]), (0x2cce, [0x2ccf]), (0x2cd0, [0x2cd1]),
   (0x2cd2, [0x2cd3]), (0x2cd4, [0x2cd5]), (0x2cd6, [0x2cd7]), (0x2cd8, [0x2cd9]),
   (0x2cda, [0x2cdb]), (0x2cdc, [0x2cdd]), (0x2cde, [0x2cdf]), (0x2ce0, [0x2ce1]),
   (0x2ce2, [0x2ce3]), (0x2ceb, [0x2cec]), (0x2ced, [0x2cee]), (0x2cf2, [0x2cf3]),
   (0xa640, [0xa641]), (0xa642, [0xa643]), (0xa644, [0xa645]), (0xa646, [0xa647]),
   (0xa648, [0xa649]), (0xa64a, [0xa64b]), (0xa64c, [0xa64d]), (0xa64e, [0xa64f]),
   (0xa650, [0xa651]), (0xa652, [0xa653]), (0xa654, [0xa655]), (0xa656, [0xa657]),
   (0xa658, [0xa659]), (0xa65a, [0xa65b]), (0xa65c, [0xa65d]), (0xa65e, [0xa65f]),
   (0xa660, [0xa661]), (0xa662, [0xa663]), (0xa664, [0xa665]), (0xa666, [0xa667]),
   (0xa668, [0xa669]), (0xa66a, [0xa66b]), (0xa66c, [0xa66d]), (0xa680, [0xa681]),
   (0xa682, [0xa683]), (0xa684, [0xa685]), (0xa686, [0xa687]), (0xa688, [0xa689]),
   (0xa68a, [0xa68b]), (0xa68c, [0xa68d]), (0xa68e, [0xa68f]), (0xa690, [0xa691])]

/-- Segment 11 of the Unicode lowercase mapping table. -/
def lowerTable11 : List (Nat × List Nat) :=
  [(0xa692, [0xa693]), (0xa694, [0xa695]), (0xa696, [0xa697]), (0xa698, [0xa699]),
   (0xa69a, [0xa69b]), (0xa722, [0xa723]), (0xa724, [0xa725]), (0xa726, [0xa727]),
   (0xa728, [0xa729]), (0xa72a, [0xa72b]), (0xa72c, [0xa72d]), (0xa72e, [0xa72f]),
   (0xa732, [0xa733]), (0xa734, [0xa735]), (0xa736, [0xa737]), (0xa738, [0xa739]),
   (0xa73a, [0xa73b]), (0xa73c, [0xa73d]), (0xa73e, [0xa73f]), (0xa740, [0xa741]),
   (0xa742, [0xa743]), (0xa744, [0xa745]), (0xa746, [0xa747]), (0xa748, [0xa749]),
   (0xa74a, [0xa74b]), (0xa74c, [0xa74d]), (0xa74e, [0xa74f]), (0xa750, [0xa751]),
   (0xa752, [0xa753]), (0xa754, [0xa755]), (0xa756, [0xa757]), (0xa758, [0xa759]),
   (0xa75a, [0xa75b]), (0xa75c, [0xa75d]), (0xa75e, [0xa75f]), (0xa760, [0xa761]),
   (0xa762, [0xa763]), (0xa764, [0xa765]), (0xa766, [0xa767]), (0xa768, [0xa769]),
   (0xa76a, [0xa76b]), (0xa76c, [0xa76d]), (0xa76e, [0xa76f]), (0xa779, [0xa77a]),
   (0xa77b, [0xa77c]), (0xa77d, [0x1d79]), (0xa77e, [0xa77f]), (0xa780, [0xa781]),
   (0xa782, [0xa783]), (0xa784, [0xa785]), (0xa786, [0xa787]), (0xa78b, [0xa78c]),
   (0xa78d, [0x265]), (0xa790, [0xa791]), (0xa792, [0xa793]), (0xa796, [0xa797]),
   (0xa798, [0xa799]), (0xa79a, [0xa79b]), (0xa79c, [0xa79d]), (0xa79e, [0xa79f]),
   (0xa7a0, [0xa7a1]), (0xa7a2, [0xa7a3]), (0xa7a4, [0xa7a5]), (0xa7a6, [0xa7a7]),
   (0xa7a8, [0xa7a9]), (0xa7aa, [0x266]), (0xa7ab, [0x25c]), (0xa7ac, [0x261]), (0xa7ad, [0x26c]),
   (0xa7ae, [0x26a]), (0xa7b0, [0x29e]), (0xa7b1, [0x287]), (0xa7b2, [0x29d]), (0xa7b3, [0xab53]),
   (0xa7b4, [0xa7b5]), (0xa7b6, [0xa7b7]), (0xa7b8, [0xa7b9]), (0xa7ba, [0xa7bb]),
   (0xa7bc, [0xa7bd]), (0xa7be, [0xa7bf]), (0xa7c0, [0xa7c1]), (0xa7c2, [0xa7c3]),
   (0xa7c4, [0xa794]), (0xa7c5, [0x282]), (0xa7c6, [0x1d8e]), (0xa7c7, [0xa7c8]),
   (0xa7c9, [0xa7ca]), (0xa7d0, [0xa7d1]), (0xa7d6, [0xa7d7]), (0xa7d8, [0xa7d9]),
   (0xa7f5, [0xa7f6]), (0xff21, [0xff41]), (0xff22, [0xff42]), (0xff23, [0xff43]),
   (0xff24, [0xff44]), (0xff25, [0xff45])]

/-- Segment 12 of the Unicode lowercase mapping table. -/
def lowerTable12 : List (Nat × List Nat) :=
  [(0xff26, [0xff46]), (0xff27, [0xff47]), (0xff28, [0xff48]), (0xff29, [0xff49]),
   (0xff2a, [0xff4a]), (0xff2b, [0xff4b]), (0xff2c, [0xff4c]), (0xff2d, [0xff4d]),
   (0xff2e, [0xff4e]), (0xff2f, [0xff4f]), (0xff30, [0xff50]), (0xff31, [0xff51]),
   (0xff32, [0xff52]), (0xff33, [0xff53]), (0xff34, [0xff54]), (0xff35, [0xff55]),
   (0xff36, [0xff56]), (0xff37, [0xff57]), (0xff38, [0xff58]), (0xff39, [0xff59]),
   (0xff3a, [0xff5a]), (0x10400, [0x10428]), (0x10401, [0x10429]), (0x10402, [0x1042a]),
   (0x10403, [0x1042b]), (0x10404, [0x1042c]), (0x10405, [0x1042d]), (0x10406, [0x1042e]),
   (0x10407, [0x1042f]), (0x10408, [0x10430]), (0x10409, [0x10431]), (0x1040a, [0x10432]),
   (0x1040b, [0x10433]), (0x1040c, [0x10434]), (0x1040d, [0x10435]), (0x1040e, [0x10436]),
   (0x1040f, [0x10437]), (0x10410, [0x10438]), (0x10411, [0x10439]), (0x10412, [0x1043a]),
   (0x10413, [0x1043b]), (0x10414, [0x1043c]), (0x10415, [0x1043d]), (0x10416, [0x1043e]),
   (0x10417, [0x1043f]), (0x10418, [0x10440]), (0x10419, [0x10441]), (0x1041a, [0x10442]),
   (0x1041b, [0x10443]), (0x1041c, [0x10444]), (0x1041d, [0x10445]), (0x1041e, [0x10446]),
   (0x1041f, [0x10447]), (0x10420, [0x10448]), (0x10421, [0x10449]), (0x10422, [0x1044a]),
   (0x10423, [0x1044b]), (0x10424, [0x1044c]), (0x10425, [0x1044d]), (0x10426, [0x1044e]),
   (0x10427, [0x1044f]), (0x104b0, [0x104d8]), (0x104b1, [0x104d9]), (0x104b2, [0x104da]),
   (0x104b3, [0x104db]), (0x104b4, [0x104dc]), (0x104b5, [0x104dd]), (0x104b6, [0x104de]),
   (0x104b7, [0x104df]), (0x104b8, [0x104e0]), (0x104b9, [0x104e1]), (0x104ba, [0x104e2]),
   (0x104bb, [0x104e3]), (0x104bc, [0x104e4]), (0x104bd, [0x104e5]), (0x104be, [0x104e6]),
   (0x104bf, [0x104e7]), (0x104c0, [0x104e8]), (0x104c1, [0x104e9]), (0x104c2, [0x104ea]),
   (0x104c3, [0x104eb]), (0x104c4, [0x104ec]), (0x104c5, [0x104ed]), (0x104c6, [0x104ee]),
   (0x104c7, [0x104ef]), (0x104c8, [0x104f0]), (0x104c9, [0x104f1]), (0x104ca, [0x104f2]),
   (0x104cb, [0x104f3]), (0x104cc, [0x104f4]), (0x104cd, [0x104f5]), (0x104ce, [0x104f6]),
   (0x104cf, [0x104f7]), (0x104d0, [0x104f8]), (0x104d1, [0x104f9]), (0x104d2, [0x104fa])]

/-- Segment 13 of the Unicode lowercase mapping table. -/
def lowerTable13 : List (Nat × List Nat) :=
  [(0x104d3, [0x104fb]), (0x10570, [0x10597]), (0x10571, [0x10598]), (0x10572, [0x10599]),
   (0x10573, [0x1059a]), (0x10574, [0x1059b]), (0x10575, [0x1059c]), (0x10576, [0x1059d]),
   (0x10577, [0x1059e]), (0x10578, [0x1059f]), (0x10579, [0x105a0]), (0x1057a, [0x105a1]),
   (0x1057c, [0x105a3]), (0x1057d, [0x105a4]), (0x1057e, [0x105a5]), (0x1057f, [0x105a6]),
   (0x10580, [0x105a7]), (0x10581, [0x105a8]), (0x10582, [0x105a9]), (0x10583, [0x105aa]),
   (0x10584, [0x105ab]), (0x10585, [0x105ac]), (0x10586, [0x105ad]), (0x10587, [0x105ae]),
   (0x10588, [0x105af]), (0x10589, [0x105b0]), (0x1058a, [0x105b1]), (0x1058c, [0x105b3]),
   (0x1058d, [0x105b4]), (0x1058e, [0x105b5]), (0x1058f, [0x105b6]), (0x10590, [0x105b7]),
   (0x10591, [0x105b8]), (0x10592, [0x105b9]), (0x10594, [0x105bb]), (0x10595, [0x105bc]),
   (0x10c80, [0x10cc0]), (0x10c81, [0x10cc1]), (0x10c82, [0x10cc2]), (0x10c83, [0x10cc3]),
   (0x10c84, [0x10cc4]), (0x10c85, [0x10cc5]), (0x10c86, [0x10cc6]), (0x10c87, [0x10cc7]),
   (0x10c88, [0x10cc8]), (0x10c89, [0x10cc9]), (0x10c8a, [0x10cca]), (0x10c8b, [0x10ccb]),
   (0x10c8c, [0x10ccc]), (0x10c8d, [0x10ccd]), (0x10c8e, [0x10cce]), (0x10c8f, [0x10ccf]),
   (0x10c90, [0x10cd0]), (0x10c91, [0x10cd1]), (0x10c92, [0x10cd2]), (0x10c93, [0x10cd3]),
   (0x10c94, [0x10cd4]), (0x10c95, [0x10cd5]), (0x10c96, [0x10cd6]), (0x10c97, [0x10cd7]),
   (0x10c98, [0x10cd8]), (0x10c99, [0x10cd9]), (0x10c9a, [0x10cda]), (0x10c9b, [0x10cdb]),
   (0x10c9c, [0x10cdc]), (0x10c9d, [0x10cdd]), (0x10c9e, [0x10cde]), (0x10c9f, [0x10cdf]),
   (0x10ca0, [0x10ce0]), (0x10ca1, [0x10ce1]), (0x10ca2, [0x10ce2]), (0x10ca3, [0x10ce3]),
   (0x10ca4, [0x10ce4]), (0x10ca5, [0x10ce5]), (0x10ca6, [0x10ce6]), (0x10ca7, [0x10ce7]),
   (0x10ca8, [0x10ce8]), (0x10ca9, [0x10ce9]), (0x10caa, [0x10cea]), (0x10cab, [0x10ceb]),
   (0x10cac, [0x10cec]), (0x10cad, [0x10ced]), (0x10cae, [0x10cee]), (0x10caf, [0x10cef]),
   (0x10cb0, [0x10cf0]), (0x10cb1, [0x10cf1]), (0x10cb2, [0x10cf2]), (0x118a0, [0x118c0]),
   (0x118a1, [0x118c1]), (0x118a2, [0x118c2]), (0x118a3, [0x118c3]), (0x118a4, [0x118c4]),
   (0x118a5, [0x118c5]), (0x118a6, [0x118c6]), (0x118a7, [0x118c7]), (0x118a8, [0x118c8])]

/-- Segment 14 of the Unicode lowercase mapping table. -/
def lowerTable14 : List (Nat × List Nat) :=
  [(0x118a9, [0x118c9]), (0x118aa, [0x118ca]), (0x118ab, [0x118cb]), (0x118ac, [0x118cc]),
   (0x118ad, [0x118cd]), (0x118ae, [0x118ce]), (0x118af, [0x118cf]), (0x118b0, [0x118d0]),
   (0x118b1, [0x118d1]), (0x118b2, [0x118d2]), (0x118b3, [0x118d3]), (0x118b4, [0x118d4]),
   (0x118b5, [0x118d5]), (0x118b6, [0x118d6]), (0x118b7, [0x118d7]), (0x118b8, [0x118d8]),
   (0x118b9, [0x118d9]), (0x118ba, [0x118da]), (0x118bb, [0x118db]), (0x118bc, [0x118dc]),
   (0x118bd, [0x118dd]), (0x118be, [0x118de]), (0x118bf, [0x118df]), (0x16e40, [0x16e60]),
   (0x16e41, [0x16e61]), (0x16e42, [0x16e62]), (0x16e43, [0x16e63]), (0x16e44, [0x16e64]),
   (0x16e45, [0x16e65]), (0x16e46, [0x16e66]), (0x16e47, [0x16e67]), (0x16e48, [0x16e68]),
   (0x16e49, [0x16e69]), (0x16e4a, [0x16e6a]), (0x16e4b, [0x16e6b]), (0x16e4c, [0x16e6c]),
   (0x16e4d, [0x16e6d]), (0x16e4e, [0x16e6e]), (0x16e4f, [0x16e6f]), (0x16e50, [0x16e70]),
   (0x16e51, [0x16e71]), (0x16e52, [0x16e72]), (0x16e53, [0x16e73]), (0x16e54, [0x16e74]),
   (0x16e55, [0x16e75]), (0x16e56, [0x16e76]), (0x16e57, [0x16e77]), (0x16e58, [0x16e78]),
   (0x16e59, [0x16e79]), (0x16e5a, [0x16e7a]), (0x16e5b, [0x16e7b]), (0x16e5c, [0x16e7c]),
   (0x16e5d, [0x16e7d]), (0x16e5e, [0x16e7e]), (0x16e5f, [0x16e7f]), (0x1e900, [0x1e922]),
   (0x1e901, [0x1e923]), (0x1e902, [0x1e924]), (0x1e903, [0x1e925]), (0x1e904, [0x1e926]),
   (0x1e905, [0x1e927]), (0x1e906, [0x1e928]), (0x1e907, [0x1e929]), (0x1e908, [0x1e92a]),
   (0x1e909, [0x1e92b]), (0x1e90a, [0x1e92c]), (0x1e90b, [0x1e92d]), (0x1e90c, [0x1e92e]),
   (0x1e90d, [0x1e92f]), (0x1e90e, [0x1e930]), (0x1e90f, [0x1e931]), (0x1e910, [0x1e932]),
   (0x1e911, [0x1e933]), (0x1e912, [0x1e934]), (0x1e913, [0x1e935]), (0x1e914, [0x1e936]),
   (0x1e915, [0x1e937]), (0x1e916, [0x1e938]), (0x1e917, [0x1e939]), (0x1e918, [0x1e93a]),
   (0x1e919, [0x1e93b]), (0x1e91a, [0x1e93c]), (0x1e91b, [0x1e93d]), (0x1e91c, [0x1e93e]),
   (0x1e91d, [0x1e93f]), (0x1e91e, [0x1e940]), (0x1e91f, [0x1e941]), (0x1e920, [0x1e942]),
   (0x1e921, [0x1e943])]

/-- The Unicode default case conversion's lowercase mapping, characterwise:
every code point whose full lowercase mapping differs from itself, paired with
the code points of that mapping (a list: U+0130 maps to two characters), in
ascending code-point order.  This is the data `String.prototype.toLowerCase`
applies (context-free; the final-sigma variant choice is noted at
`toLowerChar`). -/
def lowerTable : List (Nat × List Nat) :=
  lowerTable0 ++ lowerTable1 ++ lowerTable2 ++ lowerTable3 ++ lowerTable4 ++ lowerTable5 ++ lowerTable6 ++ lowerTable7 ++ lowerTable8 ++ lowerTable9 ++ lowerTable10 ++ lowerTable11 ++ lowerTable12 ++ lowerTable13 ++ lowerTable14

/-- Subtree 0 of the lowercase-mapping search tree. -/
def lowerTreeSub0 : LowerTree :=
  (LowerTree.node (LowerTree.node (LowerTree.node (LowerTree.node (LowerTree.node (LowerTree.node
    (LowerTree.node LowerTree.leaf 0x41 [0x61] LowerTree.leaf) 0x42 [0x62] LowerTree.leaf) 0x43
    [0x63] (LowerTree.node (LowerTree.node LowerTree.leaf 0x44 [0x64] LowerTree.leaf) 0x45 [0x65]
    LowerTree.leaf)) 0x46 [0x66] (LowerTree.node (LowerTree.node (LowerTree.node LowerTree.leaf
    0x47 [0x67] LowerTree.leaf) 0x48 [0x68] LowerTree.leaf) 0x49 [0x69] (LowerTree.node
    (LowerTree.node LowerTree.leaf 0x4a [0x6a] LowerTree.leaf) 0x4b [0x6b] LowerTree.leaf))) 0x4c
    [0x6c] (LowerTree.node (LowerTree.node (LowerTree.node (LowerTree.node LowerTree.leaf 0x4d
    [0x6d] LowerTree.leaf) 0x4e [0x6e] LowerTree.leaf) 0x4f [0x6f] (LowerTree.node (LowerTree.node
    LowerTree.leaf 0x50 [0x70] LowerTree.leaf) 0x51 [0x71] LowerTree.leaf)) 0x52 [0x72]
    (LowerTree.node (LowerTree.node (LowerTree.node LowerTree.leaf 0x53 [0x73] LowerTree.leaf)
    0x54 [0x74] LowerTree.leaf) 0x55 [0x75] (LowerTree.node LowerTree.leaf 0x56 [0x76]
    LowerTree.leaf)))) 0x57 [0x77] (LowerTree.node (LowerTree.node (LowerTree.node (LowerTree.node
    (LowerTree.node LowerTree.leaf 0x58 [0x78] LowerTree.leaf) 0x59 [0x79] LowerTree.leaf) 0x5a
    [0x7a] (LowerTree.node (LowerTree.node LowerTree.leaf 0xc0 [0xe0] LowerTree.leaf) 0xc1 [0xe1]
    LowerTree.leaf)) 0xc2 [0xe2] (LowerTree.node (LowerTree.node (LowerTree.node LowerTree.leaf
    0xc3 [0xe3] LowerTree.leaf) 0xc4 [0xe4] LowerTree.leaf) 0xc5 [0xe5] (LowerTree.node
    LowerTree.leaf 0xc6 [0xe6] LowerTree.leaf))) 0xc7 [0xe7] (LowerTree.node (LowerTree.node
    (LowerTree.node (LowerTree.node LowerTree.leaf 0xc8 [0xe8] LowerTree.leaf) 0xc9 [0xe9]
    LowerTree.leaf) 0xca [0xea] (LowerTree.node (LowerTree.node LowerTree.leaf 0xcb [0xeb]
    LowerTree.leaf) 0xcc [0xec] LowerTree.leaf)) 0xcd [0xed] (LowerTree.node (LowerTree.node
    (LowerTree.node LowerTree.leaf 0xce [0xee] LowerTree.leaf) 0xcf [0xef] LowerTree.leaf) 0xd0
    [0xf0] (LowerTree.node LowerTree.leaf 0xd1 [0xf1] LowerTree.leaf))))) 0xd2 [0xf2]
    (LowerTree.node (LowerTree.node (LowerTree.node (LowerTree.node (LowerTree.node
    (LowerTree.node LowerTree.leaf 0xd3 [0xf3] LowerTree.leaf) 0xd4 [0xf4] LowerTree.leaf) 0xd5
    [0xf5] (LowerTree.node (LowerTree.node LowerTree.leaf 0xd6 [0xf6] LowerTree.leaf) 0xd8 [0xf8]
    LowerTree.leaf)) 0xd9 [0xf9] (LowerTree.node (LowerTree.node (LowerTree.node LowerTree.leaf
    0xda [0xfa] LowerTree.leaf) 0xdb [0xfb] LowerTree.leaf) 0xdc [0xfc] (LowerTree.node
    (LowerTree.node LowerTree.leaf 0xdd [0xfd] LowerTree.leaf) 0xde [0xfe] LowerTree.leaf))) 0x100
    [0x101] (LowerTree.node (LowerTree.node (LowerTree.node (LowerTree.node LowerTree.leaf 0x102
    [0x103] LowerTree.leaf) 0x104 [0x105] LowerTree.leaf) 0x106 [0x107] (LowerTree.node
    (LowerTree.node LowerTree.leaf 0x108 [0x109] LowerTree.leaf) 0x10a [0x10b] LowerTree.leaf))
    0x10c [0x10d] (LowerTree.node (LowerTree.node (LowerTree.node LowerTree.leaf 0x10e [0x10f]
    LowerTree.leaf) 0x110 [0x111] LowerTree.leaf) 0x112 [0x113] (LowerTree.node LowerTree.leaf
    0x114 [0x115] LowerTree.leaf)))) 0x116 [0x117] (LowerTree.node (LowerTree.node (LowerTree.node
    (LowerTree.node (LowerTree.node LowerTree.leaf 0x118 [0x119] LowerTree.leaf) 0x11a [0x11b]
    LowerTree.leaf) 0x11c [0x11d] (LowerTree.node (LowerTree.node LowerTree.leaf 0x11e [0x11f]
    LowerTree.leaf) 0x120 [0x121] LowerTree.leaf)) 0x122 [0x123] (LowerTree.node (LowerTree.node
    (LowerTree.node LowerTree.leaf 0x124 [0x125] LowerTree.leaf) 0x126 [0x127] LowerTree.leaf)
    0x128 [0x129] (LowerTree.node LowerTree.leaf 0x12a [0x12b] LowerTree.leaf))) 0x12c [0x12d]
    (LowerTree.node (LowerTree.node (LowerTree.node (LowerTree.node LowerTree.leaf 0x12e [0x12f]
    LowerTree.leaf) 0x130 [0x69, 0x307] LowerTree.leaf) 0x132 [0x133] (LowerTree.node
    (LowerTree.node LowerTree.leaf 0x134 [0x135] LowerTree.leaf) 0x136 [0x137] LowerTree.leaf))
    0x139 [0x13a] (LowerTree.node (LowerTree.node (LowerTree.node LowerTree.leaf 0x13b [0x13c]
    LowerTree.leaf) 0x13d [0x13e] LowerTree.leaf) 0x13f [0x140] (LowerTree.node LowerTree.leaf
    0x141 [0x142] LowerTree.leaf))))))

/-- Subtree 1 of the lowercase-mapping search tree. -/
def lowerTreeSub1 : LowerTree :=
  (LowerTree.node (LowerTree.node (LowerTree.node (LowerTree.node (LowerTree.node (LowerTree.node
    (LowerTree.node LowerTree.leaf 0x145 [0x146] LowerTree.leaf) 0x147 [0x148] LowerTree.leaf)
    0x14a [0x14b] (LowerTree.node (LowerTree.node LowerTree.leaf 0x14c [0x14d] LowerTree.leaf)
    0x14e [0x14f] LowerTree.leaf)) 0x150 [0x151] (LowerTree.node (LowerTree.node (LowerTree.node
    LowerTree.leaf 0x152 [0x153] LowerTree.leaf) 0x154 [0x155] LowerTree.leaf) 0x156 [0x157]
    (LowerTree.node (LowerTree.node LowerTree.leaf 0x158 [0x159] LowerTree.leaf) 0x15a [0x15b]
    LowerTree.leaf))) 0x15c [0x15d] (LowerTree.node (LowerTree.node (LowerTree.node
    (LowerTree.node LowerTree.leaf 0x15e [0x15f] LowerTree.leaf) 0x160 [0x161] LowerTree.leaf)
    0x162 [0x163] (LowerTree.node (LowerTree.node LowerTree.leaf 0x164 [0x165] LowerTree.leaf)
    0x166 [0x167] LowerTree.leaf)) 0x168 [0x169] (LowerTree.node (LowerTree.node (LowerTree.node
    LowerTree.leaf 0x16a [0x16b] LowerTree.leaf) 0x16c [0x16d] LowerTree.leaf) 0x16e [0x16f]
    (LowerTree.node LowerTree.leaf 0x170 [0x171] LowerTree.leaf)))) 0x172 [0x173] (LowerTree.node
    (LowerTree.node (LowerTree.node (LowerTree.node (LowerTree.node LowerTree.leaf 0x174 [0x175]
    LowerTree.leaf) 0x176 [0x177] LowerTree.leaf) 0x178 [0xff] (LowerTree.node (LowerTree.node
    LowerTree.leaf 0x179 [0x17a] LowerTree.leaf) 0x17b [0x17c] LowerTree.leaf)) 0x17d [0x17e]
    (LowerTree.node (LowerTree.node (LowerTree.node LowerTree.leaf 0x181 [0x253] LowerTree.leaf)
    0x182 [0x183] LowerTree.leaf) 0x184 [0x185] (LowerTree.node LowerTree.leaf 0x186 [0x254]
    LowerTree.leaf))) 0x187 [0x188] (LowerTree.node (LowerTree.node (LowerTree.node
    (LowerTree.node LowerTree.leaf 0x189 [0x256] LowerTree.leaf) 0x18a [0x257] LowerTree.leaf)
    0x18b [0x18c] (LowerTree.node (LowerTree.node LowerTree.leaf 0x18e [0x1dd] LowerTree.leaf)
    0x18f [0x259] LowerTree.leaf)) 0x190 [0x25b] (LowerTree.node (LowerTree.node (LowerTree.node
    LowerTree.leaf 0x191 [0x192] LowerTree.leaf) 0x193 [0x260] LowerTree.leaf) 0x194 [0x263]
    (LowerTree.node LowerTree.leaf 0x196 [0x269] LowerTree.leaf))))) 0x197 [0x268] (LowerTree.node
    (LowerTree.node (LowerTree.node (LowerTree.node (LowerTree.node (LowerTree.node LowerTree.leaf
    0x198 [0x199] LowerTree.leaf) 0x19c [0x26f] LowerTree.leaf) 0x19d [0x272] (LowerTree.node
    (LowerTree.node LowerTree.leaf 0x19f [0x275] LowerTree.leaf) 0x1a0 [0x1a1] LowerTree.leaf))
    0x1a2 [0x1a3] (LowerTree.node (LowerTree.node (LowerTree.node LowerTree.leaf 0x1a4 [0x1a5]
    LowerTree.leaf) 0x1a6 [0x280] LowerTree.leaf) 0x1a7 [0x1a8] (LowerTree.node (LowerTree.node
    LowerTree.leaf 0x1a9 [0x283] LowerTree.leaf) 0x1ac [0x1ad] LowerTree.leaf))) 0x1ae [0x288]
    (LowerTree.node (LowerTree.node (LowerTree.node (LowerTree.node LowerTree.leaf 0x1af [0x1b0]
    LowerTree.leaf) 0x1b1 [0x28a] LowerTree.leaf) 0x1b2 [0x28b] (LowerTree.node (LowerTree.node
    LowerTree.leaf 0x1b3 [0x1b4] LowerTree.leaf) 0x1b5 [0x1b6] LowerTree.leaf)) 0x1b7 [0x292]
    (LowerTree.node (LowerTree.node (LowerTree.node LowerTree.leaf 0x1b8 [0x1b9] LowerTree.leaf)
    0x1bc [0x1bd] LowerTree.leaf) 0x1c4 [0x1c6] (LowerTree.node LowerTree.leaf 0x1c5 [0x1c6]
    LowerTree.leaf)))) 0x1c7 [0x1c9] (LowerTree.node (LowerTree.node (LowerTree.node
    (LowerTree.node (LowerTree.node LowerTree.leaf 0x1c8 [0x1c9] LowerTree.leaf) 0x1ca [0x1cc]
    LowerTree.leaf) 0x1cb [0x1cc] (LowerTree.node (LowerTree.node LowerTree.leaf 0x1cd [0x1ce]
    LowerTree.leaf) 0x1cf [0x1d0] LowerTree.leaf)) 0x1d1 [0x1d2] (LowerTree.node (LowerTree.node
    (LowerTree.node LowerTree.leaf 0x1d3 [0x1d4] LowerTree.leaf) 0x1d5 [0x1d6] LowerTree.leaf)
    0x1d7 [0x1d8] (LowerTree.node LowerTree.leaf 0x1d9 [0x1da] LowerTree.leaf))) 0x1db [0x1dc]
    (LowerTree.node (LowerTree.node (LowerTree.node (LowerTree.node LowerTree.leaf 0x1de [0x1df]
    LowerTree.leaf) 0x1e0 [0x1e1] LowerTree.leaf) 0x1e2 [0x1e3] (LowerTree.node (LowerTree.node
    LowerTree.leaf 0x1e4 [0x1e5] LowerTree.leaf) 0x1e6 [0x1e7] LowerTree.leaf)) 0x1e8 [0x1e9]
    (LowerTree.node (LowerTree.node (LowerTree.node LowerTree.leaf 0x1ea [0x1eb] LowerTree.leaf)
    0x1ec [0x1ed] LowerTree.leaf) 0x1ee [0x1ef] (LowerTree.node LowerTree.leaf 0x1f1 [0x1f3]
    LowerTree.leaf))))))

/-- Subtree 2 of the lowercase-mapping search tree. -/
def lowerTreeSub2 : LowerTree :=
  (LowerTree.node (LowerTree.node (LowerTree.node (LowerTree.node (LowerTree.node (LowerTree.node
    (LowerTree.node LowerTree.leaf 0x1f4 [0x1f5] LowerTree.leaf) 0x1f6 [0x195] LowerTree.leaf)
    0x1f7 [0x1bf] (LowerTree.node (LowerTree.node LowerTree.leaf 0x1f8 [0x1f9] LowerTree.leaf)
    0x1fa [0x1fb] LowerTree.leaf)) 0x1fc [0x1fd] (LowerTree.node (LowerTree.node (LowerTree.node
    LowerTree.leaf 0x1fe [0x1ff] LowerTree.leaf) 0x200 [0x201] LowerTree.leaf) 0x202 [0x203]
    (LowerTree.node (LowerTree.node LowerTree.leaf 0x204 [0x205] LowerTree.leaf) 0x206 [0x207]
    LowerTree.leaf))) 0x208 [0x209] (LowerTree.node (LowerTree.node (LowerTree.node
    (LowerTree.node LowerTree.leaf 0x20a [0x20b] LowerTree.leaf) 0x20c [0x20d] LowerTree.leaf)
    0x20e [0x20f] (LowerTree.node (LowerTree.node LowerTree.leaf 0x210 [0x211] LowerTree.leaf)
    0x212 [0x213] LowerTree.leaf)) 0x214 [0x215] (LowerTree.node (LowerTree.node (LowerTree.node
    LowerTree.leaf 0x216 [0x217] LowerTree.leaf) 0x218 [0x219] LowerTree.leaf) 0x21a [0x21b]
    (LowerTree.node LowerTree.leaf 0x21c [0x21d] LowerTree.leaf)))) 0x21e [0x21f] (LowerTree.node
    (LowerTree.node (LowerTree.node (LowerTree.node (LowerTree.node LowerTree.leaf 0x220 [0x19e]
    LowerTree.leaf) 0x222 [0x223] LowerTree.leaf) 0x224 [0x225] (LowerTree.node (LowerTree.node
    LowerTree.leaf 0x226 [0x227] LowerTree.leaf) 0x228 [0x229] LowerTree.leaf)) 0x22a [0x22b]
    (LowerTree.node (LowerTree.node (LowerTree.node LowerTree.leaf 0x22c [0x22d] LowerTree.leaf)
    0x22e [0x22f] LowerTree.leaf) 0x230 [0x231] (LowerTree.node LowerTree.leaf 0x232 [0x233]
    LowerTree.leaf))) 0x23a [0x2c65] (LowerTree.node (LowerTree.node (LowerTree.node
    (LowerTree.node LowerTree.leaf 0x23b [0x23c] LowerTree.leaf) 0x23d [0x19a] LowerTree.leaf)
    0x23e [0x2c66] (LowerTree.node (LowerTree.node LowerTree.leaf 0x241 [0x242] LowerTree.leaf)
    0x243 [0x180] LowerTree.leaf)) 0x244 [0x289] (LowerTree.node (LowerTree.node (LowerTree.node
    LowerTree.leaf 0x245 [0x28c] LowerTree.leaf) 0x246 [0x247] LowerTree.leaf) 0x248 [0x249]
    (LowerTree.node LowerTree.leaf 0x24a [0x24b] LowerTree.leaf))))) 0x24c [0x24d] (LowerTree.node
    (LowerTree.node (LowerTree.node (LowerTree.node (LowerTree.node (LowerTree.node LowerTree.leaf
    0x24e [0x24f] LowerTree.leaf) 0x370 [0x371] LowerTree.leaf) 0x372 [0x373] (LowerTree.node
    (LowerTree.node LowerTree.leaf 0x376 [0x377] LowerTree.leaf) 0x37f [0x3f3] LowerTree.leaf))
    0x386 [0x3ac] (LowerTree.node (LowerTree.node (LowerTree.node LowerTree.leaf 0x388 [0x3ad]
    LowerTree.leaf) 0x389 [0x3ae] LowerTree.leaf) 0x38a [0x3af] (LowerTree.node (LowerTree.node
    LowerTree.leaf 0x38c [0x3cc] LowerTree.leaf) 0x38e [0x3cd] LowerTree.leaf))) 0x38f [0x3ce]
    (LowerTree.node (LowerTree.node (LowerTree.node (LowerTree.node LowerTree.leaf 0x391 [0x3b1]
    LowerTree.leaf) 0x392 [0x3b2] LowerTree.leaf) 0x393 [0x3b3] (LowerTree.node (LowerTree.node
    LowerTree.leaf 0x394 [0x3b4] LowerTree.leaf) 0x395 [0x3b5] LowerTree.leaf)) 0x396 [0x3b6]
    (LowerTree.node (LowerTree.node (LowerTree.node LowerTree.leaf 0x397 [0x3b7] LowerTree.leaf)
    0x398 [0x3b8] LowerTree.leaf) 0x399 [0x3b9] (LowerTree.node LowerTree.leaf 0x39a [0x3ba]
    LowerTree.leaf)))) 0x39b [0x3bb] (LowerTree.node (LowerTree.node (LowerTree.node
    (LowerTree.node (LowerTree.node LowerTree.leaf 0x39c [0x3bc] LowerTree.leaf) 0x39d [0x3bd]
    LowerTree.leaf) 0x39e [0x3be] (LowerTree.node (LowerTree.node LowerTree.leaf 0x39f [0x3bf]
    LowerTree.leaf) 0x3a0 [0x3c0] LowerTree.leaf)) 0x3a1 [0x3c1] (LowerTree.node (LowerTree.node
    (LowerTree.node LowerTree.leaf 0x3a3 [0x3c3] LowerTree.leaf) 0x3a4 [0x3c4] LowerTree.leaf)
    0x3a5 [0x3c5] (LowerTree.node LowerTree.leaf 0x3a6 [0x3c6] LowerTree.leaf))) 0x3a7 [0x3c7]
    (LowerTree.node (LowerTree.node (LowerTree.node (LowerTree.node LowerTree.leaf 0x3a8 [0x3c8]
    LowerTree.leaf) 0x3a9 [0x3c9] LowerTree.leaf) 0x3aa [0x3ca] (LowerTree.node (LowerTree.node
    LowerTree.leaf 0x3ab [0x3cb] LowerTree.leaf) 0x3cf [0x3d7] LowerTree.leaf)) 0x3d8 [0x3d9]
    (LowerTree.node (LowerTree.node (LowerTree.node LowerTree.leaf 0x3da [0x3db] LowerTree.leaf)
    0x3dc [0x3dd] LowerTree.leaf) 0x3de [0x3df] (LowerTree.node LowerTree.leaf 0x3e0 [0x3e1]
    LowerTree.leaf))))))

/-- Subtree 3 of the lowercase-mapping search tree. -/
def lowerTreeSub3 : LowerTree :=
  (LowerTree.node (LowerTree.node (LowerTree.node (LowerTree.node (LowerTree.node (LowerTree.node
    (LowerTree.node LowerTree.leaf 0x3e4 [0x3e5] LowerTree.leaf) 0x3e6 [0x3e7] LowerTree.leaf)
    0x3e8 [0x3e9] (LowerTree.node (LowerTree.node LowerTree.leaf 0x3ea [0x3eb] LowerTree.leaf)
    0x3ec [0x3ed] LowerTree.leaf)) 0x3ee [0x3ef] (LowerTree.node (LowerTree.node (LowerTree.node
    LowerTree.leaf 0x3f4 [0x3b8] LowerTree.leaf) 0x3f7 [0x3f8] LowerTree.leaf) 0x3f9 [0x3f2]
    (LowerTree.node (LowerTree.node LowerTree.leaf 0x3fa [0x3fb] LowerTree.leaf) 0x3fd [0x37b]
    LowerTree.leaf))) 0x3fe [0x37c] (LowerTree.node (LowerTree.node (LowerTree.node
    (LowerTree.node LowerTree.leaf 0x3ff [0x37d] LowerTree.leaf) 0x400 [0x450] LowerTree.leaf)
    0x401 [0x451] (LowerTree.node (LowerTree.node LowerTree.leaf 0x402 [0x452] LowerTree.leaf)
    0x403 [0x453] LowerTree.leaf)) 0x404 [0x454] (LowerTree.node (LowerTree.node (LowerTree.node
    LowerTree.leaf 0x405 [0x455] LowerTree.leaf) 0x406 [0x456] LowerTree.leaf) 0x407 [0x457]
    (LowerTree.node LowerTree.leaf 0x408 [0x458] LowerTree.leaf)))) 0x409 [0x459] (LowerTree.node
    (LowerTree.node (LowerTree.node (LowerTree.node (LowerTree.node LowerTree.leaf 0x40a [0x45a]
    LowerTree.leaf) 0x40b [0x45b] LowerTree.leaf) 0x40c [0x45c] (LowerTree.node (LowerTree.node
    LowerTree.leaf 0x40d [0x45d] LowerTree.leaf) 0x40e [0x45e] LowerTree.leaf)) 0x40f [0x45f]
    (LowerTree.node (LowerTree.node (LowerTree.node LowerTree.leaf 0x410 [0x430] LowerTree.leaf)
    0x411 [0x431] LowerTree.leaf) 0x412 [0x432] (LowerTree.node LowerTree.leaf 0x413 [0x433]
    LowerTree.leaf))) 0x414 [0x434] (LowerTree.node (LowerTree.node (LowerTree.node
    (LowerTree.node LowerTree.leaf 0x415 [0x435] LowerTree.leaf) 0x416 [0x436] LowerTree.leaf)
    0x417 [0x437] (LowerTree.node (LowerTree.node LowerTree.leaf 0x418 [0x438] LowerTree.leaf)
    0x419 [0x439] LowerTree.leaf)) 0x41a [0x43a] (LowerTree.node (LowerTree.node (LowerTree.node
    LowerTree.leaf 0x41b [0x43b] LowerTree.leaf) 0x41c [0x43c] LowerTree.leaf) 0x41d [0x43d]
    (LowerTree.node LowerTree.leaf 0x41e [0x43e] LowerTree.leaf))))) 0x41f [0x43f] (LowerTree.node
    (LowerTree.node (LowerTree.node (LowerTree.node (LowerTree.node (LowerTree.node LowerTree.leaf
    0x420 [0x440] LowerTree.leaf) 0x421 [0x441] LowerTree.leaf) 0x422 [0x442] (LowerTree.node
    (LowerTree.node LowerTree.leaf 0x423 [0x443] LowerTree.leaf) 0x424 [0x444] LowerTree.leaf))
    0x425 [0x445] (LowerTree.node (LowerTree.node (LowerTree.node LowerTree.leaf 0x426 [0x446]
    LowerTree.leaf) 0x427 [0x447] LowerTree.leaf) 0x428 [0x448] (LowerTree.node LowerTree.leaf
    0x429 [0x449] LowerTree.leaf))) 0x42a [0x44a] (LowerTree.node (LowerTree.node (LowerTree.node
    (LowerTree.node LowerTree.leaf 0x42b [0x44b] LowerTree.leaf) 0x42c [0x44c] LowerTree.leaf)
    0x42d [0x44d] (LowerTree.node (LowerTree.node LowerTree.leaf 0x42e [0x44e] LowerTree.leaf)
    0x42f [0x44f] LowerTree.leaf)) 0x460 [0x461] (LowerTree.node (LowerTree.node (LowerTree.node
    LowerTree.leaf 0x462 [0x463] LowerTree.leaf) 0x464 [0x465] LowerTree.leaf) 0x466 [0x467]
    (LowerTree.node LowerTree.leaf 0x468 [0x469] LowerTree.leaf)))) 0x46a [0x46b] (LowerTree.node
    (LowerTree.node (LowerTree.node (LowerTree.node (LowerTree.node LowerTree.leaf 0x46c [0x46d]
    LowerTree.leaf) 0x46e [0x46f] LowerTree.leaf) 0x470 [0x471] (LowerTree.node (LowerTree.node
    LowerTree.leaf 0x472 [0x473] LowerTree.leaf) 0x474 [0x475] LowerTree.leaf)) 0x476 [0x477]
    (LowerTree.node (LowerTree.node (LowerTree.node LowerTree.leaf 0x478 [0x479] LowerTree.leaf)
    0x47a [0x47b] LowerTree.leaf) 0x47c [0x47d] (LowerTree.node LowerTree.leaf 0x47e [0x47f]
    LowerTree.leaf))) 0x480 [0x481] (LowerTree.node (LowerTree.node (LowerTree.node
    (LowerTree.node LowerTree.leaf 0x48a [0x48b] LowerTree.leaf) 0x48c [0x48d] LowerTree.leaf)
    0x48e [0x48f] (LowerTree.node (LowerTree.node LowerTree.leaf 0x490 [0x491] LowerTree.leaf)
    0x492 [0x493] LowerTree.leaf)) 0x494 [0x495] (LowerTree.node (LowerTree.node (LowerTree.node
    LowerTree.leaf 0x496 [0x497] LowerTree.leaf) 0x498 [0x499] LowerTree.leaf) 0x49a [0x49b]
    (LowerTree.node LowerTree.leaf 0x49c [0x49d] LowerTree.leaf))))))

/-- Subtree 4 of the lowercase-mapping search tree. -/
def lowerTreeSub4 : LowerTree :=
  (LowerTree.node (LowerTree.node (LowerTree.node (LowerTree.node (LowerTree.node (LowerTree.node
    (LowerTree.node LowerTree.leaf 0x4a0 [0x4a1] LowerTree.leaf) 0x4a2 [0x4a3] LowerTree.leaf)
    0x4a4 [0x4a5] (LowerTree.node (LowerTree.node LowerTree.leaf 0x4a6 [0x4a7] LowerTree.leaf)
    0x4a8 [0x4a9] LowerTree.leaf)) 0x4aa [0x4ab] (LowerTree.node (LowerTree.node (LowerTree.node
    LowerTree.leaf 0x4ac [0x4ad] LowerTree.leaf) 0x4ae [0x4af] LowerTree.leaf) 0x4b0 [0x4b1]
    (LowerTree.node (LowerTree.node LowerTree.leaf 0x4b2 [0x4b3] LowerTree.leaf) 0x4b4 [0x4b5]
    LowerTree.leaf))) 0x4b6 [0x4b7] (LowerTree.node (LowerTree.node (LowerTree.node
    (LowerTree.node LowerTree.leaf 0x4b8 [0x4b9] LowerTree.leaf) 0x4ba [0x4bb] LowerTree.leaf)
    0x4bc [0x4bd] (LowerTree.node (LowerTree.node LowerTree.leaf 0x4be [0x4bf] LowerTree.leaf)
    0x4c0 [0x4cf] LowerTree.leaf)) 0x4c1 [0x4c2] (LowerTree.node (LowerTree.node (LowerTree.node
    LowerTree.leaf 0x4c3 [0x4c4] LowerTree.leaf) 0x4c5 [0x4c6] LowerTree.leaf) 0x4c7 [0x4c8]
    (LowerTree.node LowerTree.leaf 0x4c9 [0x4ca] LowerTree.leaf)))) 0x4cb [0x4cc] (LowerTree.node
    (LowerTree.node (LowerTree.node (LowerTree.node (LowerTree.node LowerTree.leaf 0x4cd [0x4ce]
    LowerTree.leaf) 0x4d0 [0x4d1] LowerTree.leaf) 0x4d2 [0x4d3] (LowerTree.node (LowerTree.node
    LowerTree.leaf 0x4d4 [0x4d5] LowerTree.leaf) 0x4d6 [0x4d7] LowerTree.leaf)) 0x4d8 [0x4d9]
    (LowerTree.node (LowerTree.node (LowerTree.node LowerTree.leaf 0x4da [0x4db] LowerTree.leaf)
    0x4dc [0x4dd] LowerTree.leaf) 0x4de [0x4df] (LowerTree.node LowerTree.leaf 0x4e0 [0x4e1]
    LowerTree.leaf))) 0x4e2 [0x4e3] (LowerTree.node (LowerTree.node (LowerTree.node
    (LowerTree.node LowerTree.leaf 0x4e4 [0x4e5] LowerTree.leaf) 0x4e6 [0x4e7] LowerTree.leaf)
    0x4e8 [0x4e9] (LowerTree.node (LowerTree.node LowerTree.leaf 0x4ea [0x4eb] LowerTree.leaf)
    0x4ec [0x4ed] LowerTree.leaf)) 0x4ee [0x4ef] (LowerTree.node (LowerTree.node (LowerTree.node
    LowerTree.leaf 0x4f0 [0x4f1] LowerTree.leaf) 0x4f2 [0x4f3] LowerTree.leaf) 0x4f4 [0x4f5]
    (LowerTree.node LowerTree.leaf 0x4f6 [0x4f7] LowerTree.leaf))))) 0x4f8 [0x4f9] (LowerTree.node
    (LowerTree.node (LowerTree.node (LowerTree.node (LowerTree.node (LowerTree.node LowerTree.leaf
    0x4fa [0x4fb] LowerTree.leaf) 0x4fc [0x4fd] LowerTree.leaf) 0x4fe [0x4ff] (LowerTree.node
    (LowerTree.node LowerTree.leaf 0x500 [0x501] LowerTree.leaf) 0x502 [0x503] LowerTree.leaf))
    0x504 [0x505] (LowerTree.node (LowerTree.node (LowerTree.node LowerTree.leaf 0x506 [0x507]
    LowerTree.leaf) 0x508 [0x509] LowerTree.leaf) 0x50a [0x50b] (LowerTree.node (LowerTree.node
    LowerTree.leaf 0x50c [0x50d] LowerTree.leaf) 0x50e [0x50f] LowerTree.leaf))) 0x510 [0x511]
    (LowerTree.node (LowerTree.node (LowerTree.node (LowerTree.node LowerTree.leaf 0x512 [0x513]
    LowerTree.leaf) 0x514 [0x515] LowerTree.leaf) 0x516 [0x517] (LowerTree.node (LowerTree.node
    LowerTree.leaf 0x518 [0x519] LowerTree.leaf) 0x51a [0x51b] LowerTree.leaf)) 0x51c [0x51d]
    (LowerTree.node (LowerTree.node (LowerTree.node LowerTree.leaf 0x51e [0x51f] LowerTree.leaf)
    0x520 [0x521] LowerTree.leaf) 0x522 [0x523] (LowerTree.node LowerTree.leaf 0x524 [0x525]
    LowerTree.leaf)))) 0x526 [0x527] (LowerTree.node (LowerTree.node (LowerTree.node
    (LowerTree.node (LowerTree.node LowerTree.leaf 0x528 [0x529] LowerTree.leaf) 0x52a [0x52b]
    LowerTree.leaf) 0x52c [0x52d] (LowerTree.node (LowerTree.node LowerTree.leaf 0x52e [0x52f]
    LowerTree.leaf) 0x531 [0x561] LowerTree.leaf)) 0x532 [0x562] (LowerTree.node (LowerTree.node
    (LowerTree.node LowerTree.leaf 0x533 [0x563] LowerTree.leaf) 0x534 [0x564] LowerTree.leaf)
    0x535 [0x565] (LowerTree.node LowerTree.leaf 0x536 [0x566] LowerTree.leaf))) 0x537 [0x567]
    (LowerTree.node (LowerTree.node (LowerTree.node (LowerTree.node LowerTree.leaf 0x538 [0x568]
    LowerTree.leaf) 0x539 [0x569] LowerTree.leaf) 0x53a [0x56a] (LowerTree.node (LowerTree.node
    LowerTree.leaf 0x53b [0x56b] LowerTree.leaf) 0x53c [0x56c] LowerTree.leaf)) 0x53d [0x56d]
    (LowerTree.node (LowerTree.node (LowerTree.node LowerTree.leaf 0x53e [0x56e] LowerTree.leaf)
    0x53f [0x56f] LowerTree.leaf) 0x540 [0x570] (LowerTree.node LowerTree.leaf 0x541 [0x571]
    LowerTree.leaf))))))

/-- Subtree 5 of the lowercase-mapping search tree. -/
def lowerTreeSub5 : LowerTree :=
  (LowerTree.node (LowerTree.node (LowerTree.node (LowerTree.node (LowerTree.node (LowerTree.node
    (LowerTree.node LowerTree.leaf 0x543 [0x573] LowerTree.leaf) 0x544 [0x574] LowerTree.leaf)
    0x545 [0x575] (LowerTree.node (LowerTree.node LowerTree.leaf 0x546 [0x576] LowerTree.leaf)
    0x547 [0x577] LowerTree.leaf)) 0x548 [0x578] (LowerTree.node (LowerTree.node (LowerTree.node
    LowerTree.leaf 0x549 [0x579] LowerTree.leaf) 0x54a [0x57a] LowerTree.leaf) 0x54b [0x57b]
    (LowerTree.node (LowerTree.node LowerTree.leaf 0x54c [0x57c] LowerTree.leaf) 0x54d [0x57d]
    LowerTree.leaf))) 0x54e [0x57e] (LowerTree.node (LowerTree.node (LowerTree.node
    (LowerTree.node LowerTree.leaf 0x54f [0x57f] LowerTree.leaf) 0x550 [0x580] LowerTree.leaf)
    0x551 [0x581] (LowerTree.node (LowerTree.node LowerTree.leaf 0x552 [0x582] LowerTree.leaf)
    0x553 [0x583] LowerTree.leaf)) 0x554 [0x584] (LowerTree.node (LowerTree.node (LowerTree.node
    LowerTree.leaf 0x555 [0x585] LowerTree.leaf) 0x556 [0x586] LowerTree.leaf) 0x10a0 [0x2d00]
    (LowerTree.node LowerTree.leaf 0x10a1 [0x2d01] LowerTree.leaf)))) 0x10a2 [0x2d02]
    (LowerTree.node (LowerTree.node (LowerTree.node (LowerTree.node (LowerTree.node LowerTree.leaf
    0x10a3 [0x2d03] LowerTree.leaf) 0x10a4 [0x2d04] LowerTree.leaf) 0x10a5 [0x2d05]
    (LowerTree.node (LowerTree.node LowerTree.leaf 0x10a6 [0x2d06] LowerTree.leaf) 0x10a7 [0x2d07]
    LowerTree.leaf)) 0x10a8 [0x2d08] (LowerTree.node (LowerTree.node (LowerTree.node
    LowerTree.leaf 0x10a9 [0x2d09] LowerTree.leaf) 0x10aa [0x2d0a] LowerTree.leaf) 0x10ab [0x2d0b]
    (LowerTree.node LowerTree.leaf 0x10ac [0x2d0c] LowerTree.leaf))) 0x10ad [0x2d0d]
    (LowerTree.node (LowerTree.node (LowerTree.node (LowerTree.node LowerTree.leaf 0x10ae [0x2d0e]
    LowerTree.leaf) 0x10af [0x2d0f] LowerTree.leaf) 0x10b0 [0x2d10] (LowerTree.node
    (LowerTree.node LowerTree.leaf 0x10b1 [0x2d11] LowerTree.leaf) 0x10b2 [0x2d12]
    LowerTree.leaf)) 0x10b3 [0x2d13] (LowerTree.node (LowerTree.node (LowerTree.node
    LowerTree.leaf 0x10b4 [0x2d14] LowerTree.leaf) 0x10b5 [0x2d15] LowerTree.leaf) 0x10b6 [0x2d16]
    (LowerTree.node LowerTree.leaf 0x10b7 [0x2d17] LowerTree.leaf))))) 0x10b8 [0x2d18]
    (LowerTree.node (LowerTree.node (LowerTree.node (LowerTree.node (LowerTree.node
    (LowerTree.node LowerTree.leaf 0x10b9 [0x2d19] LowerTree.leaf) 0x10ba [0x2d1a] LowerTree.leaf)
    0x10bb [0x2d1b] (LowerTree.node (LowerTree.node LowerTree.leaf 0x10bc [0x2d1c] LowerTree.leaf)
    0x10bd [0x2d1d] LowerTree.leaf)) 0x10be [0x2d1e] (LowerTree.node (LowerTree.node
    (LowerTree.node LowerTree.leaf 0x10bf [0x2d1f] LowerTree.leaf) 0x10c0 [0x2d20] LowerTree.leaf)
    0x10c1 [0x2d21] (LowerTree.node LowerTree.leaf 0x10c2 [0x2d22] LowerTree.leaf))) 0x10c3
    [0x2d23] (LowerTree.node (LowerTree.node (LowerTree.node (LowerTree.node LowerTree.leaf 0x10c4
    [0x2d24] LowerTree.leaf) 0x10c5 [0x2d25] LowerTree.leaf) 0x10c7 [0x2d27] (LowerTree.node
    (LowerTree.node LowerTree.leaf 0x10cd [0x2d2d] LowerTree.leaf) 0x13a0 [0xab70]
    LowerTree.leaf)) 0x13a1 [0xab71] (LowerTree.node (LowerTree.node (LowerTree.node
    LowerTree.leaf 0x13a2 [0xab72] LowerTree.leaf) 0x13a3 [0xab73] LowerTree.leaf) 0x13a4 [0xab74]
    (LowerTree.node LowerTree.leaf 0x13a5 [0xab75] LowerTree.leaf)))) 0x13a6 [0xab76]
    (LowerTree.node (LowerTree.node (LowerTree.node (LowerTree.node (LowerTree.node LowerTree.leaf
    0x13a7 [0xab77] LowerTree.leaf) 0x13a8 [0xab78] LowerTree.leaf) 0x13a9 [0xab79]
    (LowerTree.node (LowerTree.node LowerTree.leaf 0x13aa [0xab7a] LowerTree.leaf) 0x13ab [0xab7b]
    LowerTree.leaf)) 0x13ac [0xab7c] (LowerTree.node (LowerTree.node (LowerTree.node
    LowerTree.leaf 0x13ad [0xab7d] LowerTree.leaf) 0x13ae [0xab7e] LowerTree.leaf) 0x13af [0xab7f]
    (LowerTree.node LowerTree.leaf 0x13b0 [0xab80] LowerTree.leaf))) 0x13b1 [0xab81]
    (LowerTree.node (LowerTree.node (LowerTree.node (LowerTree.node LowerTree.leaf 0x13b2 [0xab82]
    LowerTree.leaf) 0x13b3 [0xab83] LowerTree.leaf) 0x13b4 [0xab84] (LowerTree.node
    (LowerTree.node LowerTree.leaf 0x13b5 [0xab85] LowerTree.leaf) 0x13b6 [0xab86]
    LowerTree.leaf)) 0x13b7 [0xab87] (LowerTree.node (LowerTree.node (LowerTree.node
    LowerTree.leaf 0x13b8 [0xab88] LowerTree.leaf) 0x13b9 [0xab89] LowerTree.leaf) 0x13ba [0xab8a]
    (LowerTree.node LowerTree.leaf 0x13bb [0xab8b] LowerTree.leaf))))))

/-- Subtree 6 of the lowercase-mapping search tree. -/
def lowerTreeSub6 : LowerTree :=
  (LowerTree.node (LowerTree.node (LowerTree.node (LowerTree.node (LowerTree.node (LowerTree.node
    (LowerTree.node LowerTree.leaf 0x13bd [0xab8d] LowerTree.leaf) 0x13be [0xab8e] LowerTree.leaf)
    0x13bf [0xab8f] (LowerTree.node (LowerTree.node LowerTree.leaf 0x13c0 [0xab90] LowerTree.leaf)
    0x13c1 [0xab91] LowerTree.leaf)) 0x13c2 [0xab92] (LowerTree.node (LowerTree.node
    (LowerTree.node LowerTree.leaf 0x13c3 [0xab93] LowerTree.leaf) 0x13c4 [0xab94] LowerTree.leaf)
    0x13c5 [0xab95] (LowerTree.node (LowerTree.node LowerTree.leaf 0x13c6 [0xab96] LowerTree.leaf)
    0x13c7 [0xab97] LowerTree.leaf))) 0x13c8 [0xab98] (LowerTree.node (LowerTree.node
    (LowerTree.node (LowerTree.node LowerTree.leaf 0x13c9 [0xab99] LowerTree.leaf) 0x13ca [0xab9a]
    LowerTree.leaf) 0x13cb [0xab9b] (LowerTree.node (LowerTree.node LowerTree.leaf 0x13cc [0xab9c]
    LowerTree.leaf) 0x13cd [0xab9d] LowerTree.leaf)) 0x13ce [0xab9e] (LowerTree.node
    (LowerTree.node (LowerTree.node LowerTree.leaf 0x13cf [0xab9f] LowerTree.leaf) 0x13d0 [0xaba0]
    LowerTree.leaf) 0x13d1 [0xaba1] (LowerTree.node LowerTree.leaf 0x13d2 [0xaba2]
    LowerTree.leaf)))) 0x13d3 [0xaba3] (LowerTree.node (LowerTree.node (LowerTree.node
    (LowerTree.node (LowerTree.node LowerTree.leaf 0x13d4 [0xaba4] LowerTree.leaf) 0x13d5 [0xaba5]
    LowerTree.leaf) 0x13d6 [0xaba6] (LowerTree.node (LowerTree.node LowerTree.leaf 0x13d7 [0xaba7]
    LowerTree.leaf) 0x13d8 [0xaba8] LowerTree.leaf)) 0x13d9 [0xaba9] (LowerTree.node
    (LowerTree.node (LowerTree.node LowerTree.leaf 0x13da [0xabaa] LowerTree.leaf) 0x13db [0xabab]
    LowerTree.leaf) 0x13dc [0xabac] (LowerTree.node LowerTree.leaf 0x13dd [0xabad]
    LowerTree.leaf))) 0x13de [0xabae] (LowerTree.node (LowerTree.node (LowerTree.node
    (LowerTree.node LowerTree.leaf 0x13df [0xabaf] LowerTree.leaf) 0x13e0 [0xabb0] LowerTree.leaf)
    0x13e1 [0xabb1] (LowerTree.node (LowerTree.node LowerTree.leaf 0x13e2 [0xabb2] LowerTree.leaf)
    0x13e3 [0xabb3] LowerTree.leaf)) 0x13e4 [0xabb4] (LowerTree.node (LowerTree.node
    (LowerTree.node LowerTree.leaf 0x13e5 [0xabb5] LowerTree.leaf) 0x13e6 [0xabb6] LowerTree.leaf)
    0x13e7 [0xabb7] (LowerTree.node LowerTree.leaf 0x13e8 [0xabb8] LowerTree.leaf))))) 0x13e9
    [0xabb9] (LowerTree.node (LowerTree.node (LowerTree.node (LowerTree.node (LowerTree.node
    (LowerTree.node LowerTree.leaf 0x13ea [0xabba] LowerTree.leaf) 0x13eb [0xabbb] LowerTree.leaf)
    0x13ec [0xabbc] (LowerTree.node (LowerTree.node LowerTree.leaf 0x13ed [0xabbd] LowerTree.leaf)
    0x13ee [0xabbe] LowerTree.leaf)) 0x13ef [0xabbf] (LowerTree.node (LowerTree.node
    (LowerTree.node LowerTree.leaf 0x13f0 [0x13f8] LowerTree.leaf) 0x13f1 [0x13f9] LowerTree.leaf)
    0x13f2 [0x13fa] (LowerTree.node (LowerTree.node LowerTree.leaf 0x13f3 [0x13fb] LowerTree.leaf)
    0x13f4 [0x13fc] LowerTree.leaf))) 0x13f5 [0x13fd] (LowerTree.node (LowerTree.node
    (LowerTree.node (LowerTree.node LowerTree.leaf 0x1c90 [0x10d0] LowerTree.leaf) 0x1c91 [0x10d1]
    LowerTree.leaf) 0x1c92 [0x10d2] (LowerTree.node (LowerTree.node LowerTree.leaf 0x1c93 [0x10d3]
    LowerTree.leaf) 0x1c94 [0x10d4] LowerTree.leaf)) 0x1c95 [0x10d5] (LowerTree.node
    (LowerTree.node (LowerTree.node LowerTree.leaf 0x1c96 [0x10d6] LowerTree.leaf) 0x1c97 [0x10d7]
    LowerTree.leaf) 0x1c98 [0x10d8] (LowerTree.node LowerTree.leaf 0x1c99 [0x10d9]
    LowerTree.leaf)))) 0x1c9a [0x10da] (LowerTree.node (LowerTree.node (LowerTree.node
    (LowerTree.node (LowerTree.node LowerTree.leaf 0x1c9b [0x10db] LowerTree.leaf) 0x1c9c [0x10dc]
    LowerTree.leaf) 0x1c9d [0x10dd] (LowerTree.node (LowerTree.node LowerTree.leaf 0x1c9e [0x10de]
    LowerTree.leaf) 0x1c9f [0x10df] LowerTree.leaf)) 0x1ca0 [0x10e0] (LowerTree.node
    (LowerTree.node (LowerTree.node LowerTree.leaf 0x1ca1 [0x10e1] LowerTree.leaf) 0x1ca2 [0x10e2]
    LowerTree.leaf) 0x1ca3 [0x10e3] (LowerTree.node LowerTree.leaf 0x1ca4 [0x10e4]
    LowerTree.leaf))) 0x1ca5 [0x10e5] (LowerTree.node (LowerTree.node (LowerTree.node
    (LowerTree.node LowerTree.leaf 0x1ca6 [0x10e6] LowerTree.leaf) 0x1ca7 [0x10e7] LowerTree.leaf)
    0x1ca8 [0x10e8] (LowerTree.node (LowerTree.node LowerTree.leaf 0x1ca9 [0x10e9] LowerTree.leaf)
    0x1caa [0x10ea] LowerTree.leaf)) 0x1cab [0x10eb] (LowerTree.node (LowerTree.node
    (LowerTree.node LowerTree.leaf 0x1cac [0x10ec] LowerTree.leaf) 0x1cad [0x10ed] LowerTree.leaf)
    0x1cae [0x10ee] (LowerTree.node LowerTree.leaf 0x1caf [0x10ef] LowerTree.leaf))))))

/-- Subtree 7 of the lowercase-mapping search tree. -/
def lowerTreeSub7 : LowerTree :=
  (LowerTree.node (LowerTree.node (LowerTree.node (LowerTree.node (LowerTree.node (LowerTree.node
    (LowerTree.node LowerTree.leaf 0x1cb1 [0x10f1] LowerTree.leaf) 0x1cb2 [0x10f2] LowerTree.leaf)
    0x1cb3 [0x10f3] (LowerTree.node (LowerTree.node LowerTree.leaf 0x1cb4 [0x10f4] LowerTree.leaf)
    0x1cb5 [0x10f5] LowerTree.leaf)) 0x1cb6 [0x10f6] (LowerTree.node (LowerTree.node
    (LowerTree.node LowerTree.leaf 0x1cb7 [0x10f7] LowerTree.leaf) 0x1cb8 [0x10f8] LowerTree.leaf)
    0x1cb9 [0x10f9] (LowerTree.node (LowerTree.node LowerTree.leaf 0x1cba [0x10fa] LowerTree.leaf)
    0x1cbd [0x10fd] LowerTree.leaf))) 0x1cbe [0x10fe] (LowerTree.node (LowerTree.node
    (LowerTree.node (LowerTree.node LowerTree.leaf 0x1cbf [0x10ff] LowerTree.leaf) 0x1e00 [0x1e01]
    LowerTree.leaf) 0x1e02 [0x1e03] (LowerTree.node (LowerTree.node LowerTree.leaf 0x1e04 [0x1e05]
    LowerTree.leaf) 0x1e06 [0x1e07] LowerTree.leaf)) 0x1e08 [0x1e09] (LowerTree.node
    (LowerTree.node (LowerTree.node LowerTree.leaf 0x1e0a [0x1e0b] LowerTree.leaf) 0x1e0c [0x1e0d]
    LowerTree.leaf) 0x1e0e [0x1e0f] (LowerTree.node LowerTree.leaf 0x1e10 [0x1e11]
    LowerTree.leaf)))) 0x1e12 [0x1e13] (LowerTree.node (LowerTree.node (LowerTree.node
    (LowerTree.node (LowerTree.node LowerTree.leaf 0x1e14 [0x1e15] LowerTree.leaf) 0x1e16 [0x1e17]
    LowerTree.leaf) 0x1e18 [0x1e19] (LowerTree.node (LowerTree.node LowerTree.leaf 0x1e1a [0x1e1b]
    LowerTree.leaf) 0x1e1c [0x1e1d] LowerTree.leaf)) 0x1e1e [0x1e1f] (LowerTree.node
    (LowerTree.node (LowerTree.node LowerTree.leaf 0x1e20 [0x1e21] LowerTree.leaf) 0x1e22 [0x1e23]
    LowerTree.leaf) 0x1e24 [0x1e25] (LowerTree.node LowerTree.leaf 0x1e26 [0x1e27]
    LowerTree.leaf))) 0x1e28 [0x1e29] (LowerTree.node (LowerTree.node (LowerTree.node
    (LowerTree.node LowerTree.leaf 0x1e2a [0x1e2b] LowerTree.leaf) 0x1e2c [0x1e2d] LowerTree.leaf)
    0x1e2e [0x1e2f] (LowerTree.node (LowerTree.node LowerTree.leaf 0x1e30 [0x1e31] LowerTree.leaf)
    0x1e32 [0x1e33] LowerTree.leaf)) 0x1e34 [0x1e35] (LowerTree.node (LowerTree.node
    (LowerTree.node LowerTree.leaf 0x1e36 [0x1e37] LowerTree.leaf) 0x1e38 [0x1e39] LowerTree.leaf)
    0x1e3a [0x1e3b] (LowerTree.node LowerTree.leaf 0x1e3c [0x1e3d] LowerTree.leaf))))) 0x1e3e
    [0x1e3f] (LowerTree.node (LowerTree.node (LowerTree.node (LowerTree.node (LowerTree.node
    (LowerTree.node LowerTree.leaf 0x1e40 [0x1e41] LowerTree.leaf) 0x1e42 [0x1e43] LowerTree.leaf)
    0x1e44 [0x1e45] (LowerTree.node (LowerTree.node LowerTree.leaf 0x1e46 [0x1e47] LowerTree.leaf)
    0x1e48 [0x1e49] LowerTree.leaf)) 0x1e4a [0x1e4b] (LowerTree.node (LowerTree.node
    (LowerTree.node LowerTree.leaf 0x1e4c [0x1e4d] LowerTree.leaf) 0x1e4e [0x1e4f] LowerTree.leaf)
    0x1e50 [0x1e51] (LowerTree.node LowerTree.leaf 0x1e52 [0x1e53] LowerTree.leaf))) 0x1e54
    [0x1e55] (LowerTree.node (LowerTree.node (LowerTree.node (LowerTree.node LowerTree.leaf 0x1e56
    [0x1e57] LowerTree.leaf) 0x1e58 [0x1e59] LowerTree.leaf) 0x1e5a [0x1e5b] (LowerTree.node
    (LowerTree.node LowerTree.leaf 0x1e5c [0x1e5d] LowerTree.leaf) 0x1e5e [0x1e5f]
    LowerTree.leaf)) 0x1e60 [0x1e61] (LowerTree.node (LowerTree.node (LowerTree.node
    LowerTree.leaf 0x1e62 [0x1e63] LowerTree.leaf) 0x1e64 [0x1e65] LowerTree.leaf) 0x1e66 [0x1e67]
    (LowerTree.node LowerTree.leaf 0x1e68 [0x1e69] LowerTree.leaf)))) 0x1e6a [0x1e6b]
    (LowerTree.node (LowerTree.node (LowerTree.node (LowerTree.node (LowerTree.node LowerTree.leaf
    0x1e6c [0x1e6d] LowerTree.leaf) 0x1e6e [0x1e6f] LowerTree.leaf) 0x1e70 [0x1e71]
    (LowerTree.node (LowerTree.node LowerTree.leaf 0x1e72 [0x1e73] LowerTree.leaf) 0x1e74 [0x1e75]
    LowerTree.leaf)) 0x1e76 [0x1e77] (LowerTree.node (LowerTree.node (LowerTree.node
    LowerTree.leaf 0x1e78 [0x1e79] LowerTree.leaf) 0x1e7a [0x1e7b] LowerTree.leaf) 0x1e7c [0x1e7d]
    (LowerTree.node LowerTree.leaf 0x1e7e [0x1e7f] LowerTree.leaf))) 0x1e80 [0x1e81]
    (LowerTree.node (LowerTree.node (LowerTree.node (LowerTree.node LowerTree.leaf 0x1e82 [0x1e83]
    LowerTree.leaf) 0x1e84 [0x1e85] LowerTree.leaf) 0x1e86 [0x1e87] (LowerTree.node
    (LowerTree.node LowerTree.leaf 0x1e88 [0x1e89] LowerTree.leaf) 0x1e8a [0x1e8b]
    LowerTree.leaf)) 0x1e8c [0x1e8d] (LowerTree.node (LowerTree.node (LowerTree.node
    LowerTree.leaf 0x1e8e [0x1e8f] LowerTree.leaf) 0x1e90 [0x1e91] LowerTree.leaf) 0x1e92 [0x1e93]
    (LowerTree.node LowerTree.leaf 0x1e94 [0x1e95] LowerTree.leaf))))))

/-- Subtree 8 of the lowercase-mapping search tree. -/
def lowerTreeSub8 : LowerTree :=
  (LowerTree.node (LowerTree.node (LowerTree.node (LowerTree.node (LowerTree.node (LowerTree.node
    (LowerTree.node LowerTree.leaf 0x1ea0 [0x1ea1] LowerTree.leaf) 0x1ea2 [0x1ea3] LowerTree.leaf)
    0x1ea4 [0x1ea5] (LowerTree.node (LowerTree.node LowerTree.leaf 0x1ea6 [0x1ea7] LowerTree.leaf)
    0x1ea8 [0x1ea9] LowerTree.leaf)) 0x1eaa [0x1eab] (LowerTree.node (LowerTree.node
    (LowerTree.node LowerTree.leaf 0x1eac [0x1ead] LowerTree.leaf) 0x1eae [0x1eaf] LowerTree.leaf)
    0x1eb0 [0x1eb1] (LowerTree.node (LowerTree.node LowerTree.leaf 0x1eb2 [0x1eb3] LowerTree.leaf)
    0x1eb4 [0x1eb5] LowerTree.leaf))) 0x1eb6 [0x1eb7] (LowerTree.node (LowerTree.node
    (LowerTree.node (LowerTree.node LowerTree.leaf 0x1eb8 [0x1eb9] LowerTree.leaf) 0x1eba [0x1ebb]
    LowerTree.leaf) 0x1ebc [0x1ebd] (LowerTree.node (LowerTree.node LowerTree.leaf 0x1ebe [0x1ebf]
    LowerTree.leaf) 0x1ec0 [0x1ec1] LowerTree.leaf)) 0x1ec2 [0x1ec3] (LowerTree.node
    (LowerTree.node (LowerTree.node LowerTree.leaf 0x1ec4 [0x1ec5] LowerTree.leaf) 0x1ec6 [0x1ec7]
    LowerTree.leaf) 0x1ec8 [0x1ec9] (LowerTree.node LowerTree.leaf 0x1eca [0x1ecb]
    LowerTree.leaf)))) 0x1ecc [0x1ecd] (LowerTree.node (LowerTree.node (LowerTree.node
    (LowerTree.node (LowerTree.node LowerTree.leaf 0x1ece [0x1ecf] LowerTree.leaf) 0x1ed0 [0x1ed1]
    LowerTree.leaf) 0x1ed2 [0x1ed3] (LowerTree.node (LowerTree.node LowerTree.leaf 0x1ed4 [0x1ed5]
    LowerTree.leaf) 0x1ed6 [0x1ed7] LowerTree.leaf)) 0x1ed8 [0x1ed9] (LowerTree.node
    (LowerTree.node (LowerTree.node LowerTree.leaf 0x1eda [0x1edb] LowerTree.leaf) 0x1edc [0x1edd]
    LowerTree.leaf) 0x1ede [0x1edf] (LowerTree.node LowerTree.leaf 0x1ee0 [0x1ee1]
    LowerTree.leaf))) 0x1ee2 [0x1ee3] (LowerTree.node (LowerTree.node (LowerTree.node
    (LowerTree.node LowerTree.leaf 0x1ee4 [0x1ee5] LowerTree.leaf) 0x1ee6 [0x1ee7] LowerTree.leaf)
    0x1ee8 [0x1ee9] (LowerTree.node (LowerTree.node LowerTree.leaf 0x1eea [0x1eeb] LowerTree.leaf)
    0x1eec [0x1eed] LowerTree.leaf)) 0x1eee [0x1eef] (LowerTree.node (LowerTree.node
    (LowerTree.node LowerTree.leaf 0x1ef0 [0x1ef1] LowerTree.leaf) 0x1ef2 [0x1ef3] LowerTree.leaf)
    0x1ef4 [0x1ef5] (LowerTree.node LowerTree.leaf 0x1ef6 [0x1ef7] LowerTree.leaf))))) 0x1ef8
    [0x1ef9] (LowerTree.node (LowerTree.node (LowerTree.node (LowerTree.node (LowerTree.node
    (LowerTree.node LowerTree.leaf 0x1efa [0x1efb] LowerTree.leaf) 0x1efc [0x1efd] LowerTree.leaf)
    0x1efe [0x1eff] (LowerTree.node (LowerTree.node LowerTree.leaf 0x1f08 [0x1f00] LowerTree.leaf)
    0x1f09 [0x1f01] LowerTree.leaf)) 0x1f0a [0x1f02] (LowerTree.node (LowerTree.node
    (LowerTree.node LowerTree.leaf 0x1f0b [0x1f03] LowerTree.leaf) 0x1f0c [0x1f04] LowerTree.leaf)
    0x1f0d [0x1f05] (LowerTree.node (LowerTree.node LowerTree.leaf 0x1f0e [0x1f06] LowerTree.leaf)
    0x1f0f [0x1f07] LowerTree.leaf))) 0x1f18 [0x1f10] (LowerTree.node (LowerTree.node
    (LowerTree.node (LowerTree.node LowerTree.leaf 0x1f19 [0x1f11] LowerTree.leaf) 0x1f1a [0x1f12]
    LowerTree.leaf) 0x1f1b [0x1f13] (LowerTree.node (LowerTree.node LowerTree.leaf 0x1f1c [0x1f14]
    LowerTree.leaf) 0x1f1d [0x1f15] LowerTree.leaf)) 0x1f28 [0x1f20] (LowerTree.node
    (LowerTree.node (LowerTree.node LowerTree.leaf 0x1f29 [0x1f21] LowerTree.leaf) 0x1f2a [0x1f22]
    LowerTree.leaf) 0x1f2b [0x1f23] (LowerTree.node LowerTree.leaf 0x1f2c [0x1f24]
    LowerTree.leaf)))) 0x1f2d [0x1f25] (LowerTree.node (LowerTree.node (LowerTree.node
    (LowerTree.node (LowerTree.node LowerTree.leaf 0x1f2e [0x1f26] LowerTree.leaf) 0x1f2f [0x1f27]
    LowerTree.leaf) 0x1f38 [0x1f30] (LowerTree.node (LowerTree.node LowerTree.leaf 0x1f39 [0x1f31]
    LowerTree.leaf) 0x1f3a [0x1f32] LowerTree.leaf)) 0x1f3b [0x1f33] (LowerTree.node
    (LowerTree.node (LowerTree.node LowerTree.leaf 0x1f3c [0x1f34] LowerTree.leaf) 0x1f3d [0x1f35]
    LowerTree.leaf) 0x1f3e [0x1f36] (LowerTree.node LowerTree.leaf 0x1f3f [0x1f37]
    LowerTree.leaf))) 0x1f48 [0x1f40] (LowerTree.node (LowerTree.node (LowerTree.node
    (LowerTree.node LowerTree.leaf 0x1f49 [0x1f41] LowerTree.leaf) 0x1f4a [0x1f42] LowerTree.leaf)
    0x1f4b [0x1f43] (LowerTree.node (LowerTree.node LowerTree.leaf 0x1f4c [0x1f44] LowerTree.leaf)
    0x1f4d [0x1f45] LowerTree.leaf)) 0x1f59 [0x1f51] (LowerTree.node (LowerTree.node
    (LowerTree.node LowerTree.leaf 0x1f5b [0x1f53] LowerTree.leaf) 0x1f5d [0x1f55] LowerTree.leaf)
    0x1f5f [0x1f57] (LowerTree.node LowerTree.leaf 0x1f68 [0x1f60] LowerTree.leaf))))))

/-- Subtree 9 of the lowercase-mapping search tree. -/
def lowerTreeSub9 : LowerTree :=
  (LowerTree.node (LowerTree.node (LowerTree.node (LowerTree.node (LowerTree.node (LowerTree.node
    (LowerTree.node LowerTree.leaf 0x1f6a [0x1f62] LowerTree.leaf) 0x1f6b [0x1f63] LowerTree.leaf)
    0x1f6c [0x1f64] (LowerTree.node (LowerTree.node LowerTree.leaf 0x1f6d [0x1f65] LowerTree.leaf)
    0x1f6e [0x1f66] LowerTree.leaf)) 0x1f6f [0x1f67] (LowerTree.node (LowerTree.node
    (LowerTree.node LowerTree.leaf 0x1f88 [0x1f80] LowerTree.leaf) 0x1f89 [0x1f81] LowerTree.leaf)
    0x1f8a [0x1f82] (LowerTree.node (LowerTree.node LowerTree.leaf 0x1f8b [0x1f83] LowerTree.leaf)
    0x1f8c [0x1f84] LowerTree.leaf))) 0x1f8d [0x1f85] (LowerTree.node (LowerTree.node
    (LowerTree.node (LowerTree.node LowerTree.leaf 0x1f8e [0x1f86] LowerTree.leaf) 0x1f8f [0x1f87]
    LowerTree.leaf) 0x1f98 [0x1f90] (LowerTree.node (LowerTree.node LowerTree.leaf 0x1f99 [0x1f91]
    LowerTree.leaf) 0x1f9a [0x1f92] LowerTree.leaf)) 0x1f9b [0x1f93] (LowerTree.node
    (LowerTree.node (LowerTree.node LowerTree.leaf 0x1f9c [0x1f94] LowerTree.leaf) 0x1f9d [0x1f95]
    LowerTree.leaf) 0x1f9e [0x1f96] (LowerTree.node LowerTree.leaf 0x1f9f [0x1f97]
    LowerTree.leaf)))) 0x1fa8 [0x1fa0] (LowerTree.node (LowerTree.node (LowerTree.node
    (LowerTree.node (LowerTree.node LowerTree.leaf 0x1fa9 [0x1fa1] LowerTree.leaf) 0x1faa [0x1fa2]
    LowerTree.leaf) 0x1fab [0x1fa3] (LowerTree.node (LowerTree.node LowerTree.leaf 0x1fac [0x1fa4]
    LowerTree.leaf) 0x1fad [0x1fa5] LowerTree.leaf)) 0x1fae [0x1fa6] (LowerTree.node
    (LowerTree.node (LowerTree.node LowerTree.leaf 0x1faf [0x1fa7] LowerTree.leaf) 0x1fb8 [0x1fb0]
    LowerTree.leaf) 0x1fb9 [0x1fb1] (LowerTree.node LowerTree.leaf 0x1fba [0x1f70]
    LowerTree.leaf))) 0x1fbb [0x1f71] (LowerTree.node (LowerTree.node (LowerTree.node
    (LowerTree.node LowerTree.leaf 0x1fbc [0x1fb3] LowerTree.leaf) 0x1fc8 [0x1f72] LowerTree.leaf)
    0x1fc9 [0x1f73] (LowerTree.node (LowerTree.node LowerTree.leaf 0x1fca [0x1f74] LowerTree.leaf)
    0x1fcb [0x1f75] LowerTree.leaf)) 0x1fcc [0x1fc3] (LowerTree.node (LowerTree.node
    (LowerTree.node LowerTree.leaf 0x1fd8 [0x1fd0] LowerTree.leaf) 0x1fd9 [0x1fd1] LowerTree.leaf)
    0x1fda [0x1f76] (LowerTree.node LowerTree.leaf 0x1fdb [0x1f77] LowerTree.leaf))))) 0x1fe8
    [0x1fe0] (LowerTree.node (LowerTree.node (LowerTree.node (LowerTree.node (LowerTree.node
    (LowerTree.node LowerTree.leaf 0x1fe9 [0x1fe1] LowerTree.leaf) 0x1fea [0x1f7a] LowerTree.leaf)
    0x1feb [0x1f7b] (LowerTree.node (LowerTree.node LowerTree.leaf 0x1fec [0x1fe5] LowerTree.leaf)
    0x1ff8 [0x1f78] LowerTree.leaf)) 0x1ff9 [0x1f79] (LowerTree.node (LowerTree.node
    (LowerTree.node LowerTree.leaf 0x1ffa [0x1f7c] LowerTree.leaf) 0x1ffb [0x1f7d] LowerTree.leaf)
    0x1ffc [0x1ff3] (LowerTree.node (LowerTree.node LowerTree.leaf 0x2126 [0x3c9] LowerTree.leaf)
    0x212a [0x6b] LowerTree.leaf))) 0x212b [0xe5] (LowerTree.node (LowerTree.node (LowerTree.node
    (LowerTree.node LowerTree.leaf 0x2132 [0x214e] LowerTree.leaf) 0x2160 [0x2170] LowerTree.leaf)
    0x2161 [0x2171] (LowerTree.node (LowerTree.node LowerTree.leaf 0x2162 [0x2172] LowerTree.leaf)
    0x2163 [0x2173] LowerTree.leaf)) 0x2164 [0x2174] (LowerTree.node (LowerTree.node
    (LowerTree.node LowerTree.leaf 0x2165 [0x2175] LowerTree.leaf) 0x2166 [0x2176] LowerTree.leaf)
    0x2167 [0x2177] (LowerTree.node LowerTree.leaf 0x2168 [0x2178] LowerTree.leaf)))) 0x2169
    [0x2179] (LowerTree.node (LowerTree.node (LowerTree.node (LowerTree.node (LowerTree.node
    LowerTree.leaf 0x216a [0x217a] LowerTree.leaf) 0x216b [0x217b] LowerTree.leaf) 0x216c [0x217c]
    (LowerTree.node (LowerTree.node LowerTree.leaf 0x216d [0x217d] LowerTree.leaf) 0x216e [0x217e]
    LowerTree.leaf)) 0x216f [0x217f] (LowerTree.node (LowerTree.node (LowerTree.node
    LowerTree.leaf 0x2183 [0x2184] LowerTree.leaf) 0x24b6 [0x24d0] LowerTree.leaf) 0x24b7 [0x24d1]
    (LowerTree.node LowerTree.leaf 0x24b8 [0x24d2] LowerTree.leaf))) 0x24b9 [0x24d3]
    (LowerTree.node (LowerTree.node (LowerTree.node (LowerTree.node LowerTree.leaf 0x24ba [0x24d4]
    LowerTree.leaf) 0x24bb [0x24d5] LowerTree.leaf) 0x24bc [0x24d6] (LowerTree.node
    (LowerTree.node LowerTree.leaf 0x24bd [0x24d7] LowerTree.leaf) 0x24be [0x24d8]
    LowerTree.leaf)) 0x24bf [0x24d9] (LowerTree.node (LowerTree.node (LowerTree.node
    LowerTree.leaf 0x24c0 [0x24da] LowerTree.leaf) 0x24c1 [0x24db] LowerTree.leaf) 0x24c2 [0x24dc]
    (LowerTree.node LowerTree.leaf 0x24c3 [0x24dd] LowerTree.leaf))))))

/-- Subtree 10 of the lowercase-mapping search tree. -/
def lowerTreeSub10 : LowerTree :=
  (LowerTree.node (LowerTree.node (LowerTree.node (LowerTree.node (LowerTree.node (LowerTree.node
    (LowerTree.node LowerTree.leaf 0x24c5 [0x24df] LowerTree.leaf) 0x24c6 [0x24e0] LowerTree.leaf)
    0x24c7 [0x24e1] (LowerTree.node (LowerTree.node LowerTree.leaf 0x24c8 [0x24e2] LowerTree.leaf)
    0x24c9 [0x24e3] LowerTree.leaf)) 0x24ca [0x24e4] (LowerTree.node (LowerTree.node
    (LowerTree.node LowerTree.leaf 0x24cb [0x24e5] LowerTree.leaf) 0x24cc [0x24e6] LowerTree.leaf)
    0x24cd [0x24e7] (LowerTree.node (LowerTree.node LowerTree.leaf 0x24ce [0x24e8] LowerTree.leaf)
    0x24cf [0x24e9] LowerTree.leaf))) 0x2c00 [0x2c30] (LowerTree.node (LowerTree.node
    (LowerTree.node (LowerTree.node LowerTree.leaf 0x2c01 [0x2c31] LowerTree.leaf) 0x2c02 [0x2c32]
    LowerTree.leaf) 0x2c03 [0x2c33] (LowerTree.node (LowerTree.node LowerTree.leaf 0x2c04 [0x2c34]
    LowerTree.leaf) 0x2c05 [0x2c35] LowerTree.leaf)) 0x2c06 [0x2c36] (LowerTree.node
    (LowerTree.node (LowerTree.node LowerTree.leaf 0x2c07 [0x2c37] LowerTree.leaf) 0x2c08 [0x2c38]
    LowerTree.leaf) 0x2c09 [0x2c39] (LowerTree.node LowerTree.leaf 0x2c0a [0x2c3a]
    LowerTree.leaf)))) 0x2c0b [0x2c3b] (LowerTree.node (LowerTree.node (LowerTree.node
    (LowerTree.node (LowerTree.node LowerTree.leaf 0x2c0c [0x2c3c] LowerTree.leaf) 0x2c0d [0x2c3d]
    LowerTree.leaf) 0x2c0e [0x2c3e] (LowerTree.node (LowerTree.node LowerTree.leaf 0x2c0f [0x2c3f]
    LowerTree.leaf) 0x2c10 [0x2c40] LowerTree.leaf)) 0x2c11 [0x2c41] (LowerTree.node
    (LowerTree.node (LowerTree.node LowerTree.leaf 0x2c12 [0x2c42] LowerTree.leaf) 0x2c13 [0x2c43]
    LowerTree.leaf) 0x2c14 [0x2c44] (LowerTree.node LowerTree.leaf 0x2c15 [0x2c45]
    LowerTree.leaf))) 0x2c16 [0x2c46] (LowerTree.node (LowerTree.node (LowerTree.node
    (LowerTree.node LowerTree.leaf 0x2c17 [0x2c47] LowerTree.leaf) 0x2c18 [0x2c48] LowerTree.leaf)
    0x2c19 [0x2c49] (LowerTree.node (LowerTree.node LowerTree.leaf 0x2c1a [0x2c4a] LowerTree.leaf)
    0x2c1b [0x2c4b] LowerTree.leaf)) 0x2c1c [0x2c4c] (LowerTree.node (LowerTree.node
    (LowerTree.node LowerTree.leaf 0x2c1d [0x2c4d] LowerTree.leaf) 0x2c1e [0x2c4e] LowerTree.leaf)
    0x2c1f [0x2c4f] (LowerTree.node LowerTree.leaf 0x2c20 [0x2c50] LowerTree.leaf))))) 0x2c21
    [0x2c51] (LowerTree.node (LowerTree.node (LowerTree.node (LowerTree.node (LowerTree.node
    (LowerTree.node LowerTree.leaf 0x2c22 [0x2c52] LowerTree.leaf) 0x2c23 [0x2c53] LowerTree.leaf)
    0x2c24 [0x2c54] (LowerTree.node (LowerTree.node LowerTree.leaf 0x2c25 [0x2c55] LowerTree.leaf)
    0x2c26 [0x2c56] LowerTree.leaf)) 0x2c27 [0x2c57] (LowerTree.node (LowerTree.node
    (LowerTree.node LowerTree.leaf 0x2c28 [0x2c58] LowerTree.leaf) 0x2c29 [0x2c59] LowerTree.leaf)
    0x2c2a [0x2c5a] (LowerTree.node (LowerTree.node LowerTree.leaf 0x2c2b [0x2c5b] LowerTree.leaf)
    0x2c2c [0x2c5c] LowerTree.leaf))) 0x2c2d [0x2c5d] (LowerTree.node (LowerTree.node
    (LowerTree.node (LowerTree.node LowerTree.leaf 0x2c2e [0x2c5e] LowerTree.leaf) 0x2c2f [0x2c5f]
    LowerTree.leaf) 0x2c60 [0x2c61] (LowerTree.node (LowerTree.node LowerTree.leaf 0x2c62 [0x26b]
    LowerTree.leaf) 0x2c63 [0x1d7d] LowerTree.leaf)) 0x2c64 [0x27d] (LowerTree.node
    (LowerTree.node (LowerTree.node LowerTree.leaf 0x2c67 [0x2c68] LowerTree.leaf) 0x2c69 [0x2c6a]
    LowerTree.leaf) 0x2c6b [0x2c6c] (LowerTree.node LowerTree.leaf 0x2c6d [0x251]
    LowerTree.leaf)))) 0x2c6e [0x271] (LowerTree.node (LowerTree.node (LowerTree.node
    (LowerTree.node (LowerTree.node LowerTree.leaf 0x2c6f [0x250] LowerTree.leaf) 0x2c70 [0x252]
    LowerTree.leaf) 0x2c72 [0x2c73] (LowerTree.node (LowerTree.node LowerTree.leaf 0x2c75 [0x2c76]
    LowerTree.leaf) 0x2c7e [0x23f] LowerTree.leaf)) 0x2c7f [0x240] (LowerTree.node (LowerTree.node
    (LowerTree.node LowerTree.leaf 0x2c80 [0x2c81] LowerTree.leaf) 0x2c82 [0x2c83] LowerTree.leaf)
    0x2c84 [0x2c85] (LowerTree.node LowerTree.leaf 0x2c86 [0x2c87] LowerTree.leaf))) 0x2c88
    [0x2c89] (LowerTree.node (LowerTree.node (LowerTree.node (LowerTree.node LowerTree.leaf 0x2c8a
    [0x2c8b] LowerTree.leaf) 0x2c8c [0x2c8d] LowerTree.leaf) 0x2c8e [0x2c8f] (LowerTree.node
    (LowerTree.node LowerTree.leaf 0x2c90 [0x2c91] LowerTree.leaf) 0x2c92 [0x2c93]
    LowerTree.leaf)) 0x2c94 [0x2c95] (LowerTree.node (LowerTree.node (LowerTree.node
    LowerTree.leaf 0x2c96 [0x2c97] LowerTree.leaf) 0x2c98 [0x2c99] LowerTree.leaf) 0x2c9a [0x2c9b]
    (LowerTree.node LowerTree.leaf 0x2c9c [0x2c9d] LowerTree.leaf))))))

/-- Subtree 11 of the lowercase-mapping search tree. -/
def lowerTreeSub11 : LowerTree :=
  (LowerTree.node (LowerTree.node (LowerTree.node (LowerTree.node (LowerTree.node (LowerTree.node
    (LowerTree.node LowerTree.leaf 0x2ca0 [0x2ca1] LowerTree.leaf) 0x2ca2 [0x2ca3] LowerTree.leaf)
    0x2ca4 [0x2ca5] (LowerTree.node (LowerTree.node LowerTree.leaf 0x2ca6 [0x2ca7] LowerTree.leaf)
    0x2ca8 [0x2ca9] LowerTree.leaf)) 0x2caa [0x2cab] (LowerTree.node (LowerTree.node
    (LowerTree.node LowerTree.leaf 0x2cac [0x2cad] LowerTree.leaf) 0x2cae [0x2caf] LowerTree.leaf)
    0x2cb0 [0x2cb1] (LowerTree.node (LowerTree.node LowerTree.leaf 0x2cb2 [0x2cb3] LowerTree.leaf)
    0x2cb4 [0x2cb5] LowerTree.leaf))) 0x2cb6 [0x2cb7] (LowerTree.node (LowerTree.node
    (LowerTree.node (LowerTree.node LowerTree.leaf 0x2cb8 [0x2cb9] LowerTree.leaf) 0x2cba [0x2cbb]
    LowerTree.leaf) 0x2cbc [0x2cbd] (LowerTree.node (LowerTree.node LowerTree.leaf 0x2cbe [0x2cbf]
    LowerTree.leaf) 0x2cc0 [0x2cc1] LowerTree.leaf)) 0x2cc2 [0x2cc3] (LowerTree.node
    (LowerTree.node (LowerTree.node LowerTree.leaf 0x2cc4 [0x2cc5] LowerTree.leaf) 0x2cc6 [0x2cc7]
    LowerTree.leaf) 0x2cc8 [0x2cc9] (LowerTree.node LowerTree.leaf 0x2cca [0x2ccb]
    LowerTree.leaf)))) 0x2ccc [0x2ccd] (LowerTree.node (LowerTree.node (LowerTree.node
    (LowerTree.node (LowerTree.node LowerTree.leaf 0x2cce [0x2ccf] LowerTree.leaf) 0x2cd0 [0x2cd1]
    LowerTree.leaf) 0x2cd2 [0x2cd3] (LowerTree.node (LowerTree.node LowerTree.leaf 0x2cd4 [0x2cd5]
    LowerTree.leaf) 0x2cd6 [0x2cd7] LowerTree.leaf)) 0x2cd8 [0x2cd9] (LowerTree.node
    (LowerTree.node (LowerTree.node LowerTree.leaf 0x2cda [0x2cdb] LowerTree.leaf) 0x2cdc [0x2cdd]
    LowerTree.leaf) 0x2cde [0x2cdf] (LowerTree.node LowerTree.leaf 0x2ce0 [0x2ce1]
    LowerTree.leaf))) 0x2ce2 [0x2ce3] (LowerTree.node (LowerTree.node (LowerTree.node
    (LowerTree.node LowerTree.leaf 0x2ceb [0x2cec] LowerTree.leaf) 0x2ced [0x2cee] LowerTree.leaf)
    0x2cf2 [0x2cf3] (LowerTree.node (LowerTree.node LowerTree.leaf 0xa640 [0xa641] LowerTree.leaf)
    0xa642 [0xa643] LowerTree.leaf)) 0xa644 [0xa645] (LowerTree.node (LowerTree.node
    (LowerTree.node LowerTree.leaf 0xa646 [0xa647] LowerTree.leaf) 0xa648 [0xa649] LowerTree.leaf)
    0xa64a [0xa64b] (LowerTree.node LowerTree.leaf 0xa64c [0xa64d] LowerTree.leaf))))) 0xa64e
    [0xa64f] (LowerTree.node (LowerTree.node (LowerTree.node (LowerTree.node (LowerTree.node
    (LowerTree.node LowerTree.leaf 0xa650 [0xa651] LowerTree.leaf) 0xa652 [0xa653] LowerTree.leaf)
    0xa654 [0xa655] (LowerTree.node (LowerTree.node LowerTree.leaf 0xa656 [0xa657] LowerTree.leaf)
    0xa658 [0xa659] LowerTree.leaf)) 0xa65a [0xa65b] (LowerTree.node (LowerTree.node
    (LowerTree.node LowerTree.leaf 0xa65c [0xa65d] LowerTree.leaf) 0xa65e [0xa65f] LowerTree.leaf)
    0xa660 [0xa661] (LowerTree.node LowerTree.leaf 0xa662 [0xa663] LowerTree.leaf))) 0xa664
    [0xa665] (LowerTree.node (LowerTree.node (LowerTree.node (LowerTree.node LowerTree.leaf 0xa666
    [0xa667] LowerTree.leaf) 0xa668 [0xa669] LowerTree.leaf) 0xa66a [0xa66b] (LowerTree.node
    (LowerTree.node LowerTree.leaf 0xa66c [0xa66d] LowerTree.leaf) 0xa680 [0xa681]
    LowerTree.leaf)) 0xa682 [0xa683] (LowerTree.node (LowerTree.node (LowerTree.node
    LowerTree.leaf 0xa684 [0xa685] LowerTree.leaf) 0xa686 [0xa687] LowerTree.leaf) 0xa688 [0xa689]
    (LowerTree.node LowerTree.leaf 0xa68a [0xa68b] LowerTree.leaf)))) 0xa68c [0xa68d]
    (LowerTree.node (LowerTree.node (LowerTree.node (LowerTree.node (LowerTree.node LowerTree.leaf
    0xa68e [0xa68f] LowerTree.leaf) 0xa690 [0xa691] LowerTree.leaf) 0xa692 [0xa693]
    (LowerTree.node (LowerTree.node LowerTree.leaf 0xa694 [0xa695] LowerTree.leaf) 0xa696 [0xa697]
    LowerTree.leaf)) 0xa698 [0xa699] (LowerTree.node (LowerTree.node (LowerTree.node
    LowerTree.leaf 0xa69a [0xa69b] LowerTree.leaf) 0xa722 [0xa723] LowerTree.leaf) 0xa724 [0xa725]
    (LowerTree.node LowerTree.leaf 0xa726 [0xa727] LowerTree.leaf))) 0xa728 [0xa729]
    (LowerTree.node (LowerTree.node (LowerTree.node (LowerTree.node LowerTree.leaf 0xa72a [0xa72b]
    LowerTree.leaf) 0xa72c [0xa72d] LowerTree.leaf) 0xa72e [0xa72f] (LowerTree.node
    (LowerTree.node LowerTree.leaf 0xa732 [0xa733] LowerTree.leaf) 0xa734 [0xa735]
    LowerTree.leaf)) 0xa736 [0xa737] (LowerTree.node (LowerTree.node (LowerTree.node
    LowerTree.leaf 0xa738 [0xa739] LowerTree.leaf) 0xa73a [0xa73b] LowerTree.leaf) 0xa73c [0xa73d]
    (LowerTree.node LowerTree.leaf 0xa73e [0xa73f] LowerTree.leaf))))))

/-- Subtree 12 of the lowercase-mapping search tree. -/
def lowerTreeSub12 : LowerTree :=
  (LowerTree.node (LowerTree.node (LowerTree.node (LowerTree.node (LowerTree.node (LowerTree.node
    (LowerTree.node LowerTree.leaf 0xa742 [0xa743] LowerTree.leaf) 0xa744 [0xa745] LowerTree.leaf)
    0xa746 [0xa747] (LowerTree.node (LowerTree.node LowerTree.leaf 0xa748 [0xa749] LowerTree.leaf)
    0xa74a [0xa74b] LowerTree.leaf)) 0xa74c [0xa74d] (LowerTree.node (LowerTree.node
    (LowerTree.node LowerTree.leaf 0xa74e [0xa74f] LowerTree.leaf) 0xa750 [0xa751] LowerTree.leaf)
    0xa752 [0xa753] (LowerTree.node (LowerTree.node LowerTree.leaf 0xa754 [0xa755] LowerTree.leaf)
    0xa756 [0xa757] LowerTree.leaf))) 0xa758 [0xa759] (LowerTree.node (LowerTree.node
    (LowerTree.node (LowerTree.node LowerTree.leaf 0xa75a [0xa75b] LowerTree.leaf) 0xa75c [0xa75d]
    LowerTree.leaf) 0xa75e [0xa75f] (LowerTree.node (LowerTree.node LowerTree.leaf 0xa760 [0xa761]
    LowerTree.leaf) 0xa762 [0xa763] LowerTree.leaf)) 0xa764 [0xa765] (LowerTree.node
    (LowerTree.node (LowerTree.node LowerTree.leaf 0xa766 [0xa767] LowerTree.leaf) 0xa768 [0xa769]
    LowerTree.leaf) 0xa76a [0xa76b] (LowerTree.node LowerTree.leaf 0xa76c [0xa76d]
    LowerTree.leaf)))) 0xa76e [0xa76f] (LowerTree.node (LowerTree.node (LowerTree.node
    (LowerTree.node (LowerTree.node LowerTree.leaf 0xa779 [0xa77a] LowerTree.leaf) 0xa77b [0xa77c]
    LowerTree.leaf) 0xa77d [0x1d79] (LowerTree.node (LowerTree.node LowerTree.leaf 0xa77e [0xa77f]
    LowerTree.leaf) 0xa780 [0xa781] LowerTree.leaf)) 0xa782 [0xa783] (LowerTree.node
    (LowerTree.node (LowerTree.node LowerTree.leaf 0xa784 [0xa785] LowerTree.leaf) 0xa786 [0xa787]
    LowerTree.leaf) 0xa78b [0xa78c] (LowerTree.node LowerTree.leaf 0xa78d [0x265]
    LowerTree.leaf))) 0xa790 [0xa791] (LowerTree.node (LowerTree.node (LowerTree.node
    (LowerTree.node LowerTree.leaf 0xa792 [0xa793] LowerTree.leaf) 0xa796 [0xa797] LowerTree.leaf)
    0xa798 [0xa799] (LowerTree.node (LowerTree.node LowerTree.leaf 0xa79a [0xa79b] LowerTree.leaf)
    0xa79c [0xa79d] LowerTree.leaf)) 0xa79e [0xa79f] (LowerTree.node (LowerTree.node
    (LowerTree.node LowerTree.leaf 0xa7a0 [0xa7a1] LowerTree.leaf) 0xa7a2 [0xa7a3] LowerTree.leaf)
    0xa7a4 [0xa7a5] (LowerTree.node LowerTree.leaf 0xa7a6 [0xa7a7] LowerTree.leaf))))) 0xa7a8
    [0xa7a9] (LowerTree.node (LowerTree.node (LowerTree.node (LowerTree.node (LowerTree.node
    (LowerTree.node LowerTree.leaf 0xa7aa [0x266] LowerTree.leaf) 0xa7ab [0x25c] LowerTree.leaf)
    0xa7ac [0x261] (LowerTree.node (LowerTree.node LowerTree.leaf 0xa7ad [0x26c] LowerTree.leaf)
    0xa7ae [0x26a] LowerTree.leaf)) 0xa7b0 [0x29e] (LowerTree.node (LowerTree.node (LowerTree.node
    LowerTree.leaf 0xa7b1 [0x287] LowerTree.leaf) 0xa7b2 [0x29d] LowerTree.leaf) 0xa7b3 [0xab53]
    (LowerTree.node (LowerTree.node LowerTree.leaf 0xa7b4 [0xa7b5] LowerTree.leaf) 0xa7b6 [0xa7b7]
    LowerTree.leaf))) 0xa7b8 [0xa7b9] (LowerTree.node (LowerTree.node (LowerTree.node
    (LowerTree.node LowerTree.leaf 0xa7ba [0xa7bb] LowerTree.leaf) 0xa7bc [0xa7bd] LowerTree.leaf)
    0xa7be [0xa7bf] (LowerTree.node (LowerTree.node LowerTree.leaf 0xa7c0 [0xa7c1] LowerTree.leaf)
    0xa7c2 [0xa7c3] LowerTree.leaf)) 0xa7c4 [0xa794] (LowerTree.node (LowerTree.node
    (LowerTree.node LowerTree.leaf 0xa7c5 [0x282] LowerTree.leaf) 0xa7c6 [0x1d8e] LowerTree.leaf)
    0xa7c7 [0xa7c8] (LowerTree.node LowerTree.leaf 0xa7c9 [0xa7ca] LowerTree.leaf)))) 0xa7d0
    [0xa7d1] (LowerTree.node (LowerTree.node (LowerTree.node (LowerTree.node (LowerTree.node
    LowerTree.leaf 0xa7d6 [0xa7d7] LowerTree.leaf) 0xa7d8 [0xa7d9] LowerTree.leaf) 0xa7f5 [0xa7f6]
    (LowerTree.node (LowerTree.node LowerTree.leaf 0xff21 [0xff41] LowerTree.leaf) 0xff22 [0xff42]
    LowerTree.leaf)) 0xff23 [0xff43] (LowerTree.node (LowerTree.node (LowerTree.node
    LowerTree.leaf 0xff24 [0xff44] LowerTree.leaf) 0xff25 [0xff45] LowerTree.leaf) 0xff26 [0xff46]
    (LowerTree.node LowerTree.leaf 0xff27 [0xff47] LowerTree.leaf))) 0xff28 [0xff48]
    (LowerTree.node (LowerTree.node (LowerTree.node (LowerTree.node LowerTree.leaf 0xff29 [0xff49]
    LowerTree.leaf) 0xff2a [0xff4a] LowerTree.leaf) 0xff2b [0xff4b] (LowerTree.node
    (LowerTree.node LowerTree.leaf 0xff2c [0xff4c] LowerTree.leaf) 0xff2d [0xff4d]
    LowerTree.leaf)) 0xff2e [0xff4e] (LowerTree.node (LowerTree.node (LowerTree.node
    LowerTree.leaf 0xff2f [0xff4f] LowerTree.leaf) 0xff30 [0xff50] LowerTree.leaf) 0xff31 [0xff51]
    (LowerTree.node LowerTree.leaf 0xff32 [0xff52] LowerTree.leaf))))))

/-- Subtree 13 of the lowercase-mapping search tree. -/
def lowerTreeSub13 : LowerTree :=
  (LowerTree.node (LowerTree.node (LowerTree.node (LowerTree.node (LowerTree.node (LowerTree.node
    (LowerTree.node LowerTree.leaf 0xff34 [0xff54] LowerTree.leaf) 0xff35 [0xff55] LowerTree.leaf)
    0xff36 [0xff56] (LowerTree.node (LowerTree.node LowerTree.leaf 0xff37 [0xff57] LowerTree.leaf)
    0xff38 [0xff58] LowerTree.leaf)) 0xff39 [0xff59] (LowerTree.node (LowerTree.node
    (LowerTree.node LowerTree.leaf 0xff3a [0xff5a] LowerTree.leaf) 0x10400 [0x10428]
    LowerTree.leaf) 0x10401 [0x10429] (LowerTree.node (LowerTree.node LowerTree.leaf 0x10402
    [0x1042a] LowerTree.leaf) 0x10403 [0x1042b] LowerTree.leaf))) 0x10404 [0x1042c]
    (LowerTree.node (LowerTree.node (LowerTree.node (LowerTree.node LowerTree.leaf 0x10405
    [0x1042d] LowerTree.leaf) 0x10406 [0x1042e] LowerTree.leaf) 0x10407 [0x1042f] (LowerTree.node
    (LowerTree.node LowerTree.leaf 0x10408 [0x10430] LowerTree.leaf) 0x10409 [0x10431]
    LowerTree.leaf)) 0x1040a [0x10432] (LowerTree.node (LowerTree.node (LowerTree.node
    LowerTree.leaf 0x1040b [0x10433] LowerTree.leaf) 0x1040c [0x10434] LowerTree.leaf) 0x1040d
    [0x10435] (LowerTree.node LowerTree.leaf 0x1040e [0x10436] LowerTree.leaf)))) 0x1040f
    [0x10437] (LowerTree.node (LowerTree.node (LowerTree.node (LowerTree.node (LowerTree.node
    LowerTree.leaf 0x10410 [0x10438] LowerTree.leaf) 0x10411 [0x10439] LowerTree.leaf) 0x10412
    [0x1043a] (LowerTree.node (LowerTree.node LowerTree.leaf 0x10413 [0x1043b] LowerTree.leaf)
    0x10414 [0x1043c] LowerTree.leaf)) 0x10415 [0x1043d] (LowerTree.node (LowerTree.node
    (LowerTree.node LowerTree.leaf 0x10416 [0x1043e] LowerTree.leaf) 0x10417 [0x1043f]
    LowerTree.leaf) 0x10418 [0x10440] (LowerTree.node LowerTree.leaf 0x10419 [0x10441]
    LowerTree.leaf))) 0x1041a [0x10442] (LowerTree.node (LowerTree.node (LowerTree.node
    (LowerTree.node LowerTree.leaf 0x1041b [0x10443] LowerTree.leaf) 0x1041c [0x10444]
    LowerTree.leaf) 0x1041d [0x10445] (LowerTree.node (LowerTree.node LowerTree.leaf 0x1041e
    [0x10446] LowerTree.leaf) 0x1041f [0x10447] LowerTree.leaf)) 0x10420 [0x10448] (LowerTree.node
    (LowerTree.node (LowerTree.node LowerTree.leaf 0x10421 [0x10449] LowerTree.leaf) 0x10422
    [0x1044a] LowerTree.leaf) 0x10423 [0x1044b] (LowerTree.node LowerTree.leaf 0x10424 [0x1044c]
    LowerTree.leaf))))) 0x10425 [0x1044d] (LowerTree.node (LowerTree.node (LowerTree.node
    (LowerTree.node (LowerTree.node (LowerTree.node LowerTree.leaf 0x10426 [0x1044e]
    LowerTree.leaf) 0x10427 [0x1044f] LowerTree.leaf) 0x104b0 [0x104d8] (LowerTree.node
    (LowerTree.node LowerTree.leaf 0x104b1 [0x104d9] LowerTree.leaf) 0x104b2 [0x104da]
    LowerTree.leaf)) 0x104b3 [0x104db] (LowerTree.node (LowerTree.node (LowerTree.node
    LowerTree.leaf 0x104b4 [0x104dc] LowerTree.leaf) 0x104b5 [0x104dd] LowerTree.leaf) 0x104b6
    [0x104de] (LowerTree.node LowerTree.leaf 0x104b7 [0x104df] LowerTree.leaf))) 0x104b8 [0x104e0]
    (LowerTree.node (LowerTree.node (LowerTree.node (LowerTree.node LowerTree.leaf 0x104b9
    [0x104e1] LowerTree.leaf) 0x104ba [0x104e2] LowerTree.leaf) 0x104bb [0x104e3] (LowerTree.node
    (LowerTree.node LowerTree.leaf 0x104bc [0x104e4] LowerTree.leaf) 0x104bd [0x104e5]
    LowerTree.leaf)) 0x104be [0x104e6] (LowerTree.node (LowerTree.node (LowerTree.node
    LowerTree.leaf 0x104bf [0x104e7] LowerTree.leaf) 0x104c0 [0x104e8] LowerTree.leaf) 0x104c1
    [0x104e9] (LowerTree.node LowerTree.leaf 0x104c2 [0x104ea] LowerTree.leaf)))) 0x104c3
    [0x104eb] (LowerTree.node (LowerTree.node (LowerTree.node (LowerTree.node (LowerTree.node
    LowerTree.leaf 0x104c4 [0x104ec] LowerTree.leaf) 0x104c5 [0x104ed] LowerTree.leaf) 0x104c6
    [0x104ee] (LowerTree.node (LowerTree.node LowerTree.leaf 0x104c7 [0x104ef] LowerTree.leaf)
    0x104c8 [0x104f0] LowerTree.leaf)) 0x104c9 [0x104f1] (LowerTree.node (LowerTree.node
    (LowerTree.node LowerTree.leaf 0x104ca [0x104f2] LowerTree.leaf) 0x104cb [0x104f3]
    LowerTree.leaf) 0x104cc [0x104f4] (LowerTree.node LowerTree.leaf 0x104cd [0x104f5]
    LowerTree.leaf))) 0x104ce [0x104f6] (LowerTree.node (LowerTree.node (LowerTree.node
    (LowerTree.node LowerTree.leaf 0x104cf [0x104f7] LowerTree.leaf) 0x104d0 [0x104f8]
    LowerTree.leaf) 0x104d1 [0x104f9] (LowerTree.node (LowerTree.node LowerTree.leaf 0x104d2
    [0x104fa] LowerTree.leaf) 0x104d3 [0x104fb] LowerTree.leaf)) 0x10570 [0x10597] (LowerTree.node
    (LowerTree.node (LowerTree.node LowerTree.leaf 0x10571 [0x10598] LowerTree.leaf) 0x10572
    [0x10599] LowerTree.leaf) 0x10573 [0x1059a] (LowerTree.node LowerTree.leaf 0x10574 [0x1059b]
    LowerTree.leaf))))))

/-- Subtree 14 of the lowercase-mapping search tree. -/
def lowerTreeSub14 : LowerTree :=
  (LowerTree.node (LowerTree.node (LowerTree.node (LowerTree.node (LowerTree.node (LowerTree.node
    (LowerTree.node LowerTree.leaf 0x10576 [0x1059d] LowerTree.leaf) 0x10577 [0x1059e]
    LowerTree.leaf) 0x10578 [0x1059f] (LowerTree.node (LowerTree.node LowerTree.leaf 0x10579
    [0x105a0] LowerTree.leaf) 0x1057a [0x105a1] LowerTree.leaf)) 0x1057c [0x105a3] (LowerTree.node
    (LowerTree.node (LowerTree.node LowerTree.leaf 0x1057d [0x105a4] LowerTree.leaf) 0x1057e
    [0x105a5] LowerTree.leaf) 0x1057f [0x105a6] (LowerTree.node (LowerTree.node LowerTree.leaf
    0x10580 [0x105a7] LowerTree.leaf) 0x10581 [0x105a8] LowerTree.leaf))) 0x10582 [0x105a9]
    (LowerTree.node (LowerTree.node (LowerTree.node (LowerTree.node LowerTree.leaf 0x10583
    [0x105aa] LowerTree.leaf) 0x10584 [0x105ab] LowerTree.leaf) 0x10585 [0x105ac] (LowerTree.node
    (LowerTree.node LowerTree.leaf 0x10586 [0x105ad] LowerTree.leaf) 0x10587 [0x105ae]
    LowerTree.leaf)) 0x10588 [0x105af] (LowerTree.node (LowerTree.node (LowerTree.node
    LowerTree.leaf 0x10589 [0x105b0] LowerTree.leaf) 0x1058a [0x105b1] LowerTree.leaf) 0x1058c
    [0x105b3] (LowerTree.node LowerTree.leaf 0x1058d [0x105b4] LowerTree.leaf)))) 0x1058e
    [0x105b5] (LowerTree.node (LowerTree.node (LowerTree.node (LowerTree.node (LowerTree.node
    LowerTree.leaf 0x1058f [0x105b6] LowerTree.leaf) 0x10590 [0x105b7] LowerTree.leaf) 0x10591
    [0x105b8] (LowerTree.node (LowerTree.node LowerTree.leaf 0x10592 [0x105b9] LowerTree.leaf)
    0x10594 [0x105bb] LowerTree.leaf)) 0x10595 [0x105bc] (LowerTree.node (LowerTree.node
    (LowerTree.node LowerTree.leaf 0x10c80 [0x10cc0] LowerTree.leaf) 0x10c81 [0x10cc1]
    LowerTree.leaf) 0x10c82 [0x10cc2] (LowerTree.node LowerTree.leaf 0x10c83 [0x10cc3]
    LowerTree.leaf))) 0x10c84 [0x10cc4] (LowerTree.node (LowerTree.node (LowerTree.node
    (LowerTree.node LowerTree.leaf 0x10c85 [0x10cc5] LowerTree.leaf) 0x10c86 [0x10cc6]
    LowerTree.leaf) 0x10c87 [0x10cc7] (LowerTree.node (LowerTree.node LowerTree.leaf 0x10c88
    [0x10cc8] LowerTree.leaf) 0x10c89 [0x10cc9] LowerTree.leaf)) 0x10c8a [0x10cca] (LowerTree.node
    (LowerTree.node (LowerTree.node LowerTree.leaf 0x10c8b [0x10ccb] LowerTree.leaf) 0x10c8c
    [0x10ccc] LowerTree.leaf) 0x10c8d [0x10ccd] (LowerTree.node LowerTree.leaf 0x10c8e [0x10cce]
    LowerTree.leaf))))) 0x10c8f [0x10ccf] (LowerTree.node (LowerTree.node (LowerTree.node
    (LowerTree.node (LowerTree.node (LowerTree.node LowerTree.leaf 0x10c90 [0x10cd0]
    LowerTree.leaf) 0x10c91 [0x10cd1] LowerTree.leaf) 0x10c92 [0x10cd2] (LowerTree.node
    (LowerTree.node LowerTree.leaf 0x10c93 [0x10cd3] LowerTree.leaf) 0x10c94 [0x10cd4]
    LowerTree.leaf)) 0x10c95 [0x10cd5] (LowerTree.node (LowerTree.node (LowerTree.node
    LowerTree.leaf 0x10c96 [0x10cd6] LowerTree.leaf) 0x10c97 [0x10cd7] LowerTree.leaf) 0x10c98
    [0x10cd8] (LowerTree.node (LowerTree.node LowerTree.leaf 0x10c99 [0x10cd9] LowerTree.leaf)
    0x10c9a [0x10cda] LowerTree.leaf))) 0x10c9b [0x10cdb] (LowerTree.node (LowerTree.node
    (LowerTree.node (LowerTree.node LowerTree.leaf 0x10c9c [0x10cdc] LowerTree.leaf) 0x10c9d
    [0x10cdd] LowerTree.leaf) 0x10c9e [0x10cde] (LowerTree.node (LowerTree.node LowerTree.leaf
    0x10c9f [0x10cdf] LowerTree.leaf) 0x10ca0 [0x10ce0] LowerTree.leaf)) 0x10ca1 [0x10ce1]
    (LowerTree.node (LowerTree.node (LowerTree.node LowerTree.leaf 0x10ca2 [0x10ce2]
    LowerTree.leaf) 0x10ca3 [0x10ce3] LowerTree.leaf) 0x10ca4 [0x10ce4] (LowerTree.node
    LowerTree.leaf 0x10ca5 [0x10ce5] LowerTree.leaf)))) 0x10ca6 [0x10ce6] (LowerTree.node
    (LowerTree.node (LowerTree.node (LowerTree.node (LowerTree.node LowerTree.leaf 0x10ca7
    [0x10ce7] LowerTree.leaf) 0x10ca8 [0x10ce8] LowerTree.leaf) 0x10ca9 [0x10ce9] (LowerTree.node
    (LowerTree.node LowerTree.leaf 0x10caa [0x10cea] LowerTree.leaf) 0x10cab [0x10ceb]
    LowerTree.leaf)) 0x10cac [0x10cec] (LowerTree.node (LowerTree.node (LowerTree.node
    LowerTree.leaf 0x10cad [0x10ced] LowerTree.leaf) 0x10cae [0x10cee] LowerTree.leaf) 0x10caf
    [0x10cef] (LowerTree.node LowerTree.leaf 0x10cb0 [0x10cf0] LowerTree.leaf))) 0x10cb1 [0x10cf1]
    (LowerTree.node (LowerTree.node (LowerTree.node (LowerTree.node LowerTree.leaf 0x10cb2
    [0x10cf2] LowerTree.leaf) 0x118a0 [0x118c0] LowerTree.leaf) 0x118a1 [0x118c1] (LowerTree.node
    (LowerTree.node LowerTree.leaf 0x118a2 [0x118c2] LowerTree.leaf) 0x118a3 [0x118c3]
    LowerTree.leaf)) 0x118a4 [0x118c4] (LowerTree.node (LowerTree.node (LowerTree.node
    LowerTree.leaf 0x118a5 [0x118c5] LowerTree.leaf) 0x118a6 [0x118c6] LowerTree.leaf) 0x118a7
    [0x118c7] (LowerTree.node LowerTree.leaf 0x118a8 [0x118c8] LowerTree.leaf))))))

/-- Subtree 15 of the lowercase-mapping search tree. -/
def lowerTreeSub15 : LowerTree :=
  (LowerTree.node (LowerTree.node (LowerTree.node (LowerTree.node (LowerTree.node (LowerTree.node
    (LowerTree.node LowerTree.leaf 0x118aa [0x118ca] LowerTree.leaf) 0x118ab [0x118cb]
    LowerTree.leaf) 0x118ac [0x118cc] (LowerTree.node (LowerTree.node LowerTree.leaf 0x118ad
    [0x118cd] LowerTree.leaf) 0x118ae [0x118ce] LowerTree.leaf)) 0x118af [0x118cf] (LowerTree.node
    (LowerTree.node (LowerTree.node LowerTree.leaf 0x118b0 [0x118d0] LowerTree.leaf) 0x118b1
    [0x118d1] LowerTree.leaf) 0x118b2 [0x118d2] (LowerTree.node (LowerTree.node LowerTree.leaf
    0x118b3 [0x118d3] LowerTree.leaf) 0x118b4 [0x118d4] LowerTree.leaf))) 0x118b5 [0x118d5]
    (LowerTree.node (LowerTree.node (LowerTree.node (LowerTree.node LowerTree.leaf 0x118b6
    [0x118d6] LowerTree.leaf) 0x118b7 [0x118d7] LowerTree.leaf) 0x118b8 [0x118d8] (LowerTree.node
    (LowerTree.node LowerTree.leaf 0x118b9 [0x118d9] LowerTree.leaf) 0x118ba [0x118da]
    LowerTree.leaf)) 0x118bb [0x118db] (LowerTree.node (LowerTree.node (LowerTree.node
    LowerTree.leaf 0x118bc [0x118dc] LowerTree.leaf) 0x118bd [0x118dd] LowerTree.leaf) 0x118be
    [0x118de] (LowerTree.node LowerTree.leaf 0x118bf [0x118df] LowerTree.leaf)))) 0x16e40
    [0x16e60] (LowerTree.node (LowerTree.node (LowerTree.node (LowerTree.node (LowerTree.node
    LowerTree.leaf 0x16e41 [0x16e61] LowerTree.leaf) 0x16e42 [0x16e62] LowerTree.leaf) 0x16e43
    [0x16e63] (LowerTree.node (LowerTree.node LowerTree.leaf 0x16e44 [0x16e64] LowerTree.leaf)
    0x16e45 [0x16e65] LowerTree.leaf)) 0x16e46 [0x16e66] (LowerTree.node (LowerTree.node
    (LowerTree.node LowerTree.leaf 0x16e47 [0x16e67] LowerTree.leaf) 0x16e48 [0x16e68]
    LowerTree.leaf) 0x16e49 [0x16e69] (LowerTree.node LowerTree.leaf 0x16e4a [0x16e6a]
    LowerTree.leaf))) 0x16e4b [0x16e6b] (LowerTree.node (LowerTree.node (LowerTree.node
    (LowerTree.node LowerTree.leaf 0x16e4c [0x16e6c] LowerTree.leaf) 0x16e4d [0x16e6d]
    LowerTree.leaf) 0x16e4e [0x16e6e] (LowerTree.node (LowerTree.node LowerTree.leaf 0x16e4f
    [0x16e6f] LowerTree.leaf) 0x16e50 [0x16e70] LowerTree.leaf)) 0x16e51 [0x16e71] (LowerTree.node
    (LowerTree.node (LowerTree.node LowerTree.leaf 0x16e52 [0x16e72] LowerTree.leaf) 0x16e53
    [0x16e73] LowerTree.leaf) 0x16e54 [0x16e74] (LowerTree.node LowerTree.leaf 0x16e55 [0x16e75]
    LowerTree.leaf))))) 0x16e56 [0x16e76] (LowerTree.node (LowerTree.node (LowerTree.node
    (LowerTree.node (LowerTree.node (LowerTree.node LowerTree.leaf 0x16e57 [0x16e77]
    LowerTree.leaf) 0x16e58 [0x16e78] LowerTree.leaf) 0x16e59 [0x16e79] (LowerTree.node
    (LowerTree.node LowerTree.leaf 0x16e5a [0x16e7a] LowerTree.leaf) 0x16e5b [0x16e7b]
    LowerTree.leaf)) 0x16e5c [0x16e7c] (LowerTree.node (LowerTree.node (LowerTree.node
    LowerTree.leaf 0x16e5d [0x16e7d] LowerTree.leaf) 0x16e5e [0x16e7e] LowerTree.leaf) 0x16e5f
    [0x16e7f] (LowerTree.node LowerTree.leaf 0x1e900 [0x1e922] LowerTree.leaf))) 0x1e901 [0x1e923]
    (LowerTree.node (LowerTree.node (LowerTree.node (LowerTree.node LowerTree.leaf 0x1e902
    [0x1e924] LowerTree.leaf) 0x1e903 [0x1e925] LowerTree.leaf) 0x1e904 [0x1e926] (LowerTree.node
    (LowerTree.node LowerTree.leaf 0x1e905 [0x1e927] LowerTree.leaf) 0x1e906 [0x1e928]
    LowerTree.leaf)) 0x1e907 [0x1e929] (LowerTree.node (LowerTree.node (LowerTree.node
    LowerTree.leaf 0x1e908 [0x1e92a] LowerTree.leaf) 0x1e909 [0x1e92b] LowerTree.leaf) 0x1e90a
    [0x1e92c] (LowerTree.node LowerTree.leaf 0x1e90b [0x1e92d] LowerTree.leaf)))) 0x1e90c
    [0x1e92e] (LowerTree.node (LowerTree.node (LowerTree.node (LowerTree.node (LowerTree.node
    LowerTree.leaf 0x1e90d [0x1e92f] LowerTree.leaf) 0x1e90e [0x1e930] LowerTree.leaf) 0x1e90f
    [0x1e931] (LowerTree.node (LowerTree.node LowerTree.leaf 0x1e910 [0x1e932] LowerTree.leaf)
    0x1e911 [0x1e933] LowerTree.leaf)) 0x1e912 [0x1e934] (LowerTree.node (LowerTree.node
    (LowerTree.node LowerTree.leaf 0x1e913 [0x1e935] LowerTree.leaf) 0x1e914 [0x1e936]
    LowerTree.leaf) 0x1e915 [0x1e937] (LowerTree.node LowerTree.leaf 0x1e916 [0x1e938]
    LowerTree.leaf))) 0x1e917 [0x1e939] (LowerTree.node (LowerTree.node (LowerTree.node
    (LowerTree.node LowerTree.leaf 0x1e918 [0x1e93a] LowerTree.leaf) 0x1e919 [0x1e93b]
    LowerTree.leaf) 0x1e91a [0x1e93c] (LowerTree.node (LowerTree.node LowerTree.leaf 0x1e91b
    [0x1e93d] LowerTree.leaf) 0x1e91c [0x1e93e] LowerTree.leaf)) 0x1e91d [0x1e93f] (LowerTree.node
    (LowerTree.node (LowerTree.node LowerTree.leaf 0x1e91e [0x1e940] LowerTree.leaf) 0x1e91f
    [0x1e941] LowerTree.leaf) 0x1e920 [0x1e942] (LowerTree.node LowerTree.leaf 0x1e921 [0x1e943]
    LowerTree.leaf))))))

/-- Balanced binary search tree holding exactly the entries of `lowerTable`
(checked by `lowerTree_toList`), used so that a single lookup evaluates in
logarithmically many comparisons. -/
def lowerTree : LowerTree :=
  (LowerTree.node (LowerTree.node (LowerTree.node (LowerTree.node lowerTreeSub0 0x143 [0x144]
    lowerTreeSub1) 0x1f2 [0x1f3] (LowerTree.node lowerTreeSub2 0x3e2 [0x3e3] lowerTreeSub3)) 0x49e
    [0x49f] (LowerTree.node (LowerTree.node lowerTreeSub4 0x542 [0x572] lowerTreeSub5) 0x13bc
    [0xab8c] (LowerTree.node lowerTreeSub6 0x1cb0 [0x10f0] lowerTreeSub7))) 0x1e9e [0xdf]
    (LowerTree.node (LowerTree.node (LowerTree.node lowerTreeSub8 0x1f69 [0x1f61] lowerTreeSub9)
    0x24c4 [0x24de] (LowerTree.node lowerTreeSub10 0x2c9e [0x2c9f] lowerTreeSub11)) 0xa740
    [0xa741] (LowerTree.node (LowerTree.node lowerTreeSub12 0xff33 [0xff53] lowerTreeSub13)
    0x10575 [0x1059c] (LowerTree.node lowerTreeSub14 0x118a9 [0x118c9] lowerTreeSub15))))

/-- Lookup of a code point's lowercase mapping: `some codes` when the Unicode
default case conversion lowers the character (to those code points), `none`
when lowercasing leaves it unchanged. -/
def lookupLower (n : Nat) : Option (List Nat) := treeFind n lowerTree

/-- JavaScript `String.prototype.toLowerCase`, applied characterwise: each
character is replaced by its full Unicode default lowercase mapping (one or —
for U+0130 — two characters), or kept when it has none.  The source calls
`.toLowerCase()` on the whole string; the only behaviour this characterwise
embedding does not distinguish is the context-dependent final-sigma variant
(U+03A3 at word end lowering to U+03C2 rather than U+03C3): Σ is always
mapped, to the non-final σ.  Both variants are ordinary lowercase letters, so
no proof obligation depends on the choice. -/
def toLowerChar (c : Char) : List Char :=
  match lookupLower c.toNat with
  | some vs => vs.map Char.ofNat
  | none => [c]

/-- Tail-recursive equality test on code-point lists (used so the closed
table checks evaluate without deep recursion). -/
def eqNatList : List Nat → List Nat → Bool
  | [], [] => true
  | a :: as, b :: bs => a == b && eqNatList as bs
  | _, _ => false

/-- Tail-recursive equality test on mapping-entry lists. -/
def eqPairList : List (Nat × List Nat) → List (Nat × List Nat) → Bool
  | [], [] => true
  | (k1, v1) :: t1, (k2, v2) :: t2 => k1 == k2 && eqNatList v1 v2 && eqPairList t1 t2
  | _, _ => false

/-- Stage (a) of `sanitizeForFilename`: `.replace(/[\/\\?%*:|"<>]/g, '')`,
deleting every occurrence of the illegal characters. -/
def removeIllegal (l : List Char) : List Char := l.filter (fun c => !isIllegal c)

/-- Stage (b) of `sanitizeForFilename`: `.trim()`, removing leading and
trailing JavaScript whitespace. -/
def trimList (l : List Char) : List Char :=
  ((l.dropWhile isJsWs).reverse.dropWhile isJsWs).reverse

/-- Stage (c) of `sanitizeForFilename`: `.replace(/\s+/g, '-')`, collapsing
each maximal run of whitespace into a single dash.  The boolean argument
records whether the scanner is currently inside a whitespace run (whose dash
has already been emitted). -/
def collapseWsAux : Bool → List Char → List Char
  | _, [] => []
  | inRun, c :: rest =>
    if isJsWs c then
      (if inRun then [] else ['-']) ++ collapseWsAux true rest
    else
      c :: collapseWsAux false rest

/-- Stage (d) of `sanitizeForFilename`: `.toLowerCase()`, characterwise full
Unicode lowercase mapping. -/
def lowerList (l : List Char) : List Char := (l.map toLowerChar).flatten

/-- The source's `sanitizeForFilename` (src/createExtension.ts lines 31-37):
remove the illegal characters, trim, collapse whitespace runs to `-`,
lowercase — in that order. -/
def sanitizeForFilename (s : String) : String :=
  ⟨lowerList (collapseWsAux false (trimList (removeIllegal s.toList)))⟩

/-- The observable part of a parsed URL (`new URL(...)`) that the program
reads: the `hostname` component and the decoded `searchParams` key/value
pairs, in order. -/
structure URLRecord where
  hostname : String
  searchParams : List (String × String)
deriving DecidableEq, Repr

/-- JavaScript `URLSearchParams.prototype.get`: the value of the first
parameter with the given name, or `none` when absent. -/
def searchParamsGet (ps : List (String × String)) (k : String) : Option String :=
  (ps.find? (fun p => p.1 = k)).map (fun p => p.2)

/-- JavaScript `URLSearchParams.prototype.has`: whether a parameter with the
given name is present. -/
def searchParamsHas (ps : List (String × String)) (k : String) : Bool :=
  (searchParamsGet ps k).isSome

/-- Result of `fetchPageData`: the resolved hostname and the page title
(always equal to the hostname in this program). -/
structure PageData where
  hostname : String
  pageTitle : String
deriving DecidableEq, Repr

/-- The source's `fetchPageData` (src/createExtension.ts lines 44-75), with
the platform made explicit: `parseUrl` is the platform URL parser (`new URL`,
returning `none` where the constructor throws) and `fetchResult` is the
outcome of `await fetch(url)` (`some finalUrl` = the final response URL after
redirects; `none` = the fetch threw).  The function returns `none` exactly
when an exception would escape, i.e. when the catch-block fallback
`new URL(url)` itself throws. -/
def fetchPageData (parseUrl : String → Option URLRecord)
    (fetchResult : Option String) (url : String) : Option PageData :=
  let fallback : Option PageData :=
    match parseUrl url with
    | some fallbackParsed => some ⟨fallbackParsed.hostname, fallbackParsed.hostname⟩
    | none => none
  match fetchResult with
  | none => fallback
  | some resolvedUrl =>
    match parseUrl resolvedUrl with
    | none => fallback
    | some resolvedParsed =>
      let hostname := resolvedParsed.hostname
      let pageTitle := hostname
      if hostname = "accounts.google.com" &&
          searchParamsHas resolvedParsed.searchParams "continue" then
        match searchParamsGet resolvedParsed.searchParams "continue" with
        | some continueParam =>
          if continueParam ≠ "" then
            match parseUrl continueParam with
            | some continueUrl => some ⟨continueUrl.hostname, continueUrl.hostname⟩
            | none => some ⟨hostname, pageTitle⟩
          else some ⟨hostname, pageTitle⟩
        | none => some ⟨hostname, pageTitle⟩
      else some ⟨hostname, pageTitle⟩

/-- Spec-side formulation of the identity-provider special case, following the
specification's words: the case applies exactly when the final URL's hostname
is the single-sign-on host and it carries a `continue` query parameter whose
value parses as a URL; it then yields that URL's host.  `none` means the
special case does not apply (hostname kept). -/
def specialCaseHost (parseUrl : String → Option URLRecord) (r : URLRecord) :
    Option String :=
  if r.hostname = "accounts.google.com" then
    match searchParamsGet r.searchParams "continue" with
    | some v =>
      match parseUrl v with
      | some continueUrl => some continueUrl.hostname
      | none => none
    | none => none
  else none

/-- Whether `pat` is an initial segment of `l`. -/
def leadsWith : List Char → List Char → Bool
  | [], _ => true
  | _ :: _, [] => false
  | a :: as, b :: bs => a = b && leadsWith as bs

/-- Splits `subject` around the first occurrence of `pat`: returns
`some (pre, post)` with `subject = pre ++ pat ++ post` and `pat` not occurring
earlier, or `none` when `pat` does not occur. -/
def splitOnFirst (pat : List Char) : List Char → Option (List Char × List Char)
  | [] => if pat.isEmpty then some ([], []) else none
  | c :: rest =>
    if leadsWith pat (c :: rest) then some ([], (c :: rest).drop pat.length)
    else
      match splitOnFirst pat rest with
      | some (pre, post) => some (c :: pre, post)
      | none => none

/-- Concrete stand-in for the platform WHATWG URL parser (`new URL`), used to
instantiate witnesses.  Modelled from the spec: the platform parser is an
external interface (src ships no URL parser); this simplified version accepts
`scheme://host[/path][?query][#fragment]` with a nonempty ASCII-letter scheme
and a nonempty host, and splits the query on `&` and first `=` without
percent-decoding.  The empty string does not parse, as with `new URL` of an
empty string. -/
def parseUrlSimple (s : String) : Option URLRecord :=
  match splitOnFirst "://".toList s.toList with
  | none => none
  | some (scheme, rest) =>
    if scheme ≠ [] && scheme.all (fun c =>
        (65 ≤ c.toNat && c.toNat ≤ 90) || (97 ≤ c.toNat && c.toNat ≤ 122)) then
      let hostPart := rest.takeWhile (fun c => !(c = '/' || c = '?' || c = '#'))
      if hostPart = [] then none
      else
        let afterHost := rest.drop hostPart.length
        let beforeFrag := afterHost.takeWhile (fun c => c ≠ '#')
        let query : List Char :=
          match splitOnFirst ['?'] beforeFrag with
          | some (_, q) => q
          | none => []
        let params := (query.splitOn '&').filterMap (fun piece =>
          if piece.isEmpty then none
          else
            match splitOnFirst ['='] piece with
            | some (k, v) => some ((⟨k⟩ : String), (⟨v⟩ : String))
            | none => some ((⟨piece⟩ : String), ""))
        some ⟨⟨hostPart⟩, params⟩
    else none

/-- The replacement-text scanner of JavaScript `String.prototype.replace`
(ECMA-262 GetSubstitution) for a string search pattern (no capture groups):
`$$` inserts a dollar sign, `$&` the matched substring, a dollar followed by a
backquote the text before the match, a dollar followed by an apostrophe the
text after the match; any other dollar is literal. -/
def substAux (matched pre post : List Char) : List Char → List Char
  | [] => []
  | c :: rest =>
    if c = '$' then
      match rest with
      | [] => ['$']
      | d :: rest2 =>
        if d = '$' then '$' :: substAux matched pre post rest2
        else if d = '&' then matched ++ substAux matched pre post rest2
        else if d = Char.ofNat 96 then pre ++ substAux matched pre post rest2
        else if d = Char.ofNat 39 then post ++ substAux matched pre post rest2
        else '$' :: substAux matched pre post (d :: rest2)
    else c :: substAux matched pre post rest

/-- JavaScript `subject.replace(search, repl)` with string arguments: replaces
the first occurrence of `search` (if any) by `repl` processed through
GetSubstitution. -/
def jsReplaceFirst (subject search repl : String) : String :=
  match splitOnFirst search.toList subject.toList with
  | none => subject
  | some (pre, post) =>
    ⟨pre ++ substAux search.toList pre post repl.toList ++ post⟩

/-- Whether the string (as a character list) contains an active GetSubstitution
dollar pattern (`$$`, `$&`, dollar-backquote or dollar-apostrophe), scanning
exactly as `substAux` does. -/
def hasDollarPat : List Char → Bool
  | [] => false
  | c :: rest =>
    if c = '$' then
      match rest with
      | [] => false
      | d :: rest2 =>
        if d = '$' || d = '&' || d = Char.ofNat 96 || d = Char.ofNat 39 then true
        else hasDollarPat (d :: rest2)
    else hasDollarPat rest

/-- Exact content of the click-handler template
`src/extensionTemplates/background.js`. -/
def backgroundTemplate : String :=
  "const DEFAULT_URL = \x27__DEFAULT_URL__\x27;\n" ++
  "\n" ++
  "chrome.browserAction.onClicked.addListener(() => \x7b\n" ++
  "  chrome.storage.sync.get(\x27targetUrl\x27, (data) => \x7b\n" ++
  "    const url = data.targetUrl || DEFAULT_URL;\n" ++
  "    chrome.tabs.create(\x7b url \x7d);\n" ++
  "  \x7d);\n" ++
  "\x7d);\n" ++
  "\n" ++
  "chrome.browserAction.onClicked.addListener(() => \x7b\n" ++
  "  chrome.tabs.query(\x7b active: true, currentWindow: true \x7d, (tabs) => \x7b\n" ++
  "    const currentTab = tabs[0];\n" ++
  "    // Define common new tab URLs for Chromium-based browsers.\n" ++
  "    const newTabUrls = [\x27chrome://newtab/\x27, \x27chrome://newtab\x27, \x27about:newtab\x27, \x27about:newtab/\x27];\n" ++
  "\n" ++
  "    if (currentTab && newTabUrls.includes(currentTab.url)) \x7b\n" ++
  "      // If current tab is a new tab, update it with the target URL.\n" ++
  "      chrome.tabs.update(currentTab.id, \x7b url: DEFAULT_URL \x7d);\n" ++
  "    \x7d else \x7b\n" ++
  "      // Otherwise, open the target URL in a new tab.\n" ++
  "      chrome.tabs.create(\x7b url: DEFAULT_URL \x7d);\n" ++
  "    \x7d\n" ++
  "  \x7d);\n" ++
  "\x7d);\n" ++
  "\n"

/-- Text of the template strictly before its single `__DEFAULT_URL__`
placeholder. -/
def bgPre : String := "const DEFAULT_URL = \x27"

/-- Text of the template strictly after its single `__DEFAULT_URL__`
placeholder. -/
def bgPost : String :=
  "\x27;\n" ++
  "\n" ++
  "chrome.browserAction.onClicked.addListener(() => \x7b\n" ++
  "  chrome.storage.sync.get(\x27targetUrl\x27, (data) => \x7b\n" ++
  "    const url = data.targetUrl || DEFAULT_URL;\n" ++
  "    chrome.tabs.create(\x7b url \x7d);\n" ++
  "  \x7d);\n" ++
  "\x7d);\n" ++
  "\n" ++
  "chrome.browserAction.onClicked.addListener(() => \x7b\n" ++
  "  chrome.tabs.query(\x7b active: true, currentWindow: true \x7d, (tabs) => \x7b\n" ++
  "    const currentTab = tabs[0];\n" ++
  "    // Define common new tab URLs for Chromium-based browsers.\n" ++
  "    const newTabUrls = [\x27chrome://newtab/\x27, \x27chrome://newtab\x27, \x27about:newtab\x27, \x27about:newtab/\x27];\n" ++
  "\n" ++
  "    if (currentTab && newTabUrls.includes(currentTab.url)) \x7b\n" ++
  "      // If current tab is a new tab, update it with the target URL.\n" ++
  "      chrome.tabs.update(currentTab.id, \x7b url: DEFAULT_URL \x7d);\n" ++
  "    \x7d else \x7b\n" ++
  "      // Otherwise, open the target URL in a new tab.\n" ++
  "      chrome.tabs.create(\x7b url: DEFAULT_URL \x7d);\n" ++
  "    \x7d\n" ++
  "  \x7d);\n" ++
  "\x7d);\n" ++
  "\n"

/-- Rendering of the click-handler script body (src/createExtension.ts lines
134-135): `backgroundScript.replace` of the placeholder by the default URL. -/
def renderBackground (tmpl url : String) : String :=
  jsReplaceFirst tmpl "__DEFAULT_URL__" url

/-- Lowercase hexadecimal digit, as emitted by `JSON.stringify` escapes. -/
def hexDigit (n : Nat) : Char :=
  if n < 10 then Char.ofNat (48 + n) else Char.ofNat (87 + n)

/-- Escaping of one character inside a JSON string literal, as performed by
`JSON.stringify`. -/
def jsonEscapeChar (c : Char) : List Char :=
  if c = '"' then ['\\', '"']
  else if c = '\\' then ['\\', '\\']
  else if c.toNat = 8 then ['\\', 'b']
  else if c.toNat = 9 then ['\\', 't']
  else if c.toNat = 10 then ['\\', 'n']
  else if c.toNat = 12 then ['\\', 'f']
  else if c.toNat = 13 then ['\\', 'r']
  else if c.toNat < 32 then
    ['\\', 'u', '0', '0', hexDigit (c.toNat / 16), hexDigit (c.toNat % 16)]
  else [c]

/-- JSON string-literal escaping (`JSON.stringify` on a string, without the
surrounding quotes). -/
def jsonEscape (s : String) : String := ⟨(s.toList.map jsonEscapeChar).flatten⟩

/-- The exact text of `JSON.stringify(manifest, null, 2)` for the manifest
object literal of src/createExtension.ts lines 113-128, as a function of the
two interpolated values `pageTitle` and `defaultTarget`. -/
def manifestJson (pageTitle defaultTarget : String) : String :=
  "\x7b\n" ++
  "  \"manifest_version\": 2,\n" ++
  "  \"name\": \"QuickLaunch: " ++ jsonEscape pageTitle ++ "\",\n" ++
  "  \"version\": \"1.0\",\n" ++
  "  \"description\": \"Opens a configurable URL when clicked. Default: " ++
    jsonEscape defaultTarget ++ "\",\n" ++
  "  \"browser_action\": \x7b\n" ++
  "    \"default_title\": \"Go to " ++ jsonEscape pageTitle ++ "\",\n" ++
  "    \"default_icon\": \"icon.png\"\n" ++
  "  \x7d,\n" ++
  "  \"background\": \x7b\n" ++
  "    \"scripts\": [\n" ++
  "      \"background.js\"\n" ++
  "    ],\n" ++
  "    \"persistent\": false\n" ++
  "  \x7d,\n" ++
  "  \"options_page\": \"options.html\",\n" ++
  "  \"permissions\": [\n" ++
  "    \"tabs\",\n" ++
  "    \"storage\"\n" ++
  "  ]\n" ++
  "\x7d"

/-- One observable side effect of `main`.  The vocabulary includes
`removePath` (file/directory deletion) although `main` never performs it, so
that the absence of rollback is expressible rather than built in. -/
inductive Effect where
  | mkdir (path : String)
  | writeFile (path : String) (content : String)
  | writeBinary (path : String) (bytes : List Nat)
  | fetchPage (url : String)
  | fetchIcon (url : String)
  | removePath (path : String)
  | logError (msg : String)
  | logInfo (msg : String)
deriving DecidableEq, Repr

/-- Outcome of the favicon fetch: a success response with payload bytes, a
response with `response.ok` false carrying its status, or a thrown transport
error carrying its message. -/
inductive IconFetchResult where
  | ok (bytes : List Nat)
  | httpError (status : Nat)
  | netError (msg : String)
deriving DecidableEq, Repr

/-- Result of one run of `main`: the ordered trace of side effects, the
process exit status, and whether an uncaught exception escaped. -/
structure MainResult where
  trace : List Effect
  exitCode : Nat
  crashed : Bool
deriving DecidableEq, Repr

/-- The usage message printed when no URL argument is provided. -/
def usageMsg : String :=
  "Error: No URL provided.\nUsage: bun run createExtension.ts <DEFAULT_URL>"

/-- Path concatenation (the used fragment of Node's `path.join`). -/
def joinPath (a b : String) : String := a ++ "/" ++ b

/-- The computed output directory name (src/createExtension.ts lines
104-105): `quick-launch-` followed by the sanitized page title.  No suffix
argument exists in the source; the name depends on the title alone. -/
def extensionDirName (pageTitle : String) : String :=
  "quick-launch-" ++ sanitizeForFilename pageTitle

/-- The favicon service request URL for a hostname (src/createExtension.ts
line 101). -/
def faviconUrlFor (hostname : String) : String :=
  "https://t0.gstatic.com/faviconV2?client=SOCIAL&type=FAVICON&fallback_opts=TYPE,SIZE,URL&url=https://" ++
    hostname ++ "&size=64"

/-- First success-confirmation line. -/
def successMsg1 (dir : String) : String :=
  "Chrome extension created successfully in folder \"" ++ dir ++ "\"."

/-- Second success-confirmation line. -/
def successMsg2 : String :=
  "Load it in Chrome via chrome://extensions (with Developer Mode enabled) using \"Load unpacked\"."

/-- Third success-confirmation line. -/
def successMsg3 : String := "Use the Options page to change the target URL."

/-- The warning printed by `fetchPageData`'s catch block before it falls back
to parsing the original URL. -/
def fallbackWarning : String :=
  "Warning: Could not fetch or parse page data. Using fallback values."

/-- Whether `fetchPageData` takes its catch-block fallback path: the fetch
threw, or the final response URL did not parse. -/
def usedFallback (parseUrl : String → Option URLRecord)
    (fetchResult : Option String) : Bool :=
  match fetchResult with
  | none => true
  | some resolvedUrl => (parseUrl resolvedUrl).isNone

/-- The source's `main` (src/createExtension.ts lines 77-168) as a function of
all its external inputs: the platform URL parser, the full `process.argv`
list, the working directory, whether the output directory already exists, the
three template files read from disk, the page-fetch outcome and the
favicon-fetch outcome.  It returns the ordered effect trace, the exit status,
and a crash flag (an uncaught exception; never set on inputs whose URL
argument parses). -/
def mainRun (parseUrl : String → Option URLRecord) (argv : List String)
    (cwd : String) (dirExists : Bool) (bgTemplate optionsHtml optionsJs : String)
    (pageFetch : Option String) (iconFetch : IconFetchResult) : MainResult :=
  match argv.get? 2 with
  | none => ⟨[.logError usageMsg], 1, false⟩
  | some inputUrl =>
    if inputUrl = "" then ⟨[.logError usageMsg], 1, false⟩
    else
      match parseUrl inputUrl with
      | none => ⟨[.logError "Error: Invalid URL provided."], 1, false⟩
      | some _ =>
        let defaultTarget := inputUrl
        match fetchPageData parseUrl pageFetch inputUrl with
        | none => ⟨[.fetchPage inputUrl, .logError fallbackWarning], 1, true⟩
        | some pd =>
          let faviconUrl := faviconUrlFor pd.hostname
          let extensionDir := joinPath cwd (extensionDirName pd.pageTitle)
          let preEffects : List Effect :=
            [.fetchPage inputUrl] ++
            (if usedFallback parseUrl pageFetch then [.logError fallbackWarning] else []) ++
            (if dirExists then [] else [.mkdir extensionDir]) ++
            [.writeFile (joinPath extensionDir "manifest.json")
                (manifestJson pd.pageTitle defaultTarget),
             .writeFile (joinPath extensionDir "background.js")
                (renderBackground bgTemplate defaultTarget),
             .writeFile (joinPath extensionDir "options.html") optionsHtml,
             .writeFile (joinPath extensionDir "options.js") optionsJs,
             .fetchIcon faviconUrl]
          match iconFetch with
          | .ok bytes =>
            ⟨preEffects ++
              [.writeBinary (joinPath extensionDir "icon.png") bytes,
               .logInfo (successMsg1 extensionDir),
               .logInfo successMsg2,
               .logInfo successMsg3], 0, false⟩
          | .httpError status =>
            ⟨preEffects ++
              [.logError ("Error downloading favicon: " ++
                 "Failed to fetch favicon. Status: " ++ toString status)], 1, false⟩
          | .netError msg =>
            ⟨preEffects ++
              [.logError ("Error downloading favicon: " ++ msg)], 1, false⟩

/-- The maximal whitespace-free nonempty runs of a character list, in order.
Used by the spec-side formulation of the sanitizer: after trimming, collapsing
each whitespace run to a dash is the same as joining these runs with dashes. -/
def words (l : List Char) : List (List Char) :=
  match l with
  | [] => []
  | c :: cs =>
    if isJsWs c then words cs
    else
      (c :: cs.takeWhile (fun d => !isJsWs d)) ::
        words (cs.dropWhile (fun d => !isJsWs d))
termination_by l.length
decreasing_by
  all_goals simp only [List.length_cons]
  · omega
  · exact Nat.lt_succ_of_le ((List.dropWhile_sublist _).length_le)

/-- Joins character runs with a single dash between consecutive runs. -/
def joinDash : List (List Char) → List Char
  | [] => []
  | [w] => w
  | w :: rest => w ++ '-' :: joinDash rest

/-- Spec-side formulation of the sanitizer, following the specification's
words: delete the illegal characters, split what remains into maximal
whitespace-separated runs (which performs the trim and the collapse in one
step), join the runs with single dashes, and lowercase. -/
def sanitizeSpec (s : String) : String :=
  ⟨lowerList (joinDash (words (removeIllegal s.toList)))⟩

/-! ### Character-level lemmas about the sanitizer's alphabet -/

theorem eqNatList_eq : ∀ {as bs : List Nat}, eqNatList as bs = true → as = bs := by
  intro as
  induction as with
  | nil =>
    intro bs h
    cases bs with
    | nil => rfl
    | cons b bs => simp [eqNatList] at h
  | cons a as ih =>
    intro bs h
    cases bs with
    | nil => simp [eqNatList] at h
    | cons b bs =>
      simp only [eqNatList, Bool.and_eq_true, beq_iff_eq] at h
      rw [h.1, ih h.2]

theorem eqPairList_eq :
    ∀ {as bs : List (Nat × List Nat)}, eqPairList as bs = true → as = bs := by
  intro as
  induction as with
  | nil =>
    intro bs h
    cases bs with
    | nil => rfl
    | cons b bs => simp [eqPairList] at h
  | cons a as ih =>
    intro bs h
    cases bs with
    | nil =>
      obtain ⟨k1, v1⟩ := a
      simp [eqPairList] at h
    | cons b bs =>
      obtain ⟨k1, v1⟩ := a
      obtain ⟨k2, v2⟩ := b
      simp only [eqPairList, Bool.and_eq_true, beq_iff_eq] at h
      rw [h.1.1, eqNatList_eq h.1.2, ih h.2]

/-- The search tree holds exactly the entries of the flat mapping table. -/
theorem lowerTree_toList : treeToList lowerTree = lowerTable :=
  eqPairList_eq (by decide)

/-- No code point with a lowercase mapping is whitespace or in the removed
character class. -/
theorem lowerTable_keys_ok : lowerTable.all (fun p =>
    !(decide (p.1 ∈ jsWhitespaceCodes)) && !(decide (p.1 ∈ illegalCodes))) = true := by
  decide

/-- Every code point produced by the lowercase mapping is not whitespace, not
in the removed class, not an ASCII uppercase letter, a valid scalar value, and
itself has no lowercase mapping. -/
theorem lowerTable_vals_ok : lowerTable.all (fun p => p.2.all (fun v =>
    !(decide (v ∈ jsWhitespaceCodes)) && !(decide (v ∈ illegalCodes)) &&
    !(decide (65 ≤ v ∧ v ≤ 90)) && (decide v.isValidChar) &&
    (lookupLower v).isNone)) = true := by
  decide

/-- Every ASCII uppercase letter has a lowercase mapping. -/
theorem lowerTable_ascii_upper :
    (List.range 26).all (fun i => (lookupLower (65 + i)).isSome) = true := by
  decide

theorem charOfNat_toNat {n : Nat} (h : n.isValidChar) : (Char.ofNat n).toNat = n := by
  unfold Char.ofNat
  rw [dif_pos h]
  simp [Char.ofNatAux, Char.toNat, UInt32.toNat]

theorem isAsciiUpper_bounds {c : Char} (h : isAsciiUpper c = true) :
    65 ≤ c.toNat ∧ c.toNat ≤ 90 := by
  simpa [isAsciiUpper] using h

theorem treeFind_mem : ∀ (t : LowerTree) (n : Nat) (vs : List Nat),
    treeFind n t = some vs → (n, vs) ∈ treeToList t := by
  intro t
  induction t with
  | leaf => intro n vs h; cases h
  | node l k v r ihl ihr =>
    intro n vs h
    rw [treeFind] at h
    rw [treeToList]
    by_cases h1 : n < k
    · rw [if_pos h1] at h
      exact List.mem_append.mpr (Or.inl (ihl n vs h))
    · rw [if_neg h1] at h
      by_cases h2 : k < n
      · rw [if_pos h2] at h
        exact List.mem_append.mpr (Or.inr (List.mem_cons_of_mem _ (ihr n vs h)))
      · rw [if_neg h2] at h
        have hk : k = n := Nat.le_antisymm (Nat.not_lt.mp h1) (Nat.not_lt.mp h2)
        cases h
        subst hk
        exact List.mem_append.mpr (Or.inr (List.mem_cons_self _ _))

theorem lookupLower_mem {n : Nat} {vs : List Nat} (h : lookupLower n = some vs) :
    (n, vs) ∈ lowerTable :=
  lowerTree_toList ▸ treeFind_mem lowerTree n vs h

theorem lookupLower_key_props {n : Nat} {vs : List Nat} (h : lookupLower n = some vs) :
    n ∉ jsWhitespaceCodes ∧ n ∉ illegalCodes := by
  have h1 := List.all_eq_true.mp lowerTable_keys_ok _ (lookupLower_mem h)
  simpa using h1

theorem lookupLower_val_props {n : Nat} {vs : List Nat} (h : lookupLower n = some vs)
    {v : Nat} (hv : v ∈ vs) :
    v ∉ jsWhitespaceCodes ∧ v ∉ illegalCodes ∧ ¬(65 ≤ v ∧ v ≤ 90) ∧
      v.isValidChar ∧ lookupLower v = none := by
  have h1 := List.all_eq_true.mp lowerTable_vals_ok _ (lookupLower_mem h)
  have h2 := List.all_eq_true.mp h1 v hv
  simp only [Bool.and_eq_true, Bool.not_eq_true', decide_eq_false_iff_not,
    decide_eq_true_eq, Option.isNone_iff_eq_none] at h2
  exact ⟨h2.1.1.1.1, h2.1.1.1.2, h2.1.1.2, h2.1.2, h2.2⟩

theorem lookupLower_isSome_of_upper {n : Nat} (h1 : 65 ≤ n) (h2 : n ≤ 90) :
    (lookupLower n).isSome = true := by
  have hm : n - 65 ∈ List.range 26 := List.mem_range.mpr (by omega)
  have h3 := List.all_eq_true.mp lowerTable_ascii_upper _ hm
  have he : 65 + (n - 65) = n := by omega
  rwa [he] at h3

theorem isJsWs_of_mem_toLowerChar {c d : Char} (hd : d ∈ toLowerChar c) :
    isJsWs d = isJsWs c := by
  unfold toLowerChar at hd
  cases hm : lookupLower c.toNat with
  | none =>
    rw [hm] at hd
    simp at hd
    rw [hd]
  | some vs =>
    rw [hm] at hd
    obtain ⟨v, hv, rfl⟩ := List.mem_map.mp hd
    obtain ⟨_, _, _, hvalid, _⟩ := lookupLower_val_props hm hv
    obtain ⟨hvw, _⟩ := lookupLower_val_props hm hv
    obtain ⟨hkw, _⟩ := lookupLower_key_props hm
    have ht := charOfNat_toNat hvalid
    have e1 : isJsWs (Char.ofNat v) = false := by simp [isJsWs, ht, hvw]
    have e2 : isJsWs c = false := by simp [isJsWs, hkw]
    rw [e1, e2]

theorem isIllegal_of_mem_toLowerChar {c d : Char} (hc : isIllegal c = false)
    (hd : d ∈ toLowerChar c) : isIllegal d = false := by
  unfold toLowerChar at hd
  cases hm : lookupLower c.toNat with
  | none =>
    rw [hm] at hd
    simp at hd
    rw [hd]
    exact hc
  | some vs =>
    rw [hm] at hd
    obtain ⟨v, hv, rfl⟩ := List.mem_map.mp hd
    obtain ⟨_, hvi, _, hvalid, _⟩ := lookupLower_val_props hm hv
    have ht := charOfNat_toNat hvalid
    simp [isIllegal, ht, hvi]

theorem isAsciiUpper_of_mem_toLowerChar {c d : Char} (hd : d ∈ toLowerChar c) :
    isAsciiUpper d = false := by
  unfold toLowerChar at hd
  cases hm : lookupLower c.toNat with
  | none =>
    rw [hm] at hd
    simp at hd
    subst hd
    by_cases hu : isAsciiUpper d = true
    · obtain ⟨h1, h2⟩ := isAsciiUpper_bounds hu
      have := lookupLower_isSome_of_upper h1 h2
      rw [hm] at this
      cases this
    · simpa using hu
  | some vs =>
    rw [hm] at hd
    obtain ⟨v, hv, rfl⟩ := List.mem_map.mp hd
    obtain ⟨_, _, hvu, hvalid, _⟩ := lookupLower_val_props hm hv
    have ht := charOfNat_toNat hvalid
    simp [isAsciiUpper, ht]
    omega

theorem stable_of_mem_toLowerChar {c d : Char} (hd : d ∈ toLowerChar c) :
    toLowerChar d = [d] := by
  unfold toLowerChar at hd
  cases hm : lookupLower c.toNat with
  | none =>
    rw [hm] at hd
    simp at hd
    subst hd
    unfold toLowerChar
    rw [hm]
  | some vs =>
    rw [hm] at hd
    obtain ⟨v, hv, rfl⟩ := List.mem_map.mp hd
    obtain ⟨_, _, _, hvalid, hnone⟩ := lookupLower_val_props hm hv
    have ht := charOfNat_toNat hvalid
    unfold toLowerChar
    rw [ht, hnone]

theorem mem_lowerList {c : Char} {l : List Char} (hc : c ∈ lowerList l) :
    ∃ d ∈ l, c ∈ toLowerChar d := by
  unfold lowerList at hc
  obtain ⟨w, hw, hcw⟩ := List.mem_flatten.mp hc
  obtain ⟨d, hd, rfl⟩ := List.mem_map.mp hw
  exact ⟨d, hd, hcw⟩

theorem lowerList_of_stable {l : List Char} (h : ∀ d ∈ l, toLowerChar d = [d]) :
    lowerList l = l := by
  induction l with
  | nil => rfl
  | cons a t ih =>
    have ha : toLowerChar a = [a] := h a (List.mem_cons_self a t)
    have hstep : lowerList (a :: t) = toLowerChar a ++ lowerList t := by
      simp [lowerList]
    rw [hstep, ha, ih (fun d hd => h d (List.mem_cons_of_mem a hd))]
    rfl

/-! ### Lemmas about the sanitizer pipeline stages -/

theorem mem_collapseWsAux {c : Char} :
    ∀ {b : Bool} {l : List Char}, c ∈ collapseWsAux b l → c = '-' ∨ c ∈ l := by
  intro b l
  induction l generalizing b with
  | nil => simp [collapseWsAux]
  | cons a t ih =>
    intro h
    by_cases ha : isJsWs a = true
    · simp only [collapseWsAux, ha, if_true] at h
      rcases List.mem_append.mp h with h1 | h1
      · cases b with
        | true => simp at h1
        | false =>
          left
          simpa using h1
      · rcases ih h1 with h2 | h2
        · exact Or.inl h2
        · exact Or.inr (List.mem_cons_of_mem a h2)
    · simp only [collapseWsAux, ha, Bool.false_eq_true, if_false] at h
      rcases List.mem_cons.mp h with h1 | h1
      · exact Or.inr (h1 ▸ List.mem_cons_self a t)
      · rcases ih h1 with h2 | h2
        · exact Or.inl h2
        · exact Or.inr (List.mem_cons_of_mem a h2)

theorem noWs_collapseWsAux {c : Char} :
    ∀ {b : Bool} {l : List Char}, c ∈ collapseWsAux b l → isJsWs c = false := by
  intro b l
  induction l generalizing b with
  | nil => simp [collapseWsAux]
  | cons a t ih =>
    intro h
    by_cases ha : isJsWs a = true
    · simp only [collapseWsAux, ha, if_true] at h
      rcases List.mem_append.mp h with h1 | h1
      · cases b with
        | true => simp at h1
        | false =>
          have : c = '-' := by simpa using h1
          subst this; decide
      · exact ih h1
    · simp only [collapseWsAux, ha, Bool.false_eq_true, if_false] at h
      rcases List.mem_cons.mp h with h1 | h1
      · subst h1; simpa using ha
      · exact ih h1

theorem mem_trimList {c : Char} {l : List Char} (h : c ∈ trimList l) : c ∈ l := by
  unfold trimList at h
  have h1 := List.mem_reverse.mp h
  have h2 := List.dropWhile_subset _ h1
  have h3 := List.mem_reverse.mp h2
  exact List.dropWhile_subset _ h3

theorem sanitize_chars (x : String) {c : Char}
    (hc : c ∈ (sanitizeForFilename x).toList) :
    isJsWs c = false ∧ isIllegal c = false ∧ isAsciiUpper c = false ∧
      toLowerChar c = [c] := by
  have hc' : c ∈ lowerList (collapseWsAux false (trimList (removeIllegal x.toList))) := hc
  obtain ⟨d, hd, hcd⟩ := mem_lowerList hc'
  have hdw : isJsWs d = false := noWs_collapseWsAux hd
  have hdi : isIllegal d = false := by
    rcases mem_collapseWsAux hd with h | h
    · subst h; decide
    · have h2 := mem_trimList h
      have h3 := (List.mem_filter.mp h2).2
      simpa using h3
  refine ⟨?_, isIllegal_of_mem_toLowerChar hdi hcd,
    isAsciiUpper_of_mem_toLowerChar hcd, stable_of_mem_toLowerChar hcd⟩
  rw [isJsWs_of_mem_toLowerChar hcd]
  exact hdw

/-- C10: for every input string, the sanitizer's output contains no whitespace
character, no character of the removed class / \ ? % * : | " < >, and no
uppercase letter — no ASCII uppercase letter, and more generally no character
that the Unicode lowercase conversion would change; consequently the computed
output-directory name `quick-launch-` + sanitized title is free of these
characters as well. -/
theorem sanitize_output_charset (x : String) :
    ((sanitizeForFilename x).toList.all
        (fun c => !isJsWs c && !isIllegal c && !isAsciiUpper c &&
          (toLowerChar c == [c]))) = true ∧
    ((extensionDirName x).toList.all
        (fun c => !isJsWs c && !isIllegal c && !isAsciiUpper c &&
          (toLowerChar c == [c]))) = true := by
  have hall : ∀ y : String, ((sanitizeForFilename y).toList.all
      (fun c => !isJsWs c && !isIllegal c && !isAsciiUpper c &&
        (toLowerChar c == [c]))) = true := by
    intro y
    rw [List.all_eq_true]
    intro c hc
    obtain ⟨h1, h2, h3, h4⟩ := sanitize_chars y hc
    simp [h1, h2, h3, h4]
  refine ⟨hall x, ?_⟩
  have hdir : (extensionDirName x).toList =
      "quick-launch-".toList ++ (sanitizeForFilename x).toList := rfl
  rw [List.all_eq_true]
  intro c hc
  rw [hdir] at hc
  rcases List.mem_append.mp hc with h | h
  · fin_cases h <;> decide
  · have := (List.all_eq_true.mp (hall x)) c h
    simpa using this

/-! ### Idempotence of the sanitizer -/

theorem removeIllegal_eq_self {l : List Char} (h : ∀ c ∈ l, isIllegal c = false) :
    removeIllegal l = l :=
  List.filter_eq_self.mpr (fun a ha => by simp [h a ha])

theorem dropWhile_ws_eq_self {l : List Char} (h : ∀ c ∈ l, isJsWs c = false) :
    l.dropWhile isJsWs = l := by
  cases l with
  | nil => rfl
  | cons a t => exact List.dropWhile_cons_of_neg (by simp [h a (List.mem_cons_self a t)])

theorem trimList_eq_self {l : List Char} (h : ∀ c ∈ l, isJsWs c = false) :
    trimList l = l := by
  unfold trimList
  rw [dropWhile_ws_eq_self h,
      dropWhile_ws_eq_self (fun c hc => h c (List.mem_reverse.mp hc)),
      List.reverse_reverse]

theorem collapse_eq_self {l : List Char} (h : ∀ c ∈ l, isJsWs c = false) :
    collapseWsAux false l = l := by
  induction l with
  | nil => rfl
  | cons a t ih =>
    have ha : isJsWs a = false := h a (List.mem_cons_self a t)
    simp only [collapseWsAux, ha, Bool.false_eq_true, if_false, List.cons.injEq, true_and]
    exact ih (fun c hc => h c (List.mem_cons_of_mem a hc))

/-- C7: the sanitizer is idempotent — sanitizing an already-sanitized string
changes nothing. -/
theorem sanitize_idempotent (x : String) :
    sanitizeForFilename (sanitizeForFilename x) = sanitizeForFilename x := by
  have h1 : removeIllegal (sanitizeForFilename x).toList = (sanitizeForFilename x).toList :=
    removeIllegal_eq_self (fun c hc => (sanitize_chars x hc).2.1)
  have h2 : trimList (sanitizeForFilename x).toList = (sanitizeForFilename x).toList :=
    trimList_eq_self (fun c hc => (sanitize_chars x hc).1)
  have h3 : collapseWsAux false (sanitizeForFilename x).toList = (sanitizeForFilename x).toList :=
    collapse_eq_self (fun c hc => (sanitize_chars x hc).1)
  have h4 : lowerList (sanitizeForFilename x).toList = (sanitizeForFilename x).toList :=
    lowerList_of_stable (fun c hc => (sanitize_chars x hc).2.2.2)
  show (⟨lowerList (collapseWsAux false (trimList (removeIllegal
      (sanitizeForFilename x).toList)))⟩ : String) = sanitizeForFilename x
  rw [h1, h2, h3, h4]
  rfl

/-! ### Equivalence of the sanitizer with its spec-side formulation -/

theorem words_nil_of_allWs {l : List Char} (h : ∀ c ∈ l, isJsWs c = true) :
    words l = [] := by
  induction l with
  | nil => simp [words]
  | cons a t ih =>
    have ha : isJsWs a = true := h a (List.mem_cons_self a t)
    rw [words, if_pos ha]
    exact ih (fun c hc => h c (List.mem_cons_of_mem a hc))

theorem words_dropWhile_ws (l : List Char) :
    words (l.dropWhile isJsWs) = words l := by
  induction l with
  | nil => rfl
  | cons a t ih =>
    by_cases ha : isJsWs a = true
    · rw [List.dropWhile_cons_of_pos ha, ih, words, if_pos ha]
    · rw [List.dropWhile_cons_of_neg (by simpa using ha)]

theorem takeWhile_notWs_append {t : List Char} (ht : ∀ c ∈ t, isJsWs c = true) :
    ∀ u : List Char,
      (u ++ t).takeWhile (fun d => !isJsWs d) = u.takeWhile (fun d => !isJsWs d) := by
  intro u
  induction u with
  | nil =>
    cases t with
    | nil => rfl
    | cons w t' =>
      simp only [List.nil_append, List.takeWhile_nil]
      exact List.takeWhile_cons_of_neg
        (by simp [ht w (List.mem_cons_self w t')])
  | cons a u' ih =>
    by_cases ha : isJsWs a = true
    · rw [List.cons_append,
          List.takeWhile_cons_of_neg (by simp [ha]),
          List.takeWhile_cons_of_neg (by simp [ha])]
    · rw [List.cons_append,
          List.takeWhile_cons_of_pos (by simpa using ha),
          List.takeWhile_cons_of_pos (by simpa using ha), ih]

theorem dropWhile_notWs_append {t : List Char} (ht : ∀ c ∈ t, isJsWs c = true) :
    ∀ u : List Char,
      (u ++ t).dropWhile (fun d => !isJsWs d) = u.dropWhile (fun d => !isJsWs d) ++ t := by
  intro u
  induction u with
  | nil =>
    cases t with
    | nil => rfl
    | cons w t' =>
      simp only [List.nil_append, List.dropWhile_nil]
      exact List.dropWhile_cons_of_neg
        (by simp [ht w (List.mem_cons_self w t')])
  | cons a u' ih =>
    by_cases ha : isJsWs a = true
    · rw [List.cons_append,
          List.dropWhile_cons_of_neg (by simp [ha]),
          List.dropWhile_cons_of_neg (by simp [ha]),
          List.cons_append]
    · rw [List.cons_append,
          List.dropWhile_cons_of_pos (by simpa using ha),
          List.dropWhile_cons_of_pos (by simpa using ha), ih]

theorem words_append_ws {t : List Char} (ht : ∀ c ∈ t, isJsWs c = true) :
    ∀ u : List Char, words (u ++ t) = words u := by
  have H : ∀ (n : Nat) (u : List Char), u.length ≤ n → words (u ++ t) = words u := by
    intro n
    induction n with
    | zero =>
      intro u hu
      have : u = [] := List.eq_nil_of_length_eq_zero (Nat.le_zero.mp hu)
      subst this
      simpa [words] using words_nil_of_allWs ht
    | succ n ih =>
      intro u hu
      cases u with
      | nil => simpa [words] using words_nil_of_allWs ht
      | cons a u' =>
        by_cases ha : isJsWs a = true
        · rw [List.cons_append, words, if_pos ha, words, if_pos ha]
          exact ih u' (by simpa using Nat.le_of_succ_le_succ hu)
        · rw [List.cons_append, words, if_neg (by simp [ha]), words, if_neg (by simp [ha])]
          rw [takeWhile_notWs_append ht, dropWhile_notWs_append ht]
          have hlen : (u'.dropWhile (fun d => !isJsWs d)).length ≤ n := by
            have h0 : (u'.dropWhile (fun d => !isJsWs d)).length ≤ u'.length :=
              (List.dropWhile_sublist _).length_le
            simp at hu
            omega
          rw [ih _ hlen]
  exact fun u => H u.length u Nat.le.refl

theorem collapse_notWs_append {w : List Char} (hw : ∀ c ∈ w, isJsWs c = false) :
    ∀ r : List Char, collapseWsAux false (w ++ r) = w ++ collapseWsAux false r := by
  intro r
  induction w with
  | nil => rfl
  | cons a w' ih =>
    have ha : isJsWs a = false := hw a (List.mem_cons_self a w')
    rw [List.cons_append, collapseWsAux.eq_def]
    simp only [ha, Bool.false_eq_true, if_false]
    rw [ih (fun c hc => hw c (List.mem_cons_of_mem a hc))]
    rfl

theorem collapse_true_dropWhile (l : List Char) :
    collapseWsAux true l = collapseWsAux false (l.dropWhile isJsWs) := by
  induction l with
  | nil => rfl
  | cons a t ih =>
    by_cases ha : isJsWs a = true
    · rw [List.dropWhile_cons_of_pos ha, ← ih]
      simp [collapseWsAux, ha]
    · rw [List.dropWhile_cons_of_neg (by simpa using ha)]
      simp [collapseWsAux, ha]

theorem collapse_eq_joinDash_words :
    ∀ (n : Nat) (l : List Char), l.length ≤ n →
    (∀ c, l.head? = some c → isJsWs c = false) →
    (∀ c, l.getLast? = some c → isJsWs c = false) →
    collapseWsAux false l = joinDash (words l) := by
  intro n
  induction n with
  | zero =>
    intro l hl _ _
    have : l = [] := List.eq_nil_of_length_eq_zero (Nat.le_zero.mp hl)
    subst this
    simp [words, joinDash, collapseWsAux]
  | succ n ih =>
    intro l hl hHead hLast
    cases l with
    | nil => simp [words, joinDash, collapseWsAux]
    | cons a t =>
      have ha : isJsWs a = false := hHead a rfl
      rw [words, if_neg (by simp [ha])]
      have hcol : collapseWsAux false (a :: t) = a :: collapseWsAux false t := by
        simp [collapseWsAux, ha]
      rw [hcol]
      set tk := t.takeWhile (fun d => !isJsWs d) with htk
      set dp := t.dropWhile (fun d => !isJsWs d) with hdp0
      have hsplit : t = tk ++ dp := (List.takeWhile_append_dropWhile _ _).symm
      have htkmem : ∀ c ∈ tk, isJsWs c = false := by
        intro c hc
        have := List.mem_takeWhile_imp hc
        simpa using this
      have hc2 : collapseWsAux false t = tk ++ collapseWsAux false dp := by
        conv_lhs => rw [hsplit]
        exact collapse_notWs_append htkmem dp
      cases hdp : dp with
      | nil =>
        rw [hdp] at hc2
        rw [hc2]
        simp [words, joinDash, collapseWsAux]
      | cons d ds =>
        have hd : isJsWs d = true := by
          have h0 := List.head?_dropWhile_not (fun d => !isJsWs d) t
          rw [← hdp0, hdp] at h0
          simpa using h0
        have hc3 : collapseWsAux false (d :: ds) = '-' :: collapseWsAux true ds := by
          simp [collapseWsAux, hd]
        have hc4 : collapseWsAux true ds = collapseWsAux false (ds.dropWhile isJsWs) :=
          collapse_true_dropWhile ds
        have hwordsdp : words (d :: ds) = words (ds.dropWhile isJsWs) := by
          rw [words, if_pos hd, words_dropWhile_ws]
        cases hl2e : ds.dropWhile isJsWs with
        | nil =>
          exfalso
          have hdsws : ∀ c ∈ ds, isJsWs c = true := List.dropWhile_eq_nil_iff.mp hl2e
          have hne : (d :: ds) ≠ [] := by simp
          have heq : a :: t = (a :: tk) ++ (d :: ds) := by
            rw [hsplit, hdp]
            rfl
          have hlast1 : (a :: t).getLast? = (d :: ds).getLast? := by
            rw [heq]
            exact List.getLast?_append_of_ne_nil _ hne
          have hlast2 : (d :: ds).getLast? = some ((d :: ds).getLast hne) :=
            List.getLast?_eq_getLast _ hne
          have hmem := List.getLast_mem hne
          have hwse : isJsWs ((d :: ds).getLast hne) = true := by
            rcases List.mem_cons.mp hmem with h | h
            · rw [h]; exact hd
            · exact hdsws _ h
          have hfalse := hLast _ (by rw [hlast1, hlast2])
          rw [hfalse] at hwse
          cases hwse
        | cons x xs =>
          have hx : isJsWs x = false := by
            have h0 := List.head?_dropWhile_not isJsWs ds
            rw [hl2e] at h0
            simpa using h0
          have hwne : words (ds.dropWhile isJsWs) ≠ [] := by
            rw [hl2e, words, if_neg (by simp [hx])]
            simp
          have hlen : (ds.dropWhile isJsWs).length ≤ n := by
            have e1 : (ds.dropWhile isJsWs).length ≤ ds.length :=
              (List.dropWhile_sublist _).length_le
            have e2 : dp.length ≤ t.length := by
              rw [hdp0]
              exact (List.dropWhile_sublist _).length_le
            have e3 : ds.length < dp.length := by rw [hdp]; simp
            simp only [List.length_cons] at hl
            omega
          have hHead2 : ∀ c, (ds.dropWhile isJsWs).head? = some c → isJsWs c = false := by
            intro c hc
            rw [hl2e] at hc
            simp only [List.head?_cons, Option.some.injEq] at hc
            rwa [← hc]
          have hLast2 : ∀ c, (ds.dropWhile isJsWs).getLast? = some c → isJsWs c = false := by
            intro c hc
            apply hLast
            have hds : ds = ds.takeWhile isJsWs ++ ds.dropWhile isJsWs :=
              (List.takeWhile_append_dropWhile _ _).symm
            have heq : a :: t = ((a :: tk) ++ (d :: ds.takeWhile isJsWs)) ++ ds.dropWhile isJsWs := by
              rw [hsplit, hdp]
              conv_lhs => rw [hds]
              simp
            rw [heq, List.getLast?_append_of_ne_nil _ (by rw [hl2e]; simp)]
            exact hc
          have hIH := ih (ds.dropWhile isJsWs) hlen hHead2 hLast2
          rw [hdp] at hc2
          rw [hc2, hc3, hc4, hIH, hwordsdp]
          obtain ⟨w0, ws0, hw⟩ : ∃ w0 ws0, words (ds.dropWhile isJsWs) = w0 :: ws0 := by
            cases hwl : words (ds.dropWhile isJsWs) with
            | nil => exact absurd hwl hwne
            | cons w0 ws0 => exact ⟨w0, ws0, rfl⟩
          rw [hw]
          rfl

theorem head_trimList_not_ws (l : List Char) :
    ∀ c, (trimList l).head? = some c → isJsWs c = false := by
  intro c hc
  unfold trimList at hc
  rw [List.head?_reverse] at hc
  have hYne : (List.dropWhile isJsWs (List.dropWhile isJsWs l).reverse) ≠ [] := by
    intro h
    rw [h] at hc
    simp at hc
  have hsplit : (List.dropWhile isJsWs l).reverse =
      List.takeWhile isJsWs (List.dropWhile isJsWs l).reverse ++
        List.dropWhile isJsWs (List.dropWhile isJsWs l).reverse :=
    (List.takeWhile_append_dropWhile _ _).symm
  have h1 : ((List.dropWhile isJsWs l).reverse).getLast? = some c := by
    rw [hsplit, List.getLast?_append_of_ne_nil _ hYne]
    exact hc
  rw [List.getLast?_reverse] at h1
  have h0 := List.head?_dropWhile_not isJsWs l
  rw [h1] at h0
  simpa using h0

theorem last_trimList_not_ws (l : List Char) :
    ∀ c, (trimList l).getLast? = some c → isJsWs c = false := by
  intro c hc
  unfold trimList at hc
  rw [List.getLast?_reverse] at hc
  have h0 := List.head?_dropWhile_not isJsWs (List.dropWhile isJsWs l).reverse
  rw [hc] at h0
  simpa using h0

theorem words_trimList (l : List Char) : words (trimList l) = words l := by
  have hsplit : (List.dropWhile isJsWs l).reverse =
      List.takeWhile isJsWs (List.dropWhile isJsWs l).reverse ++
        List.dropWhile isJsWs (List.dropWhile isJsWs l).reverse :=
    (List.takeWhile_append_dropWhile _ _).symm
  have hm : List.dropWhile isJsWs l =
      trimList l ++ (List.takeWhile isJsWs (List.dropWhile isJsWs l).reverse).reverse := by
    unfold trimList
    calc List.dropWhile isJsWs l
        = ((List.dropWhile isJsWs l).reverse).reverse := (List.reverse_reverse _).symm
      _ = (List.takeWhile isJsWs (List.dropWhile isJsWs l).reverse ++
            List.dropWhile isJsWs (List.dropWhile isJsWs l).reverse).reverse := by
          rw [← hsplit]
      _ = (List.dropWhile isJsWs (List.dropWhile isJsWs l).reverse).reverse ++
            (List.takeWhile isJsWs (List.dropWhile isJsWs l).reverse).reverse :=
          List.reverse_append _ _
  have htws : ∀ c ∈ (List.takeWhile isJsWs (List.dropWhile isJsWs l).reverse).reverse,
      isJsWs c = true := by
    intro c hc
    exact List.mem_takeWhile_imp (List.mem_reverse.mp hc)
  calc words (trimList l)
      = words (trimList l ++
          (List.takeWhile isJsWs (List.dropWhile isJsWs l).reverse).reverse) :=
        (words_append_ws htws _).symm
    _ = words (List.dropWhile isJsWs l) := by rw [← hm]
    _ = words l := words_dropWhile_ws l

/-- C6: the sanitizer is exactly the four-stage transform in the specified
order — delete the illegal characters, trim, collapse whitespace runs to a
single dash, lowercase (stated via the equivalent spec-side split-and-join
formulation) — and on the spec's example it yields `my-site!-3`. -/
theorem sanitize_matches_spec :
    (∀ x : String, sanitizeForFilename x = sanitizeSpec x) ∧
    sanitizeForFilename "My Site! <3" = "my-site!-3" := by
  constructor
  · intro x
    unfold sanitizeForFilename sanitizeSpec
    congr 1
    congr 1
    rw [collapse_eq_joinDash_words (trimList (removeIllegal x.toList)).length _
          Nat.le.refl (head_trimList_not_ws _) (last_trimList_not_ws _),
        words_trimList]
  · decide

/-! ### Resolver theorems -/

/-- C2: the resolver applies the identity-provider special case exactly when
the final response URL's hostname is `accounts.google.com` and it carries a
`continue` query parameter whose value parses as a URL, replacing both
hostname and display title by the continue URL's host; when the continue value
fails to parse (including the empty value, which `new URL` rejects), the
auth-provider hostname is kept. -/
theorem resolve_special_case (parseUrl : String → Option URLRecord)
    (hempty : parseUrl "" = none) (u f : String) (r : URLRecord)
    (hf : parseUrl f = some r) :
    fetchPageData parseUrl (some f) u =
      some ⟨(specialCaseHost parseUrl r).getD r.hostname,
            (specialCaseHost parseUrl r).getD r.hostname⟩ := by
  by_cases hh : r.hostname = "accounts.google.com"
  · cases hg : searchParamsGet r.searchParams "continue" with
    | none => simp [fetchPageData, hf, specialCaseHost, searchParamsHas, hg, hh]
    | some v =>
      by_cases hv : v = ""
      · subst hv
        simp [fetchPageData, hf, specialCaseHost, searchParamsHas, hg, hh, hempty]
      · cases hpv : parseUrl v with
        | none =>
          simp [fetchPageData, hf, specialCaseHost, searchParamsHas, hg, hh, hv, hpv]
        | some cu =>
          simp [fetchPageData, hf, specialCaseHost, searchParamsHas, hg, hh, hv, hpv]
  · simp [fetchPageData, hf, specialCaseHost, searchParamsHas, hh]

theorem resolve_special_case_witness :
    fetchPageData parseUrlSimple
      (some "https://accounts.google.com/signin?continue=https://mail.example.com/mail")
      "https://mail.google.com/" =
      some ⟨"mail.example.com", "mail.example.com"⟩ := by
  have h := resolve_special_case parseUrlSimple (by decide)
    "https://mail.google.com/"
    "https://accounts.google.com/signin?continue=https://mail.example.com/mail"
    ⟨"accounts.google.com", [("continue", "https://mail.example.com/mail")]⟩
    (by decide)
  rw [h]
  decide

/-- C3: when the page fetch fails (network error / timeout, modelled as a
missing final URL) or the final response URL does not parse, the resolver
falls back to parsing the original input URL, returning its host as both
hostname and display title, and no exception escapes (the result is `some`). -/
theorem resolve_failure_fallback (parseUrl : String → Option URLRecord)
    (u : String) (p : URLRecord) (hp : parseUrl u = some p) :
    fetchPageData parseUrl none u = some ⟨p.hostname, p.hostname⟩ ∧
    ∀ f : String, parseUrl f = none →
      fetchPageData parseUrl (some f) u = some ⟨p.hostname, p.hostname⟩ := by
  constructor
  · simp [fetchPageData, hp]
  · intro f hf
    simp [fetchPageData, hp, hf]

theorem resolve_failure_fallback_witness :
    fetchPageData parseUrlSimple none "https://mail.google.com/inbox" =
      some ⟨"mail.google.com", "mail.google.com"⟩ ∧
    fetchPageData parseUrlSimple (some "nonsense") "https://mail.google.com/inbox" =
      some ⟨"mail.google.com", "mail.google.com"⟩ := by
  have h := resolve_failure_fallback parseUrlSimple "https://mail.google.com/inbox"
    ⟨"mail.google.com", []⟩ (by decide)
  exact ⟨h.1, h.2 "nonsense" (by decide)⟩

theorem fetchPageData_isSome (parseUrl : String → Option URLRecord)
    (fr : Option String) (u : String) (r : URLRecord) (h : parseUrl u = some r) :
    (fetchPageData parseUrl fr u).isSome = true := by
  unfold fetchPageData
  cases fr with
  | none => simp [h]
  | some f =>
    cases hf : parseUrl f with
    | none => simp [h, hf]
    | some rr =>
      simp only [hf]
      split
      · split
        · split
          · split <;> simp
          · simp
        · simp
      · simp

/-! ### Click-handler rendering theorems -/

theorem substAux_id (m p q : List Char) :
    ∀ (n : Nat) (l : List Char), l.length ≤ n → hasDollarPat l = false →
      substAux m p q l = l := by
  intro n
  induction n with
  | zero =>
    intro l hl _
    have : l = [] := List.eq_nil_of_length_eq_zero (Nat.le_zero.mp hl)
    subst this
    rfl
  | succ n ih =>
    intro l hl hd
    cases l with
    | nil => rfl
    | cons c rest =>
      by_cases hc : c = '$'
      · subst hc
        cases rest with
        | nil => rfl
        | cons d rest2 =>
          have hde : hasDollarPat ('$' :: d :: rest2) =
              if (d = '$' || d = '&' || d = Char.ofNat 96 || d = Char.ofNat 39) then true
              else hasDollarPat (d :: rest2) := rfl
          rw [hde] at hd
          by_cases hds : (d = '$' || d = '&' || d = Char.ofNat 96 || d = Char.ofNat 39) = true
          · rw [if_pos hds] at hd
            cases hd
          · rw [if_neg (by simpa using hds)] at hd
            simp only [Bool.or_eq_true, decide_eq_true_eq] at hds
            push_neg at hds
            obtain ⟨⟨⟨h1, h2⟩, h3⟩, h4⟩ := hds
            have hse : substAux m p q ('$' :: d :: rest2) =
                if d = '$' then '$' :: substAux m p q rest2
                else if d = '&' then m ++ substAux m p q rest2
                else if d = Char.ofNat 96 then p ++ substAux m p q rest2
                else if d = Char.ofNat 39 then q ++ substAux m p q rest2
                else '$' :: substAux m p q (d :: rest2) := rfl
            rw [hse, if_neg h1, if_neg h2, if_neg h3, if_neg h4]
            have hlen : (d :: rest2).length ≤ n := by
              simp only [List.length_cons] at hl ⊢
              omega
            rw [ih (d :: rest2) hlen hd]
      · have hstep : substAux m p q (c :: rest) = c :: substAux m p q rest := by
          rw [substAux.eq_def]
          simp only [if_neg hc]
        have hd' : hasDollarPat rest = false := by
          rw [hasDollarPat.eq_def] at hd
          simp only [if_neg hc] at hd
          exact hd
        have hlen : rest.length ≤ n := by
          simp only [List.length_cons] at hl
          omega
        rw [hstep, ih rest hlen hd']

theorem substAux_id_of_no_pat (m p q l : List Char) (h : hasDollarPat l = false) :
    substAux m p q l = l :=
  substAux_id m p q l.length l Nat.le.refl h

theorem renderBackground_verbatim (url : String) (h : hasDollarPat url.toList = false) :
    renderBackground backgroundTemplate url = bgPre ++ url ++ bgPost := by
  unfold renderBackground jsReplaceFirst
  have hsplit : splitOnFirst "__DEFAULT_URL__".toList backgroundTemplate.toList =
      some (bgPre.toList, bgPost.toList) := by decide
  rw [hsplit]
  show (⟨bgPre.toList ++
      substAux "__DEFAULT_URL__".toList bgPre.toList bgPost.toList url.toList ++
      bgPost.toList⟩ : String) = bgPre ++ url ++ bgPost
  rw [substAux_id_of_no_pat _ _ _ _ h]
  rfl

/-- C1 (amended): for every valid input URL whose text contains no JavaScript
replacement pattern (`$$`, `$&`, dollar-backquote, dollar-apostrophe), the
content written to `background.js` embeds the original, unresolved input URL
verbatim as the default-navigation value — for every page-resolution outcome,
including ones where the identity-provider rule changed the hostname. -/
theorem background_embeds_original_url
    (parseUrl : String → Option URLRecord) (argv : List String)
    (cwd : String) (dirExists : Bool) (optionsHtml optionsJs : String)
    (pageFetch : Option String) (iconFetch : IconFetchResult)
    (url : String) (r : URLRecord)
    (hargv : argv.get? 2 = some url) (hne : url ≠ "")
    (hurl : parseUrl url = some r)
    (hnd : hasDollarPat url.toList = false) :
    ∃ dir : String,
      Effect.writeFile (joinPath dir "background.js") (bgPre ++ url ++ bgPost) ∈
        (mainRun parseUrl argv cwd dirExists backgroundTemplate optionsHtml optionsJs
          pageFetch iconFetch).trace := by
  cases hpd : fetchPageData parseUrl pageFetch url with
  | none =>
    have := fetchPageData_isSome parseUrl pageFetch url r hurl
    rw [hpd] at this
    cases this
  | some pd =>
    unfold mainRun
    simp only [hargv, if_neg hne, hurl, hpd]
    refine ⟨joinPath cwd (extensionDirName pd.pageTitle), ?_⟩
    rw [← renderBackground_verbatim url hnd]
    cases iconFetch <;> cases dirExists <;> simp

theorem background_embeds_original_url_witness :
    ∃ dir : String,
      Effect.writeFile (joinPath dir "background.js")
        (bgPre ++ "https://mail.google.com/?authuser=me@example.com#inbox" ++ bgPost) ∈
        (mainRun parseUrlSimple
          ["bun", "createExtension.ts", "https://mail.google.com/?authuser=me@example.com#inbox"]
          "." false backgroundTemplate "OH" "OJ" none (IconFetchResult.ok [])).trace :=
  background_embeds_original_url parseUrlSimple
    ["bun", "createExtension.ts", "https://mail.google.com/?authuser=me@example.com#inbox"]
    "." false "OH" "OJ" none (IconFetchResult.ok [])
    "https://mail.google.com/?authuser=me@example.com#inbox"
    ⟨"mail.google.com", [("authuser", "me@example.com")]⟩
    (by decide) (by decide) (by decide) (by decide)

/-- C1 counterexample: the input `https://x.com/?a=$&` is a valid URL, yet
the rendered click-handler script does not embed it verbatim — the `$&`
replacement pattern makes `String.replace` re-insert the matched placeholder
instead. -/
theorem background_dollar_cex :
    (parseUrlSimple "https://x.com/?a=$&").isSome = true ∧
    renderBackground backgroundTemplate "https://x.com/?a=$&" ≠
      bgPre ++ "https://x.com/?a=$&" ++ bgPost := by
  decide

/-! ### Main-run theorems -/

/-- C8: with a missing URL argument (including the empty string, which the
argument check treats as missing), or an argument that does not parse as a
URL, the run exits with status 1 and its entire effect trace is a single
error-log line — no fetch, no directory creation, no file write. -/
theorem invalid_input_fails_fast (parseUrl : String → Option URLRecord)
    (argv : List String) (cwd : String) (dirExists : Bool)
    (bgTemplate optionsHtml optionsJs : String) (pageFetch : Option String)
    (iconFetch : IconFetchResult)
    (h : argv.get? 2 = none ∨
      ∃ u, argv.get? 2 = some u ∧ (u = "" ∨ parseUrl u = none)) :
    (mainRun parseUrl argv cwd dirExists bgTemplate optionsHtml optionsJs
        pageFetch iconFetch).exitCode = 1 ∧
    ∃ m, (mainRun parseUrl argv cwd dirExists bgTemplate optionsHtml optionsJs
        pageFetch iconFetch).trace = [Effect.logError m] := by
  rcases h with h | ⟨u, hu, h2⟩
  · unfold mainRun
    simp only [h]
    exact ⟨by trivial, usageMsg, by trivial⟩
  · rcases h2 with h2 | h2
    · subst h2
      unfold mainRun
      simp only [hu, if_pos rfl]
      exact ⟨by trivial, usageMsg, by trivial⟩
    · by_cases hue : u = ""
      · subst hue
        unfold mainRun
        simp only [hu, if_pos rfl]
        exact ⟨by trivial, usageMsg, by trivial⟩
      · unfold mainRun
        simp only [hu, if_neg hue, h2]
        exact ⟨by trivial, "Error: Invalid URL provided.", by trivial⟩

theorem invalid_input_fails_fast_witness :
    (mainRun parseUrlSimple ["bun", "createExtension.ts", "not a url"] "." false
        backgroundTemplate "OH" "OJ" none (IconFetchResult.ok [])).exitCode = 1 ∧
    ∃ m, (mainRun parseUrlSimple ["bun", "createExtension.ts", "not a url"] "." false
        backgroundTemplate "OH" "OJ" none (IconFetchResult.ok [])).trace =
      [Effect.logError m] :=
  invalid_input_fails_fast parseUrlSimple ["bun", "createExtension.ts", "not a url"]
    "." false backgroundTemplate "OH" "OJ" none (IconFetchResult.ok [])
    (Or.inr ⟨"not a url", by decide, Or.inr (by decide)⟩)

/-- C4: when the favicon fetch returns a non-success status or throws a
transport error, the run exits with status 1, logs no success-confirmation
line, writes no icon bytes (no partial icon set, no placeholder), and the
trace contains exactly one icon-fetch attempt (no retry). -/
theorem icon_failure_aborts (parseUrl : String → Option URLRecord)
    (argv : List String) (cwd : String) (dirExists : Bool)
    (bgTemplate optionsHtml optionsJs : String) (pageFetch : Option String)
    (iconFetch : IconFetchResult) (url : String) (r : URLRecord)
    (hargv : argv.get? 2 = some url) (hne : url ≠ "")
    (hurl : parseUrl url = some r)
    (hfail : ∀ b, iconFetch ≠ IconFetchResult.ok b) :
    (mainRun parseUrl argv cwd dirExists bgTemplate optionsHtml optionsJs
        pageFetch iconFetch).exitCode = 1 ∧
    (∀ m, Effect.logInfo m ∉ (mainRun parseUrl argv cwd dirExists bgTemplate
        optionsHtml optionsJs pageFetch iconFetch).trace) ∧
    (∀ p b, Effect.writeBinary p b ∉ (mainRun parseUrl argv cwd dirExists bgTemplate
        optionsHtml optionsJs pageFetch iconFetch).trace) ∧
    ((mainRun parseUrl argv cwd dirExists bgTemplate optionsHtml optionsJs
        pageFetch iconFetch).trace.countP (fun e => match e with
        | Effect.fetchIcon _ => true
        | _ => false)) = 1 := by
  cases hpd : fetchPageData parseUrl pageFetch url with
  | none =>
    have := fetchPageData_isSome parseUrl pageFetch url r hurl
    rw [hpd] at this
    cases this
  | some pd =>
    unfold mainRun
    simp only [hargv, if_neg hne, hurl, hpd]
    cases iconFetch with
    | ok b => exact absurd rfl (hfail b)
    | httpError status =>
      refine ⟨rfl, ?_, ?_, ?_⟩ <;> cases dirExists <;> simp [List.countP_cons]
    | netError msg =>
      refine ⟨rfl, ?_, ?_, ?_⟩ <;> cases dirExists <;> simp [List.countP_cons]

theorem icon_failure_aborts_witness :
    (mainRun parseUrlSimple ["bun", "createExtension.ts", "https://mail.google.com/"]
        "." false backgroundTemplate "OH" "OJ" none (IconFetchResult.httpError 404)).exitCode = 1 ∧
    (∀ m, Effect.logInfo m ∉ (mainRun parseUrlSimple
        ["bun", "createExtension.ts", "https://mail.google.com/"]
        "." false backgroundTemplate "OH" "OJ" none (IconFetchResult.httpError 404)).trace) ∧
    (∀ p b, Effect.writeBinary p b ∉ (mainRun parseUrlSimple
        ["bun", "createExtension.ts", "https://mail.google.com/"]
        "." false backgroundTemplate "OH" "OJ" none (IconFetchResult.httpError 404)).trace) ∧
    ((mainRun parseUrlSimple ["bun", "createExtension.ts", "https://mail.google.com/"]
        "." false backgroundTemplate "OH" "OJ" none
        (IconFetchResult.httpError 404)).trace.countP (fun e => match e with
        | Effect.fetchIcon _ => true
        | _ => false)) = 1 :=
  icon_failure_aborts parseUrlSimple ["bun", "createExtension.ts", "https://mail.google.com/"]
    "." false backgroundTemplate "OH" "OJ" none (IconFetchResult.httpError 404)
    "https://mail.google.com/" ⟨"mail.google.com", []⟩
    (by decide) (by decide) (by decide) (by intro b h; cases h)

/-- C9: on a fatal favicon-fetch failure there is no rollback — the four text
artifacts (manifest, click-handler script, options markup, options script)
written before the icon fetch are still present in the effect trace, and the
trace contains no deletion effect at all. -/
theorem no_rollback_on_icon_failure (parseUrl : String → Option URLRecord)
    (argv : List String) (cwd : String) (dirExists : Bool)
    (bgTemplate optionsHtml optionsJs : String) (pageFetch : Option String)
    (iconFetch : IconFetchResult) (url : String) (r : URLRecord)
    (hargv : argv.get? 2 = some url) (hne : url ≠ "")
    (hurl : parseUrl url = some r)
    (hfail : ∀ b, iconFetch ≠ IconFetchResult.ok b) :
    ∃ dir : String,
      (∃ c, Effect.writeFile (joinPath dir "manifest.json") c ∈
        (mainRun parseUrl argv cwd dirExists bgTemplate optionsHtml optionsJs
          pageFetch iconFetch).trace) ∧
      Effect.writeFile (joinPath dir "background.js") (renderBackground bgTemplate url) ∈
        (mainRun parseUrl argv cwd dirExists bgTemplate optionsHtml optionsJs
          pageFetch iconFetch).trace ∧
      Effect.writeFile (joinPath dir "options.html") optionsHtml ∈
        (mainRun parseUrl argv cwd dirExists bgTemplate optionsHtml optionsJs
          pageFetch iconFetch).trace ∧
      Effect.writeFile (joinPath dir "options.js") optionsJs ∈
        (mainRun parseUrl argv cwd dirExists bgTemplate optionsHtml optionsJs
          pageFetch iconFetch).trace ∧
      ∀ p, Effect.removePath p ∉
        (mainRun parseUrl argv cwd dirExists bgTemplate optionsHtml optionsJs
          pageFetch iconFetch).trace := by
  cases hpd : fetchPageData parseUrl pageFetch url with
  | none =>
    have := fetchPageData_isSome parseUrl pageFetch url r hurl
    rw [hpd] at this
    cases this
  | some pd =>
    unfold mainRun
    simp only [hargv, if_neg hne, hurl, hpd]
    refine ⟨joinPath cwd (extensionDirName pd.pageTitle), ?_, ?_, ?_, ?_, ?_⟩ <;>
      cases iconFetch with
      | ok b => exact absurd rfl (hfail b)
      | httpError status => cases dirExists <;> simp [manifestJson]
      | netError msg => cases dirExists <;> simp [manifestJson]

theorem no_rollback_on_icon_failure_witness :
    ∃ dir : String,
      (∃ c, Effect.writeFile (joinPath dir "manifest.json") c ∈
        (mainRun parseUrlSimple ["bun", "createExtension.ts", "https://mail.google.com/"]
          "." false backgroundTemplate "OH" "OJ" none (IconFetchResult.netError "boom")).trace) ∧
      Effect.writeFile (joinPath dir "background.js")
          (renderBackground backgroundTemplate "https://mail.google.com/") ∈
        (mainRun parseUrlSimple ["bun", "createExtension.ts", "https://mail.google.com/"]
          "." false backgroundTemplate "OH" "OJ" none (IconFetchResult.netError "boom")).trace ∧
      Effect.writeFile (joinPath dir "options.html") "OH" ∈
        (mainRun parseUrlSimple ["bun", "createExtension.ts", "https://mail.google.com/"]
          "." false backgroundTemplate "OH" "OJ" none (IconFetchResult.netError "boom")).trace ∧
      Effect.writeFile (joinPath dir "options.js") "OJ" ∈
        (mainRun parseUrlSimple ["bun", "createExtension.ts", "https://mail.google.com/"]
          "." false backgroundTemplate "OH" "OJ" none (IconFetchResult.netError "boom")).trace ∧
      ∀ p, Effect.removePath p ∉
        (mainRun parseUrlSimple ["bun", "createExtension.ts", "https://mail.google.com/"]
          "." false backgroundTemplate "OH" "OJ" none (IconFetchResult.netError "boom")).trace :=
  no_rollback_on_icon_failure parseUrlSimple
    ["bun", "createExtension.ts", "https://mail.google.com/"]
    "." false backgroundTemplate "OH" "OJ" none (IconFetchResult.netError "boom")
    "https://mail.google.com/" ⟨"mail.google.com", []⟩
    (by decide) (by decide) (by decide) (by intro b h; cases h)

/-- C5 counterexample: invoking the generator with the suffix argument
`beta` and a run resolving the title to `mail.google.com` creates the
directory `quick-launch-mail.google.com` — not the claimed
`quick-launch-mail.google.com-beta`; no suffixed directory name is ever
used. -/
theorem suffix_in_name_cex :
    Effect.mkdir (joinPath "." "quick-launch-mail.google.com") ∈
      (mainRun parseUrlSimple
        ["bun", "createExtension.ts", "https://mail.google.com/", "beta"]
        "." false backgroundTemplate "OH" "OJ" none (IconFetchResult.ok [])).trace ∧
    Effect.mkdir (joinPath "." "quick-launch-mail.google.com-beta") ∉
      (mainRun parseUrlSimple
        ["bun", "createExtension.ts", "https://mail.google.com/", "beta"]
        "." false backgroundTemplate "OH" "OJ" none (IconFetchResult.ok [])).trace ∧
    ((mainRun parseUrlSimple
        ["bun", "createExtension.ts", "https://mail.google.com/", "beta"]
        "." false backgroundTemplate "OH" "OJ" none (IconFetchResult.ok [])).trace.all
      (fun e => match e with
        | Effect.mkdir p => p = joinPath "." "quick-launch-mail.google.com"
        | _ => true)) = true := by
  decide

/-- C5 (amended): the source reads no suffix argument at all — a run with a
fourth command-line argument is identical, effect for effect, to the run
without it, and the output directory name is always `quick-launch-` followed
by the sanitized resolved title, with no suffix segment appended. -/
theorem suffix_ignored (parseUrl : String → Option URLRecord)
    (a0 a1 u suffix : String) (rest : List String) (cwd : String)
    (dirExists : Bool) (bgTemplate optionsHtml optionsJs : String)
    (pageFetch : Option String) (iconFetch : IconFetchResult)
    (r : URLRecord) (pd : PageData)
    (hne : u ≠ "") (hu : parseUrl u = some r)
    (hpd : fetchPageData parseUrl pageFetch u = some pd) :
    mainRun parseUrl ([a0, a1, u, suffix] ++ rest) cwd dirExists bgTemplate
        optionsHtml optionsJs pageFetch iconFetch =
      mainRun parseUrl [a0, a1, u] cwd dirExists bgTemplate
        optionsHtml optionsJs pageFetch iconFetch ∧
    (dirExists = false →
      Effect.mkdir (joinPath cwd ("quick-launch-" ++ sanitizeForFilename pd.pageTitle)) ∈
        (mainRun parseUrl ([a0, a1, u, suffix] ++ rest) cwd dirExists bgTemplate
          optionsHtml optionsJs pageFetch iconFetch).trace) := by
  constructor
  · rfl
  · intro hde
    subst hde
    unfold mainRun
    have hget : ([a0, a1, u, suffix] ++ rest).get? 2 = some u := rfl
    simp only [hget, if_neg hne, hu, hpd]
    cases iconFetch <;> simp [extensionDirName]

theorem suffix_ignored_witness :
    mainRun parseUrlSimple ["bun", "createExtension.ts", "https://mail.google.com/", "beta"]
        "." false backgroundTemplate "OH" "OJ" none (IconFetchResult.ok []) =
      mainRun parseUrlSimple ["bun", "createExtension.ts", "https://mail.google.com/"]
        "." false backgroundTemplate "OH" "OJ" none (IconFetchResult.ok []) ∧
    (false = false →
      Effect.mkdir (joinPath "." ("quick-launch-" ++ sanitizeForFilename "mail.google.com")) ∈
        (mainRun parseUrlSimple
          ["bun", "createExtension.ts", "https://mail.google.com/", "beta"]
          "." false backgroundTemplate "OH" "OJ" none (IconFetchResult.ok [])).trace) :=
  suffix_ignored parseUrlSimple "bun" "createExtension.ts" "https://mail.google.com/"
    "beta" [] "." false backgroundTemplate "OH" "OJ" none (IconFetchResult.ok [])
    ⟨"mail.google.com", []⟩ ⟨"mail.google.com", "mail.google.com"⟩
    (by decide) (by decide) (by decide)

end QuickLaunch
